import Mathlib

/-!
# NOMC dashboard: hierarchy builder and loss metrics

A shallow embedding of `assets/app.js` (the hierarchy reconstruction, the
energy / loss helpers and the query surface) and of the KPI totals of
`assets/kpi.js`, together with theorems about them.

Conventions of the embedding

* A JavaScript number is a `JSNum`: a finite value carried as an exact rational,
  or `NaN`, or one of the two infinities; the sign of zero is dropped.
* Arithmetic comes in two readings.  The operations `JSNum.sub`, `JSNum.mul`,
  `JSNum.div`, `JSNum.add` are exact, and `JSNum.rounded` takes an exact result
  to the binary64 number the machine delivers (round to nearest, ties to even,
  overflow to an infinity).  The helpers `computeEnergy`, `diffEnergy` and
  `lossOrNull` are embedded twice: with exact arithmetic, for the builder and
  for statements about signs, `null` and the shape of the model, and in the
  namespace `Binary64` with every operation rounded, for statements about the
  numbers they return.  `pct`, `pctLoss`, `sum`, the running sums of
  `buildResultsTable` and the conversion of a string to a number are embedded
  with rounded arithmetic.
* `null` and `undefined` results of the helpers are `Option.none`.
* Objects created by the builder live in per-kind object stores inside the
  state; a reference to an object is its position in the store.
-/

namespace NOMC

/-! ## Numbers -/

/-- A JavaScript number: finite (exact rational), `NaN`, `+Infinity` or `-Infinity`. -/
inductive JSNum where
  | fin (q : ℚ)
  | nan
  | posInf
  | negInf
  deriving DecidableEq

namespace JSNum

/-- The global `isFinite` on a number. -/
def isFinite : JSNum → Bool
  | fin _ => true
  | _ => false

/-- Truthiness of a number: everything but `0` and `NaN`. -/
def truthy : JSNum → Bool
  | fin q => decide (q ≠ 0)
  | nan => false
  | _ => true

/-- Binary `-`. -/
def sub : JSNum → JSNum → JSNum
  | fin a, fin b => fin (a - b)
  | nan, _ => nan
  | _, nan => nan
  | posInf, posInf => nan
  | negInf, negInf => nan
  | posInf, _ => posInf
  | negInf, _ => negInf
  | fin _, posInf => negInf
  | fin _, negInf => posInf

/-- Sign of an infinite product or quotient: `true` is `+Infinity`. -/
def ofSign (positive : Bool) : JSNum := if positive then posInf else negInf

/-- Binary `*`. -/
def mul : JSNum → JSNum → JSNum
  | fin a, fin b => fin (a * b)
  | nan, _ => nan
  | _, nan => nan
  | posInf, posInf => posInf
  | negInf, negInf => posInf
  | posInf, negInf => negInf
  | negInf, posInf => negInf
  | posInf, fin b => if b = 0 then nan else ofSign (decide (0 < b))
  | negInf, fin b => if b = 0 then nan else ofSign (decide (b < 0))
  | fin a, posInf => if a = 0 then nan else ofSign (decide (0 < a))
  | fin a, negInf => if a = 0 then nan else ofSign (decide (a < 0))

/-- Binary `/` (a zero divisor is taken as `+0`). -/
def div : JSNum → JSNum → JSNum
  | fin a, fin b =>
      if b = 0 then (if a = 0 then nan else ofSign (decide (0 < a))) else fin (a / b)
  | nan, _ => nan
  | _, nan => nan
  | fin _, posInf => fin 0
  | fin _, negInf => fin 0
  | posInf, fin b => ofSign (decide (0 ≤ b))
  | negInf, fin b => ofSign (decide (b < 0))
  | _, _ => nan

/-- The call `Math.max(0, x)`. -/
def max0 : JSNum → JSNum
  | fin a => fin (max 0 a)
  | nan => nan
  | posInf => posInf
  | negInf => fin 0

/-- Rounding of an exact value to two decimals, ties away from zero: what
`toFixed(2)` prints (it rounds the magnitude, picking the larger candidate on a
tie, and puts the sign back). -/
def round2 (x : ℚ) : ℚ :=
  if x < 0 then -((⌊(-x) * 100 + 1 / 2⌋ : ℤ) : ℚ) / 100
  else ((⌊x * 100 + 1 / 2⌋ : ℤ) : ℚ) / 100

/-- The idiom `Number(x.toFixed(2))`.  `NaN` and the infinities print as
themselves and read back unchanged.  (From `1e21` on `toFixed` prints the
number itself; a double that large is an integer, so two-decimal rounding
returns it unchanged as well.) -/
def toFixed2 : JSNum → JSNum
  | fin a => fin (round2 a)
  | x => x

/-- Rounding of a rational to the nearest integer, a tie going to the even
neighbour. -/
def roundHalfEven (x : ℚ) : ℤ :=
  if x - (⌊x⌋ : ℚ) < 1 / 2 then ⌊x⌋
  else if 1 / 2 < x - (⌊x⌋ : ℚ) then ⌊x⌋ + 1
  else if ⌊x⌋ % 2 = 0 then ⌊x⌋ else ⌊x⌋ + 1

/-- The binary exponent that fixes the spacing of the binary64 numbers around
`q`: the `e` with `2 ^ e ≤ |q| < 2 ^ (e + 1)`, and `-1022` for every smaller
magnitude (the subnormal range; for `q = 0` any spacing gives `0`). -/
def binade (q : ℚ) : ℤ := max (Int.log 2 |q|) (-1022)

/-- The binary64 number that a real value `q` is rounded to: the nearest
multiple of the spacing `2 ^ (binade q - 52)`, a tie going to the even
multiple, and an infinity when the rounded magnitude reaches `2 ^ 1024`. -/
def round64 (q : ℚ) : JSNum :=
  if (2 : ℚ) ^ (1024 : ℤ)
      ≤ |(roundHalfEven (q / (2 : ℚ) ^ (binade q - 52)) : ℚ) * (2 : ℚ) ^ (binade q - 52)| then
    (if 0 < q then posInf else negInf)
  else fin ((roundHalfEven (q / (2 : ℚ) ^ (binade q - 52)) : ℚ) * (2 : ℚ) ^ (binade q - 52))

/-- The result of an arithmetic operation as the machine delivers it: the
exact result rounded to binary64. -/
def rounded : JSNum → JSNum
  | fin q => round64 q
  | x => x

/-- The idiom `Number(x.toFixed(2))` on a binary64 number: `toFixed` rounds the
exact value of the number to two decimals (`round2`), and `Number` reads the
printed decimal back as the nearest binary64 number. -/
def toFixed64 (x : JSNum) : JSNum := (toFixed2 x).rounded

end JSNum

open JSNum

/-! ## Energy and loss helpers -/

/-- Source `computeEnergy(day1, day2)`; `none` is `null`. -/
def computeEnergy (day1 day2 : Option JSNum) : Option JSNum :=
  match day1, day2 with
  | some d1, some d2 =>
      let diff := JSNum.sub d2 d1
      if diff.isFinite then some (JSNum.max0 (toFixed2 diff)) else none
  | _, _ => none

/-- Source `diffEnergy(day1, day2, mf)`. -/
def diffEnergy (day1 day2 : Option JSNum) (mf : JSNum) : Option JSNum :=
  match computeEnergy day1 day2 with
  | none => none
  | some base =>
      let e := JSNum.mul base (if mf.isFinite then mf else fin 1)
      some (toFixed2 e)

/-- Source `lossOrNull(input, comparedSum)`. -/
def lossOrNull (input comparedSum : Option JSNum) : Option JSNum :=
  match input with
  | none => none
  | some i =>
      if i = fin 0 then none
      else some (toFixed2 (JSNum.mul (JSNum.div (JSNum.sub i (comparedSum.getD (fin 0))) i) (fin 100)))

namespace Binary64

/-- Source `computeEnergy(day1, day2)` in binary64 arithmetic. -/
def computeEnergy (day1 day2 : Option JSNum) : Option JSNum :=
  match day1, day2 with
  | some d1, some d2 =>
      let diff := (JSNum.sub d2 d1).rounded
      if diff.isFinite then some (JSNum.max0 (toFixed64 diff)) else none
  | _, _ => none

/-- Source `diffEnergy(day1, day2, mf)` in binary64 arithmetic. -/
def diffEnergy (day1 day2 : Option JSNum) (mf : JSNum) : Option JSNum :=
  match computeEnergy day1 day2 with
  | none => none
  | some base =>
      let e := (JSNum.mul base (if mf.isFinite then mf else fin 1)).rounded
      some (toFixed64 e)

/-- Source `lossOrNull(input, comparedSum)` in binary64 arithmetic. -/
def lossOrNull (input comparedSum : Option JSNum) : Option JSNum :=
  match input with
  | none => none
  | some i =>
      if i = fin 0 then none
      else some (toFixed64 (JSNum.mul (JSNum.div
        (JSNum.sub i (comparedSum.getD (fin 0))).rounded i).rounded (fin 100)).rounded)

end Binary64

/-! ## Cells, rows and the host conversions -/

/-- A raw cell of a sheet row as the workbook reader hands it over. -/
inductive Cell where
  | null
  | undef
  | num (n : JSNum)
  | str (s : String)
  | bool (b : Bool)
  deriving DecidableEq

/-- A row object: column label to cell, in column order. -/
abbrev Row := List (String × Cell)

/-- Property read `row[col]`; an absent property reads as `undefined`. -/
def field (row : Row) (col : String) : Cell :=
  (row.lookup col).getD Cell.undef

/-- White space and line terminators, as `trim` and `Number` strip them. -/
def isJSSpace (c : Char) : Bool :=
  let n := c.toNat
  n == 0x09 || n == 0x0A || n == 0x0B || n == 0x0C || n == 0x0D || n == 0x20 || n == 0xA0 ||
  n == 0x1680 || (decide (0x2000 ≤ n) && decide (n ≤ 0x200A)) || n == 0x2028 || n == 0x2029 ||
  n == 0x202F || n == 0x205F || n == 0x3000 || n == 0xFEFF

/-- The method `trim` on the characters of a string. -/
def jsTrim (cs : List Char) : List Char :=
  ((cs.dropWhile isJSSpace).reverse.dropWhile isJSSpace).reverse

/-- Value of one digit character (decimal or hexadecimal). -/
def digitVal (c : Char) : Option Nat :=
  if '0' ≤ c ∧ c ≤ '9' then some (c.toNat - 48)
  else if 'a' ≤ c ∧ c ≤ 'f' then some (c.toNat - 87)
  else if 'A' ≤ c ∧ c ≤ 'F' then some (c.toNat - 55)
  else none

/-- A non-empty run of digits in the given base. -/
def readDigits (base : Nat) (cs : List Char) : Option Nat :=
  if cs = [] then none
  else cs.foldl (fun acc c =>
    match acc, digitVal c with
    | some n, some d => if d < base then some (n * base + d) else none
    | _, _ => none) (some 0)

/-- An optionally signed run of decimal digits (the body of an exponent part). -/
def readSignedInt (cs : List Char) : Option ℤ :=
  match cs with
  | '-' :: ds => (readDigits 10 ds).map (fun n => -(n : ℤ))
  | '+' :: ds => (readDigits 10 ds).map (fun n => (n : ℤ))
  | ds => (readDigits 10 ds).map (fun n => (n : ℤ))

/-- An unsigned decimal literal: digits, optional fraction, optional exponent. -/
def readUnsignedDecimal (cs : List Char) : Option ℚ :=
  let mant := cs.takeWhile (fun c => c != 'e' && c != 'E')
  let rest := cs.dropWhile (fun c => c != 'e' && c != 'E')
  let ip := mant.takeWhile (fun c => c != '.')
  let fpart := mant.dropWhile (fun c => c != '.')
  let expo : Option ℤ :=
    match rest with
    | [] => some 0
    | _ :: e => readSignedInt e
  let m : Option ℚ :=
    match fpart with
    | [] => (readDigits 10 ip).map (fun n => (n : ℚ))
    | _ :: fd =>
        if ip = [] then (readDigits 10 fd).map (fun n => (n : ℚ) / 10 ^ fd.length)
        else if fd = [] then (readDigits 10 ip).map (fun n => (n : ℚ))
        else
          match readDigits 10 ip, readDigits 10 fd with
          | some a, some b => some ((a : ℚ) + (b : ℚ) / 10 ^ fd.length)
          | _, _ => none
  match m, expo with
  | some a, some e => some (a * (10 : ℚ) ^ e)
  | _, _ => none

/-- The host conversion `Number(s)` of a string: trimmed; empty is `0`; a
decimal literal, `Infinity` or a `0x` / `0o` / `0b` integer is the binary64
number nearest to its value; anything else is `NaN`. -/
def stringToNumber (s : String) : JSNum :=
  match jsTrim s.toList with
  | [] => fin 0
  | '0' :: 'x' :: ds => ((readDigits 16 ds).map (fun n => round64 (n : ℚ))).getD nan
  | '0' :: 'X' :: ds => ((readDigits 16 ds).map (fun n => round64 (n : ℚ))).getD nan
  | '0' :: 'o' :: ds => ((readDigits 8 ds).map (fun n => round64 (n : ℚ))).getD nan
  | '0' :: 'O' :: ds => ((readDigits 8 ds).map (fun n => round64 (n : ℚ))).getD nan
  | '0' :: 'b' :: ds => ((readDigits 2 ds).map (fun n => round64 (n : ℚ))).getD nan
  | '0' :: 'B' :: ds => ((readDigits 2 ds).map (fun n => round64 (n : ℚ))).getD nan
  | '-' :: body =>
      if body = "Infinity".toList then negInf
      else ((readUnsignedDecimal body).map (fun q => round64 (-q))).getD nan
  | '+' :: body =>
      if body = "Infinity".toList then posInf
      else ((readUnsignedDecimal body).map (fun q => round64 q)).getD nan
  | body =>
      if body = "Infinity".toList then posInf
      else ((readUnsignedDecimal body).map (fun q => round64 q)).getD nan

/-- The host conversion `Number(v)` of a cell. -/
def toNumber : Cell → JSNum
  | Cell.null => fin 0
  | Cell.undef => nan
  | Cell.num n => n
  | Cell.str s => stringToNumber s
  | Cell.bool b => if b then fin 1 else fin 0

/-- The idiom `x || 1` on a number. -/
def orOne (n : JSNum) : JSNum := if n.truthy then n else fin 1

/-- Source `parseYesNo(v)`.  For a string the text is trimmed and lower-cased
and compared with the eight tokens (none of them is the lower-case image of a
non-ASCII letter, so ASCII lower-casing decides the comparison); an
unrecognised string falls back to `Boolean(v)`, true when it is non-empty.
For a number `String(v)` is `"1"` only for `1`, `"0"` only for `0` and never
one of the words, so the fallback `Boolean(v)` decides all other numbers; for
a boolean `String(v)` is `"true"` or `"false"`. -/
def parseYesNo : Cell → Bool
  | Cell.null => false
  | Cell.undef => false
  | Cell.str v =>
      let s := (jsTrim v.toList).map Char.toLower
      if s = "yes".toList ∨ s = "y".toList ∨ s = "true".toList ∨ s = "1".toList then true
      else if s = "no".toList ∨ s = "n".toList ∨ s = "false".toList ∨ s = "0".toList then false
      else !v.toList.isEmpty
  | Cell.num n => if n = fin 1 then true else if n = fin 0 then false else n.truthy
  | Cell.bool b => b

/-! ## Maps keyed by cells -/

/-- A JavaScript `Map` with cell keys: entries in insertion order.  Keys are
compared with SameValueZero, which on cells of this embedding is equality. -/
abbrev JSMap (V : Type) := List (Cell × V)

/-- The method `get`; `none` is `undefined`. -/
def mapGet {V : Type} : JSMap V → Cell → Option V
  | [], _ => none
  | (a, b) :: t, k => if a = k then some b else mapGet t k

/-- The method `has`. -/
def mapHas {V : Type} (m : JSMap V) (k : Cell) : Bool := (mapGet m k).isSome

/-- The method `set`: an existing key keeps its place and takes the new value,
a new key goes last. -/
def mapSet {V : Type} : JSMap V → Cell → V → JSMap V
  | [], k, v => [(k, v)]
  | (a, b) :: t, k, v => if a = k then (a, v) :: t else (a, b) :: mapSet t k v

/-! ## The model state -/

/-- A feeder object; `dts` and `meters` hold references into the DT and meter stores. -/
structure FeederObj where
  id : Cell
  name : Cell
  dts : List Nat
  meters : List Nat
  feederEnergy : Option JSNum
  comm : Bool
  nonComm : Bool
  region : Cell
  deriving DecidableEq

/-- A DT object; `meters` holds references into the meter store. -/
structure DtObj where
  id : Cell
  name : Cell
  meters : List Nat
  dtEnergy : Option JSNum
  comm : Bool
  nonComm : Bool
  unmapped : Bool
  neverComm : Bool
  feederId : Cell
  deriving DecidableEq

/-- A meter object. -/
structure MeterObj where
  id : Cell
  day1 : JSNum
  day2 : JSNum
  energy : Option JSNum
  comm : Bool
  nonComm : Bool
  unmapped : Bool
  neverComm : Bool
  dtId : Cell
  feederId : Cell
  deriving DecidableEq

/-- The record `region.metrics` once the aggregation has filled it. -/
structure RegionMetrics where
  feeders : Nat
  dts : Nat
  meters : Nat
  communicating : Nat
  nonCommunicating : Nat
  unmapped : Nat
  neverComm : Nat
  deriving DecidableEq

/-- A region object; `feeders` holds references into the feeder store and
`metrics` is `none` while the record is still the empty object. -/
structure RegionObj where
  name : Cell
  feeders : List Nat
  metrics : Option RegionMetrics
  deriving DecidableEq

/-- The record `state.slaGlobal`; a counter that the record does not carry is `none`. -/
structure SlaGlobal where
  totalRows : Nat
  commYes : Option Nat
  nonCommYes : Option Nat
  unmappedYes : Option Nat
  neverCommYes : Option Nat
  dailyYes : Option Nat
  loadYes : Option Nat
  deriving DecidableEq

/-- Levels of the selection cursor. -/
inductive Level where
  | all
  | region
  | feeder
  | dt
  | meter
  deriving DecidableEq

/-- The record `state.currentSelection`. -/
structure Selection where
  level : Level
  id : Cell
  deriving DecidableEq

/-- One row of `state.resultsRows`; `none` is `null`. -/
structure ResultRow where
  Feeder_Code : Cell
  Feeder_E : Option JSNum
  Sum_DT_E : Option JSNum
  Feeder_to_DT_Loss : Option JSNum
  Sum_Cons_E : Option JSNum
  Feeder_to_Cons_Loss : Option JSNum
  DT_Code : Cell
  DT_E : Option JSNum
  Sum_Cons_E_for_DT : Option JSNum
  DT_to_Cons_Loss : Option JSNum
  deriving DecidableEq

/-- The global `state`.  `regions` is the array `state.regions`, and a region
is referred to by its position there (a region is pushed when it is created and
never removed).  Feeder, DT and meter objects live in the three stores and are
referred to by position; a build starts from empty stores, the objects of an
earlier build being unreachable after the reset.  The fields `raw` and `sort`,
which the functions embedded here neither read nor write, are left out. -/
structure State where
  regions : List RegionObj
  feederObjs : List FeederObj
  dtObjs : List DtObj
  meterObjs : List MeterObj
  regionByName : JSMap Nat
  feederById : JSMap Nat
  dtById : JSMap Nat
  meterById : JSMap Nat
  currentSelection : Selection
  resultsRows : List ResultRow
  slaGlobal : SlaGlobal
  deriving DecidableEq

/-- The state as the script initialises it. -/
def State.init : State :=
  { regions := [], feederObjs := [], dtObjs := [], meterObjs := [],
    regionByName := [], feederById := [], dtById := [], meterById := [],
    currentSelection := { level := Level.all, id := Cell.null },
    resultsRows := [],
    slaGlobal := { totalRows := 0, commYes := none, nonCommYes := none, unmappedYes := none,
                   neverCommYes := none, dailyYes := some 0, loadYes := some 0 } }

/-! ## The builder -/

/-- The statement `counter += 1` guarded by a flag. -/
def bump (flag : Bool) (counter : Option Nat) : Option Nat :=
  if flag then counter.map (fun n => n + 1) else counter

/-- The counter updates of one row. -/
def SlaGlobal.count (g : SlaGlobal) (comm nonComm unmapped neverComm : Bool) : SlaGlobal :=
  { g with
    totalRows := g.totalRows + 1
    commYes := bump comm g.commYes
    nonCommYes := bump nonComm g.nonCommYes
    unmappedYes := bump unmapped g.unmappedYes
    neverCommYes := bump neverComm g.neverCommYes }

/-- The reset that opens `buildModelFromThreeSheets`. -/
def resetState (s : State) : State :=
  { s with
    regions := [], feederObjs := [], dtObjs := [], meterObjs := [],
    regionByName := [], feederById := [], dtById := [], meterById := [],
    slaGlobal := { totalRows := 0, commYes := some 0, nonCommYes := some 0,
                   unmappedYes := some 0, neverCommYes := some 0,
                   dailyYes := none, loadYes := none } }

/-- The object literal `feederObj` of a feeder row. -/
def mkFeederObj (f : Row) : FeederObj :=
  { id := field f "Feeder Code"
    name := field f "Feeder Name"
    dts := []
    meters := []
    feederEnergy :=
      diffEnergy (some (toNumber (field f "Feeder Day1 reading")))
        (some (toNumber (field f "Feeder Day2 reading")))
        (orOne (toNumber (field f "MF Feeder")))
    comm := parseYesNo (field f "Comm")
    nonComm := parseYesNo (field f "NonComm")
    region := field f "Region Name" }

/-- The object literal `dtObj` of a DT row. -/
def mkDtObj (d : Row) : DtObj :=
  { id := field d "DT Code"
    name := field d "DT Name"
    meters := []
    dtEnergy :=
      diffEnergy (some (toNumber (field d "DT Day1 Reading")))
        (some (toNumber (field d "DT Day2 Reading")))
        (orOne (toNumber (field d "MF DT")))
    comm := parseYesNo (field d "Comm")
    nonComm := parseYesNo (field d "NonComm")
    unmapped := parseYesNo (field d "Unmapped")
    neverComm := parseYesNo (field d "NeverComm")
    feederId := field d "Feeder Code" }

/-- The object literal `meterObj` of a meter row. -/
def mkMeterObj (m : Row) : MeterObj :=
  { id := field m "Meter No."
    day1 := toNumber (field m "Meter Day1 Reading")
    day2 := toNumber (field m "Meter Day2 Reading")
    energy :=
      diffEnergy (some (toNumber (field m "Meter Day1 Reading")))
        (some (toNumber (field m "Meter Day2 Reading"))) (fin 1)
    comm := parseYesNo (field m "Comm")
    nonComm := parseYesNo (field m "NonComm")
    unmapped := parseYesNo (field m "Unmapped")
    neverComm := parseYesNo (field m "NeverComm")
    dtId := field m "DT Code"
    feederId := field m "Feeder Code" }

/-- The call `region.feeders.push(feederObj)` on the region at `r`. -/
def pushFeeder (regions : List RegionObj) (r : Nat) (feederRef : Nat) : List RegionObj :=
  regions.modify (fun reg => { reg with feeders := reg.feeders ++ [feederRef] }) r

/-- The call `feederObj.dts.push(dtObj)` on the feeder at `k`. -/
def pushDt (feeders : List FeederObj) (k : Nat) (dtRef : Nat) : List FeederObj :=
  feeders.modify (fun f => { f with dts := f.dts ++ [dtRef] }) k

/-- The call `feederObj.meters.push(meterObj)` on the feeder at `k`. -/
def pushFeederMeter (feeders : List FeederObj) (k : Nat) (meterRef : Nat) : List FeederObj :=
  feeders.modify (fun f => { f with meters := f.meters ++ [meterRef] }) k

/-- The call `dtObj.meters.push(meterObj)` on the DT at `j`. -/
def pushDtMeter (dts : List DtObj) (j : Nat) (meterRef : Nat) : List DtObj :=
  dts.modify (fun d => { d with meters := d.meters ++ [meterRef] }) j

/-- One iteration of the feeders loop. -/
def feederStep (s : State) (f : Row) : State :=
  let regionName := field f "Region Name"
  let feederObj := mkFeederObj f
  let sla := s.slaGlobal.count feederObj.comm feederObj.nonComm false false
  let feederRef := s.feederObjs.length
  match mapGet s.regionByName regionName with
  | some region =>
      { s with
        slaGlobal := sla
        feederObjs := s.feederObjs ++ [feederObj]
        feederById := mapSet s.feederById feederObj.id feederRef
        regions := pushFeeder s.regions region feederRef }
  | none =>
      let region := s.regions.length
      { s with
        slaGlobal := sla
        regionByName := mapSet s.regionByName regionName region
        feederObjs := s.feederObjs ++ [feederObj]
        feederById := mapSet s.feederById feederObj.id feederRef
        regions :=
          pushFeeder (s.regions ++ [{ name := regionName, feeders := [], metrics := none }])
            region feederRef }

/-- One iteration of the DTs loop. -/
def dtStep (s : State) (d : Row) : State :=
  let dtObj := mkDtObj d
  let sla := s.slaGlobal.count dtObj.comm dtObj.nonComm dtObj.unmapped dtObj.neverComm
  let dtRef := s.dtObjs.length
  { s with
    slaGlobal := sla
    dtObjs := s.dtObjs ++ [dtObj]
    dtById := mapSet s.dtById dtObj.id dtRef
    feederObjs :=
      match mapGet s.feederById dtObj.feederId with
      | some k => pushDt s.feederObjs k dtRef
      | none => s.feederObjs }

/-- One iteration of the meters loop. -/
def meterStep (s : State) (m : Row) : State :=
  let meterObj := mkMeterObj m
  let sla := s.slaGlobal.count meterObj.comm meterObj.nonComm meterObj.unmapped meterObj.neverComm
  let meterRef := s.meterObjs.length
  { s with
    slaGlobal := sla
    meterObjs := s.meterObjs ++ [meterObj]
    meterById := mapSet s.meterById meterObj.id meterRef
    dtObjs :=
      if meterObj.unmapped then s.dtObjs
      else
        match mapGet s.dtById meterObj.dtId with
        | some j => pushDtMeter s.dtObjs j meterRef
        | none => s.dtObjs
    feederObjs :=
      if meterObj.unmapped then s.feederObjs
      else
        match mapGet s.feederById meterObj.feederId with
        | some k => pushFeederMeter s.feederObjs k meterRef
        | none => s.feederObjs }

/-- The feeder objects a list of references points to. -/
def feedersAt (s : State) (refs : List Nat) : List FeederObj :=
  refs.filterMap (fun k => s.feederObjs[k]?)

/-- The DT objects a list of references points to. -/
def dtsAt (s : State) (refs : List Nat) : List DtObj :=
  refs.filterMap (fun j => s.dtObjs[j]?)

/-- The meter objects a list of references points to. -/
def metersAt (s : State) (refs : List Nat) : List MeterObj :=
  refs.filterMap (fun i => s.meterObjs[i]?)

/-- The conditional `flag ? 1 : 0`. -/
def oneIf (flag : Bool) : Nat := if flag then 1 else 0

/-- The metrics the aggregation loop stores on one region. -/
def regionMetrics (s : State) (region : RegionObj) : RegionMetrics :=
  let fs := feedersAt s region.feeders
  { feeders := region.feeders.length
    dts := fs.foldl (fun a f => a + f.dts.length) 0
    meters := fs.foldl (fun a f => a + f.meters.length) 0
    communicating := fs.foldl (fun acc f =>
      acc + oneIf f.comm + (dtsAt s f.dts).foldl (fun dtAcc dt => dtAcc + oneIf dt.comm) 0
        + ((metersAt s f.meters).filter (fun m => m.comm)).length) 0
    nonCommunicating := fs.foldl (fun acc f =>
      acc + oneIf f.nonComm + (dtsAt s f.dts).foldl (fun dtAcc dt => dtAcc + oneIf dt.nonComm) 0
        + ((metersAt s f.meters).filter (fun m => m.nonComm)).length) 0
    unmapped := fs.foldl (fun acc f =>
      acc + (dtsAt s f.dts).foldl (fun dtAcc dt => dtAcc + oneIf dt.unmapped) 0
        + ((metersAt s f.meters).filter (fun m => m.unmapped)).length) 0
    neverComm := fs.foldl (fun acc f =>
      acc + (dtsAt s f.dts).foldl (fun dtAcc dt => dtAcc + oneIf dt.neverComm) 0
        + ((metersAt s f.meters).filter (fun m => m.neverComm)).length) 0 }

/-- The aggregation loop over `state.regions`. -/
def aggregateRegions (s : State) : State :=
  { s with regions := s.regions.map (fun region => { region with metrics := some (regionMetrics s region) }) }

/-- Source `buildModelFromThreeSheets(feedersSheet, dtsSheet, metersSheet)`. -/
def buildModelFromThreeSheets (s : State) (feedersSheet dtsSheet metersSheet : List Row) : State :=
  let s1 := feedersSheet.foldl feederStep (resetState s)
  let s2 := dtsSheet.foldl dtStep s1
  let s3 := metersSheet.foldl meterStep s2
  aggregateRegions s3

/-! ## The query surface -/

/-- Binary `+` on numbers. -/
def JSNum.add : JSNum → JSNum → JSNum
  | fin a, fin b => fin (a + b)
  | nan, _ => nan
  | _, nan => nan
  | posInf, negInf => nan
  | negInf, posInf => nan
  | posInf, _ => posInf
  | negInf, _ => negInf
  | fin _, posInf => posInf
  | fin _, negInf => negInf

/-- The comparison `x < 0`. -/
def JSNum.ltZero : JSNum → Bool
  | fin a => decide (a < 0)
  | negInf => true
  | _ => false

/-- The idiom `x || 0` on a number. -/
def orZero (n : JSNum) : JSNum := if n.truthy then n else fin 0

/-- The idiom `e || 0` on an energy that is a number or `null`. -/
def energyOrZero (e : Option JSNum) : JSNum :=
  match e with
  | some n => orZero n
  | none => fin 0

/-- Source `sum(arr)` on an array of numbers, each addition rounded to binary64. -/
def sum (arr : List JSNum) : JSNum :=
  arr.foldl (fun a b => (JSNum.add a (orZero b)).rounded) (fin 0)

/-- Source `pct(part, whole)`, in binary64 arithmetic. -/
def pct (part whole : JSNum) : JSNum :=
  if !whole.truthy then fin 0
  else toFixed64 (JSNum.mul (JSNum.div part whole).rounded (fin 100)).rounded

/-- Source `pctLoss(input, output)`, in binary64 arithmetic. -/
def pctLoss (input output : JSNum) : JSNum :=
  if !input.truthy then fin 0
  else toFixed64 (JSNum.mul (JSNum.div (JSNum.sub input output).rounded input).rounded
    (fin 100)).rounded

/-- A counter of `state.slaGlobal` as an operand of arithmetic: a counter the
record does not carry reads as `undefined`, which converts to `NaN`. -/
def counterNum (c : Option Nat) : JSNum :=
  match c with
  | some n => fin (n : ℚ)
  | none => nan

/-- The record `computeGlobalTotals` returns; a count that is `undefined` is `none`. -/
structure GlobalTotals where
  feeders : Nat
  dts : Nat
  meters : Nat
  lossFdt : JSNum
  lossDtc : JSNum
  lossFc : JSNum
  communicating : Option Nat
  communicatingPct : JSNum
  nonCommunicating : Option Nat
  nonCommunicatingPct : JSNum
  unmapped : Option Nat
  unmappedPct : JSNum
  neverComm : Option Nat
  neverCommPct : JSNum
  deriving DecidableEq

/-- The array `Array.from(map.values())` of an index, as references. -/
def mapValues (m : JSMap Nat) : List Nat := m.map (fun p => p.2)

/-- Source `computeGlobalTotals()`. -/
def computeGlobalTotals (s : State) : GlobalTotals :=
  let feederEnergy :=
    sum ((feedersAt s (mapValues s.feederById)).map (fun f => energyOrZero f.feederEnergy))
  let dtEnergy :=
    sum ((dtsAt s (mapValues s.dtById)).map (fun d => energyOrZero d.dtEnergy))
  let consumerEnergy :=
    sum ((metersAt s (mapValues s.meterById)).map (fun m => energyOrZero m.energy))
  let totalRows := fin (s.slaGlobal.totalRows : ℚ)
  { feeders := s.feederById.length
    dts := s.dtById.length
    meters := s.meterById.length
    lossFdt := pctLoss feederEnergy dtEnergy
    lossDtc := pctLoss dtEnergy consumerEnergy
    lossFc := pctLoss feederEnergy consumerEnergy
    communicating := s.slaGlobal.commYes
    communicatingPct := pct (counterNum s.slaGlobal.commYes) totalRows
    nonCommunicating := s.slaGlobal.nonCommYes
    nonCommunicatingPct := pct (counterNum s.slaGlobal.nonCommYes) totalRows
    unmapped := s.slaGlobal.unmappedYes
    unmappedPct := pct (counterNum s.slaGlobal.unmappedYes) totalRows
    neverComm := s.slaGlobal.neverCommYes
    neverCommPct := pct (counterNum s.slaGlobal.neverCommYes) totalRows }

/-- The property read `feeder.metrics[key]` of the detail view.  The record
literal the builder writes has the keys `feederEnergy`, `comm` and `nonComm`,
and no statement of the script assigns another key of it. -/
def FeederObj.metric (o : FeederObj) (key : String) : Cell :=
  if key = "feederEnergy" then
    (match o.feederEnergy with
     | some n => Cell.num n
     | none => Cell.null)
  else if key = "comm" then Cell.bool o.comm
  else if key = "nonComm" then Cell.bool o.nonComm
  else Cell.undef

/-- The property read `dt.metrics[key]` of the detail view.  The record
literal the builder writes has the keys `dtEnergy`, `comm`, `nonComm`,
`unmapped` and `neverComm`, and no statement of the script assigns another key. -/
def DtObj.metric (o : DtObj) (key : String) : Cell :=
  if key = "dtEnergy" then
    (match o.dtEnergy with
     | some n => Cell.num n
     | none => Cell.null)
  else if key = "comm" then Cell.bool o.comm
  else if key = "nonComm" then Cell.bool o.nonComm
  else if key = "unmapped" then Cell.bool o.unmapped
  else if key = "neverComm" then Cell.bool o.neverComm
  else Cell.undef

/-- What `onGlobalSearch` leaves: the state and whether the "No match found"
alert was raised. -/
structure SearchOutcome where
  state : State
  alerted : Bool
  deriving DecidableEq

/-- Source `onGlobalSearch(query)`; the query is the trimmed text of the search box. -/
def onGlobalSearch (s : State) (query : String) : SearchOutcome :=
  if query = "" then { state := s, alerted := false }
  else if mapHas s.meterById (Cell.str query) then
    { state := { s with currentSelection := { level := Level.meter, id := Cell.str query } },
      alerted := false }
  else if mapHas s.dtById (Cell.str query) then
    { state := { s with currentSelection := { level := Level.dt, id := Cell.str query } },
      alerted := false }
  else if mapHas s.feederById (Cell.str query) then
    { state := { s with currentSelection := { level := Level.feeder, id := Cell.str query } },
      alerted := false }
  else if mapHas s.regionByName (Cell.str query) then
    { state := { s with currentSelection := { level := Level.region, id := Cell.str query } },
      alerted := false }
  else { state := s, alerted := true }

/-- The loops that fill `meterEnergyById`, `dtEnergyById` and `feederEnergyById`:
an entry per entity whose energy is neither `null` nor negative. -/
def energyById (entries : List (Cell × Option JSNum)) : JSMap JSNum :=
  entries.foldl (fun acc p =>
    match p.2 with
    | none => acc
    | some e => if e.ltZero then acc else mapSet acc p.1 e) []

/-- The loops that fill `sumConsByDt`, `sumDtByFeeder` and `sumConsByFeeder`:
each entity, given as (own id, parent id), adds its entry of `energies`
(or `0`) to the running sum kept under the parent id, each addition rounded to
binary64. -/
def sumByParent (energies : JSMap JSNum) (entities : List (Cell × Cell)) : JSMap JSNum :=
  entities.foldl (fun acc p =>
    let e := (mapGet energies p.1).getD (fin 0)
    mapSet acc p.2 (JSNum.add ((mapGet acc p.2).getD (fin 0)) e).rounded) []

/-- Source `buildResultsTable()`. -/
def buildResultsTable (s : State) : State :=
  let uniqueFeeders := feedersAt s (mapValues s.feederById)
  let uniqueDts := dtsAt s (mapValues s.dtById)
  let uniqueMeters := metersAt s (mapValues s.meterById)
  let meterEnergyById := energyById (uniqueMeters.map (fun m => (m.id, m.energy)))
  let dtEnergyById := energyById (uniqueDts.map (fun d => (d.id, d.dtEnergy)))
  let feederEnergyById := energyById (uniqueFeeders.map (fun f => (f.id, f.feederEnergy)))
  let sumConsByDt := sumByParent meterEnergyById (uniqueMeters.map (fun m => (m.id, m.dtId)))
  let sumDtByFeeder := sumByParent dtEnergyById (uniqueDts.map (fun d => (d.id, d.feederId)))
  let sumConsByFeeder :=
    sumByParent meterEnergyById (uniqueMeters.map (fun m => (m.id, m.feederId)))
  let feederRows : List ResultRow := uniqueFeeders.map (fun f =>
    let feederE := mapGet feederEnergyById f.id
    let sumDtE := (mapGet sumDtByFeeder f.id).getD (fin 0)
    let sumConsE := (mapGet sumConsByFeeder f.id).getD (fin 0)
    { Feeder_Code := f.id
      Feeder_E := feederE
      Sum_DT_E := some sumDtE
      Feeder_to_DT_Loss := lossOrNull feederE (some sumDtE)
      Sum_Cons_E := some sumConsE
      Feeder_to_Cons_Loss := lossOrNull feederE (some sumConsE)
      DT_Code := Cell.str ""
      DT_E := none
      Sum_Cons_E_for_DT := none
      DT_to_Cons_Loss := none })
  let dtRows : List ResultRow := uniqueDts.map (fun d =>
    let dtE := mapGet dtEnergyById d.id
    let sumConsForDt := (mapGet sumConsByDt d.id).getD (fin 0)
    { Feeder_Code := d.feederId
      Feeder_E := none
      Sum_DT_E := none
      Feeder_to_DT_Loss := none
      Sum_Cons_E := none
      Feeder_to_Cons_Loss := none
      DT_Code := d.id
      DT_E := dtE
      Sum_Cons_E_for_DT := some sumConsForDt
      DT_to_Cons_Loss := lossOrNull dtE (some sumConsForDt) })
  { s with resultsRows := feederRows ++ dtRows }

/-! ## Describing a built model -/

/-- Positions, counted from `base`, of the rows that satisfy `p`, in row order. -/
def rowIndicesFrom (p : Row → Bool) : Nat → List Row → List Nat
  | _, [] => []
  | base, r :: rows =>
      if p r then base :: rowIndicesFrom p (base + 1) rows else rowIndicesFrom p (base + 1) rows

/-- Positions of the rows of a sheet that satisfy `p`, in row order. -/
def rowIndices (p : Row → Bool) (rows : List Row) : List Nat := rowIndicesFrom p 0 rows

/-- The distinct values of a list in order of first occurrence. -/
def firstSeen : List Cell → List Cell
  | [] => []
  | x :: xs => x :: (firstSeen xs).filter (fun y => decide (y ≠ x))

/-- The map `m` indexes rows whose ids are `ids`: a key is mapped to the
position of the last row that carries it. -/
def IndexesLast (ids : List Cell) (m : JSMap Nat) : Prop :=
  ∀ k i, mapGet m k = some i ↔ (ids[i]? = some k ∧ ∀ j, i < j → ids[j]? ≠ some k)

/-- What holds once the feeders loop has processed the rows `fs` from a reset state. -/
structure FeedersDone (fs : List Row) (s : State) : Prop where
  objs : s.feederObjs = fs.map mkFeederObj
  index : IndexesLast (fs.map (fun f => field f "Feeder Code")) s.feederById
  names : s.regions.map (fun r => r.name) = firstSeen (fs.map (fun f => field f "Region Name"))
  byName : ∀ (k : Cell) (r : Nat),
    mapGet s.regionByName k = some r ↔ (s.regions[r]?).map (fun reg => reg.name) = some k
  feeders : ∀ (r : Nat) (reg : RegionObj), s.regions[r]? = some reg →
    reg.feeders = rowIndices (fun f => decide (field f "Region Name" = reg.name)) fs ∧
    reg.metrics = none
  dtObjs : s.dtObjs = []
  dtById : s.dtById = []
  meterObjs : s.meterObjs = []
  meterById : s.meterById = []

/-- The DT rows whose `Feeder Code` the feeder index resolves to the feeder at `k`. -/
def dtUnder (feederById : JSMap Nat) (k : Nat) (d : Row) : Bool :=
  decide (mapGet feederById (field d "Feeder Code") = some k)

/-- The meter rows that are not unmapped and whose `DT Code` the DT index
resolves to the DT at `j`. -/
def meterUnderDt (dtById : JSMap Nat) (j : Nat) (m : Row) : Bool :=
  !parseYesNo (field m "Unmapped") && decide (mapGet dtById (field m "DT Code") = some j)

/-- The meter rows that are not unmapped and whose `Feeder Code` the feeder
index resolves to the feeder at `k`. -/
def meterUnderFeeder (feederById : JSMap Nat) (k : Nat) (m : Row) : Bool :=
  !parseYesNo (field m "Unmapped") && decide (mapGet feederById (field m "Feeder Code") = some k)

/-- What holds once the DTs loop has processed the rows `ds`, started in `s0`. -/
structure DtsDone (s0 : State) (ds : List Row) (s : State) : Prop where
  regions : s.regions = s0.regions
  regionByName : s.regionByName = s0.regionByName
  feederById : s.feederById = s0.feederById
  meterObjs : s.meterObjs = s0.meterObjs
  meterById : s.meterById = s0.meterById
  objs : s.dtObjs = ds.map mkDtObj
  index : IndexesLast (ds.map (fun d => field d "DT Code")) s.dtById
  feeders : ∀ k : Nat, s.feederObjs[k]? = (s0.feederObjs[k]?).map (fun o =>
    { o with dts := o.dts ++ rowIndices (dtUnder s0.feederById k) ds })

/-- What holds once the meters loop has processed the rows `ms`, started in `s0`. -/
structure MetersDone (s0 : State) (ms : List Row) (s : State) : Prop where
  regions : s.regions = s0.regions
  regionByName : s.regionByName = s0.regionByName
  feederById : s.feederById = s0.feederById
  dtById : s.dtById = s0.dtById
  objs : s.meterObjs = ms.map mkMeterObj
  index : IndexesLast (ms.map (fun m => field m "Meter No.")) s.meterById
  dts : ∀ j : Nat, s.dtObjs[j]? = (s0.dtObjs[j]?).map (fun o =>
    { o with meters := o.meters ++ rowIndices (meterUnderDt s0.dtById j) ms })
  feeders : ∀ k : Nat, s.feederObjs[k]? = (s0.feederObjs[k]?).map (fun o =>
    { o with meters := o.meters ++ rowIndices (meterUnderFeeder s0.feederById k) ms })

/-- The model a build leaves, described from the three sheets. -/
structure Built (fs ds ms : List Row) (s : State) : Prop where
  feederById : IndexesLast (fs.map (fun f => field f "Feeder Code")) s.feederById
  dtById : IndexesLast (ds.map (fun d => field d "DT Code")) s.dtById
  meterById : IndexesLast (ms.map (fun m => field m "Meter No.")) s.meterById
  feederObjs : ∀ k : Nat, s.feederObjs[k]? = (fs[k]?).map (fun f =>
    { mkFeederObj f with
      dts := rowIndices (dtUnder s.feederById k) ds
      meters := rowIndices (meterUnderFeeder s.feederById k) ms })
  dtObjs : ∀ j : Nat, s.dtObjs[j]? = (ds[j]?).map (fun d =>
    { mkDtObj d with meters := rowIndices (meterUnderDt s.dtById j) ms })
  meterObjs : s.meterObjs = ms.map mkMeterObj
  names : s.regions.map (fun reg => reg.name) = firstSeen (fs.map (fun f => field f "Region Name"))
  byName : ∀ (k : Cell) (r : Nat),
    mapGet s.regionByName k = some r ↔ (s.regions[r]?).map (fun reg => reg.name) = some k
  regions : ∀ (r : Nat) (reg : RegionObj), s.regions[r]? = some reg →
    reg.feeders = rowIndices (fun f => decide (field f "Region Name" = reg.name)) fs ∧
    reg.metrics = some (regionMetrics s reg)

/-- The number of rows of a sheet whose cell in column `col` parses to true. -/
def countYes (col : String) (rows : List Row) : Nat :=
  (rows.filter (fun r => parseYesNo (field r col))).length

/-- The record `g` after `n` more rows, of which `a`, `b`, `c`, `d` raised the
four flags. -/
def SlaGlobal.plus (g : SlaGlobal) (n a b c d : Nat) : SlaGlobal :=
  { g with
    totalRows := g.totalRows + n
    commYes := g.commYes.map (fun x => x + a)
    nonCommYes := g.nonCommYes.map (fun x => x + b)
    unmappedYes := g.unmappedYes.map (fun x => x + c)
    neverCommYes := g.neverCommYes.map (fun x => x + d) }

/-- The state `t` with the selection cursor and the results rows replaced. -/
def State.carry (t : State) (sel : Selection) (rows : List ResultRow) : State :=
  { t with currentSelection := sel, resultsRows := rows }

/-- The index a loop leaves: starting from `m`, the ids `ids` are set in turn to
the positions `base`, `base + 1`, ... -/
def indexFrom (m : JSMap Nat) (base : Nat) : List Cell → JSMap Nat
  | [] => m
  | k :: t => indexFrom (mapSet m k base) (base + 1) t

/-- The ids `ids` paired with the positions `base`, `base + 1`, ... -/
def pairsFrom (base : Nat) : List Cell → JSMap Nat
  | [] => []
  | k :: t => (k, base) :: pairsFrom (base + 1) t

/-- The keys of a map, in insertion order. -/
def mapKeys {V : Type} (m : JSMap V) : List Cell := m.map (fun p => p.1)

/-- The entry `energyById` keeps for an energy: none when it is `null` or negative. -/
def keptEnergy (e : Option JSNum) : Option JSNum :=
  match e with
  | none => none
  | some x => if x.ltZero then none else some x

/-! ## Loss bands, the fallback and the accordion rows -/

/-- The comparison `x < y` on numbers. -/
def JSNum.lt : JSNum → JSNum → Bool
  | fin a, fin b => decide (a < b)
  | nan, _ => false
  | _, nan => false
  | negInf, negInf => false
  | negInf, _ => true
  | posInf, _ => false
  | fin _, posInf => true
  | fin _, negInf => false

/-- The comparison `x <= y` on numbers. -/
def JSNum.le : JSNum → JSNum → Bool
  | fin a, fin b => decide (a ≤ b)
  | nan, _ => false
  | _, nan => false
  | negInf, _ => true
  | posInf, posInf => true
  | posInf, _ => false
  | fin _, posInf => true
  | fin _, negInf => false

/-- The record `LOSS_THRESHOLDS`. -/
structure LossThresholds where
  greenMax : JSNum
  amberMax : JSNum

/-- The constant `LOSS_THRESHOLDS`, in percent. -/
def LOSS_THRESHOLDS : LossThresholds := { greenMax := fin 2, amberMax := fin 5 }

/-- The record `classifyLoss` returns. -/
structure LossBadge where
  cls : String
  label : String
  deriving DecidableEq

/-- Source `classifyLoss(pct)`; `none` is `null` or `undefined`. -/
def classifyLoss (pct : Option JSNum) : LossBadge :=
  match pct with
  | none => { cls := "", label := "—" }
  | some p =>
      if p = nan then { cls := "", label := "—" }
      else if JSNum.lt p LOSS_THRESHOLDS.greenMax then { cls := "badge-green", label := "Green" }
      else if JSNum.le p LOSS_THRESHOLDS.amberMax then { cls := "badge-amber", label := "Amber" }
      else { cls := "badge-red", label := "Red" }

/-- An exception a call raises. -/
inductive JSError where
  | referenceError (name : String)
  deriving DecidableEq

/-- The bindings of free identifiers to arrays of rows that a function body
finds in the global scope of the page. -/
abbrev GlobalScope := String → Option (List Row)

/-- The global scope as the scripts `app.js`, `kpi.js` and `summary.js` leave
it: none of them declares or assigns an array of sheet rows under a name that
`bootstrapWithMockData` reads (`mockFeeders`, `mockDts`, `mockMeters` occur
nowhere else in the three scripts). -/
def pageScope : GlobalScope := fun _ => none

/-- Source `bootstrapWithMockData()`.  The loop that fills the local array
`rows` with random flat records has no effect outside the function (`rows` is
never read again) and the two writes to the page header do not touch the state;
both are left out.  The arguments of the call to `buildModelFromThreeSheets`
are the free identifiers `mockFeeders`, `mockDts`, `mockMeters`, evaluated left
to right; reading an identifier that has no binding raises a `ReferenceError`
before the builder is entered. -/
def bootstrapWithMockData (scope : GlobalScope) (s : State) : Except JSError State :=
  match scope "mockFeeders" with
  | none => Except.error (JSError.referenceError "mockFeeders")
  | some mockFeeders =>
      match scope "mockDts" with
      | none => Except.error (JSError.referenceError "mockDts")
      | some mockDts =>
          match scope "mockMeters" with
          | none => Except.error (JSError.referenceError "mockMeters")
          | some mockMeters =>
              Except.ok (buildModelFromThreeSheets s mockFeeders mockDts mockMeters)

/-- One entry of the array `rows` that `renderAccordionTable` fills; `none` is `null`. -/
structure AccordionRow where
  type : String
  id : Cell
  parentId : Cell
  name : Cell
  f2dt : Option JSNum
  f2cons : Option JSNum
  dt2cons : Option JSNum
  deriving DecidableEq

/-- The idiom `e ?? 0` on an energy that is a number or `null`. -/
def nullishZero (e : Option JSNum) : JSNum := e.getD (fin 0)

/-- The expression `e ? Number((((e - s) / e) * 100).toFixed(2)) : null` that
`renderAccordionTable` writes out for each of its three loss figures. -/
def inlineLoss (e s : JSNum) : Option JSNum :=
  if e.truthy then some (toFixed2 (JSNum.mul (JSNum.div (JSNum.sub e s) e) (fin 100))) else none

/-- Source `renderAccordionTable()`: the array `rows` it builds (and publishes
as `window.accordionRows`) for the value `regionSel` of the region filter; the
markup written from these rows is left out. -/
def renderAccordionTable (s : State) (regionSel : String) : List AccordionRow :=
  let regions := s.regions.filter
    (fun r => decide (regionSel = "__ALL__") || decide (r.name = Cell.str regionSel))
  regions.flatMap (fun region =>
    (feedersAt s region.feeders).flatMap (fun feeder =>
      let feederEnergy := nullishZero feeder.feederEnergy
      let sumDt := (dtsAt s feeder.dts).foldl
        (fun a d => JSNum.add a (nullishZero d.dtEnergy)) (fin 0)
      let sumConsFeeder := (metersAt s feeder.meters).foldl
        (fun a m => JSNum.add a (nullishZero m.energy)) (fin 0)
      let f2dtLoss := inlineLoss feederEnergy sumDt
      let f2consLoss := inlineLoss feederEnergy sumConsFeeder
      { type := "feeder", id := feeder.id, parentId := region.name, name := feeder.name,
        f2dt := f2dtLoss, f2cons := f2consLoss, dt2cons := none } ::
      (dtsAt s feeder.dts).flatMap (fun dt =>
        let dtEnergy := nullishZero dt.dtEnergy
        let sumConsDt := (metersAt s dt.meters).foldl
          (fun a m => JSNum.add a (nullishZero m.energy)) (fin 0)
        let dt2ConsLoss := inlineLoss dtEnergy sumConsDt
        { type := "dt", id := dt.id, parentId := feeder.id, name := dt.name,
          f2dt := none, f2cons := none, dt2cons := dt2ConsLoss } ::
        (metersAt s dt.meters).map (fun meter =>
          { type := "meter", id := meter.id, parentId := dt.id, name := meter.id,
            f2dt := none, f2cons := none, dt2cons := none }))))

/-- The accordion rows as the specification words them: the same rows, each
loss figure being `lossOrNull(upstream energy, summed child energy)` with the
`null` energies of the children counted as `0`. -/
def accordionRowsByLossOrNull (s : State) (regionSel : String) : List AccordionRow :=
  let regions := s.regions.filter
    (fun r => decide (regionSel = "__ALL__") || decide (r.name = Cell.str regionSel))
  regions.flatMap (fun region =>
    (feedersAt s region.feeders).flatMap (fun feeder =>
      let sumDt := (dtsAt s feeder.dts).foldl
        (fun a d => JSNum.add a (nullishZero d.dtEnergy)) (fin 0)
      let sumConsFeeder := (metersAt s feeder.meters).foldl
        (fun a m => JSNum.add a (nullishZero m.energy)) (fin 0)
      { type := "feeder", id := feeder.id, parentId := region.name, name := feeder.name,
        f2dt := lossOrNull feeder.feederEnergy (some sumDt),
        f2cons := lossOrNull feeder.feederEnergy (some sumConsFeeder), dt2cons := none } ::
      (dtsAt s feeder.dts).flatMap (fun dt =>
        let sumConsDt := (metersAt s dt.meters).foldl
          (fun a m => JSNum.add a (nullishZero m.energy)) (fin 0)
        { type := "dt", id := dt.id, parentId := feeder.id, name := dt.name,
          f2dt := none, f2cons := none, dt2cons := lossOrNull dt.dtEnergy (some sumConsDt) } ::
        (metersAt s dt.meters).map (fun meter =>
          { type := "meter", id := meter.id, parentId := dt.id, name := meter.id,
            f2dt := none, f2cons := none, dt2cons := none }))))

/-! ## The KPI totals of `kpi.js` -/

/-- `String(v)` of a cell.  The decimal text of a number is the host's and is
supplied as `numberText`. -/
def cellText (numberText : JSNum → String) : Cell → String
  | Cell.null => "null"
  | Cell.undef => "undefined"
  | Cell.num n => numberText n
  | Cell.str s => s
  | Cell.bool b => if b then "true" else "false"

/-- Source `norm(v)` of `kpi.js`: `(v ?? "").toString().trim()`. -/
def norm (numberText : JSNum → String) (v : Cell) : String :=
  match v with
  | Cell.null => ""
  | Cell.undef => ""
  | w => String.mk (jsTrim (cellText numberText w).toList)

/-- The method `toLowerCase`, on the letters `A` to `Z`.  (The other characters
that JavaScript lower-cases do not produce a letter of the words `unmapped` and
`never`, the only texts searched for in a lower-cased string here.) -/
def toLowerCase (s : String) : String := String.mk (s.toList.map Char.toLower)

/-- Whether the characters `pat` open the characters `cs`. -/
def startsWithChars : List Char → List Char → Bool
  | _, [] => true
  | [], _ :: _ => false
  | c :: cs, p :: ps => c == p && startsWithChars cs ps

/-- Whether the characters `pat` occur in `cs` as a contiguous run. -/
def includesChars : List Char → List Char → Bool
  | [], pat => pat.isEmpty
  | c :: cs, pat => startsWithChars (c :: cs) pat || includesChars cs pat

/-- The method `includes` of a string. -/
def includes (s pat : String) : Bool := includesChars s.toList pat.toList

/-- Source `getField(row, candidates)` of `kpi.js`: the cell under the first
candidate name that the row owns with a value that is neither `null` nor
`undefined` and whose text is not blank; `null` when there is none. -/
def getField (numberText : JSNum → String) (row : Row) : List String → Cell
  | [] => Cell.null
  | c :: cs =>
      if (row.lookup c).isSome && decide (field row c ≠ Cell.null) &&
          decide (field row c ≠ Cell.undef) &&
          decide (jsTrim (cellText numberText (field row c)).toList ≠ []) then field row c
      else getField numberText row cs

/-- The entries of the table `COLS` that the counters embedded here read. -/
structure Cols where
  region : List String
  lastComm : List String

/-- The constant `COLS` of `kpi.js`. -/
def COLS : Cols :=
  { region := ["Region Name", "RegionName", "Region"]
    lastComm := ["LastComm", "Last Comm", "Last Communication", "Last Communication Date"] }

/-- Source `classifyComm(lastCommRaw)`.  The clock reading `Date.now()` is the
argument `now`, and `parseExcelDate` is the host's reading of a cell as a date:
the time value of the date, or `none` where the source function returns `null`. -/
def classifyComm (numberText : JSNum → String) (now : JSNum)
    (parseExcelDate : Cell → Option JSNum) (lastCommRaw : Cell) : String :=
  let s := toLowerCase (norm numberText lastCommRaw)
  if s = "" then "non"
  else if includes s "never" then "never"
  else
    match parseExcelDate lastCommRaw with
    | none => "non"
    | some t =>
        let diffDays := JSNum.div (JSNum.sub now t) (fin 86400000)
        if JSNum.lt (fin 3) diffDays then "non" else "comm"

/-- A value held by an own property of the object `regionBreak`: a count, or a
string.  A string arises when `1` is added to an inherited member; its
characters (the host's text of that member, followed by digits) are not
modelled, and it does not read as a number. -/
inductive Tally where
  | count (n : Nat)
  | text
  deriving DecidableEq

/-- The own properties of an object, in creation order. -/
abbrev Props := List (String × Tally)

/-- The own property `o[key]`, if there is one. -/
def propGet : Props → String → Option Tally
  | [], _ => none
  | (k, v) :: rest, key => if k = key then some v else propGet rest key

/-- Assignment to an own property: an existing one keeps its place, a new one
is added last. -/
def propSet : Props → String → Tally → Props
  | [], key, v => [(key, v)]
  | (k, w) :: rest, key, v => if k = key then (k, v) :: rest else (k, w) :: propSet rest key v

/-- The methods that an object literal inherits from `Object.prototype`. -/
def objectPrototypeMethods : List String :=
  ["constructor", "__defineGetter__", "__defineSetter__", "hasOwnProperty", "__lookupGetter__",
   "__lookupSetter__", "isPrototypeOf", "propertyIsEnumerable", "toString", "valueOf",
   "toLocaleString"]

/-- The statement `regionBreak[key] = (regionBreak[key] ?? 0) + 1` on the object
literal `regionBreak = {}`.  An own property is read and written as such.
Without an own property the read goes to `Object.prototype`: under `__proto__`
it yields the prototype object, the sum is a string, and the inherited setter
ignores a string, so no property is created; under the name of an inherited
method it yields a function, and the sum, a string, is stored as a new own
property; under any other name it yields `undefined`, and `1` is stored. -/
def bumpRegion (regionBreak : Props) (key : String) : Props :=
  match propGet regionBreak key with
  | some (Tally.count n) => propSet regionBreak key (Tally.count (n + 1))
  | some Tally.text => propSet regionBreak key Tally.text
  | none =>
      if key = "__proto__" then regionBreak
      else if key ∈ objectPrototypeMethods then propSet regionBreak key Tally.text
      else propSet regionBreak key (Tally.count 1)

/-- The constant `isUnmapped` that the loop of `computeKpiTotals` computes for a row. -/
def isUnmapped (numberText : JSNum → String) (row : Row) : Bool :=
  let regionRaw := getField numberText row COLS.region
  let regionNorm :=
    if regionRaw = Cell.null ∨ regionRaw = Cell.undef then "" else norm numberText regionRaw
  let regionLower := toLowerCase regionNorm
  decide (regionNorm = "") || includes regionLower "unmapped"

/-- The constant `regionKey` that the loop of `computeKpiTotals` computes for a row. -/
def regionKey (numberText : JSNum → String) (row : Row) : String :=
  let regionRaw := getField numberText row COLS.region
  let regionNorm :=
    if regionRaw = Cell.null ∨ regionRaw = Cell.undef then "" else norm numberText regionRaw
  if isUnmapped numberText row then "Unmapped"
  else if regionNorm ≠ "" then regionNorm else "(Blank)"

/-- The variables of `computeKpiTotals` that the loop updates and that the
totals embedded here are computed from. -/
structure KpiCounters where
  regionBreak : Props
  comm : Nat
  non : Nat
  never : Nat

/-- One pass of the loop body of `computeKpiTotals` over a row. -/
def kpiStep (numberText : JSNum → String) (now : JSNum) (parseExcelDate : Cell → Option JSNum)
    (acc : KpiCounters) (row : Row) : KpiCounters :=
  let regionBreak := bumpRegion acc.regionBreak (regionKey numberText row)
  let lc := getField numberText row COLS.lastComm
  let commClass := classifyComm numberText now parseExcelDate lc
  if commClass = "comm" then { acc with regionBreak := regionBreak, comm := acc.comm + 1 }
  else if commClass = "never" then { acc with regionBreak := regionBreak, never := acc.never + 1 }
  else { acc with regionBreak := regionBreak, non := acc.non + 1 }

/-- Binary `+` on two values of `regionBreak` (or a running sum): two counts
add up; with a string operand the result is a string. -/
def Tally.add : Tally → Tally → Tally
  | Tally.count a, Tally.count b => Tally.count (a + b)
  | _, _ => Tally.text

/-- The number a value of `regionBreak` converts to in a subtraction; a string
made from an inherited member reads as `NaN`. -/
def Tally.toNum : Tally → JSNum
  | Tally.count n => fin (n : ℚ)
  | Tally.text => nan

/-- The fields of the record `computeKpiTotals` returns that are embedded here
(the breakdowns by meter type, the approval counters and the aging counters are
computed independently of these and are left out). -/
structure KpiTotals where
  installed : JSNum
  comm : Nat
  non : Nat
  never : Nat
  totalMeters : Tally
  unmapped : Tally

/-- Source `computeKpiTotals(rows)` of `kpi.js`.  The values of `regionBreak`
are summed in creation order; the order in which the host enumerates them
(integer-like names first) changes neither a sum of counts nor the fact that a
sum with a string operand is a string. -/
def computeKpiTotals (numberText : JSNum → String) (now : JSNum)
    (parseExcelDate : Cell → Option JSNum) (rows : List Row) : KpiTotals :=
  let acc := rows.foldl (kpiStep numberText now parseExcelDate)
    { regionBreak := [], comm := 0, non := 0, never := 0 }
  let totalMeters := (acc.regionBreak.map (fun p => p.2)).foldl Tally.add (Tally.count 0)
  let unmapped := (propGet acc.regionBreak "Unmapped").getD (Tally.count 0)
  let installed := JSNum.max0 (JSNum.sub totalMeters.toNum unmapped.toNum)
  { installed := installed, comm := acc.comm, non := acc.non, never := acc.never,
    totalMeters := totalMeters, unmapped := unmapped }

/-- The region field of a row as the specification words it: the trimmed text
of the first of the given column names under which the row has a value that is
not `null` and whose text is not blank; `none` when the field is blank. -/
def regionFieldText (numberText : JSNum → String) (row : Row) (names : List String) :
    Option String :=
  (names.filterMap (fun c =>
    match row.lookup c with
    | none => none
    | some Cell.null => none
    | some Cell.undef => none
    | some v =>
        if jsTrim (cellText numberText v).toList = [] then none
        else some (String.mk (jsTrim (cellText numberText v).toList)))).head?

/-- A row counts as unmapped, in the words of the specification: its region
field is blank, or contains `unmapped` in any mix of upper and lower case. -/
def regionFieldUnmapped (numberText : JSNum → String) (row : Row) : Bool :=
  match regionFieldText numberText row ["Region Name", "RegionName", "Region"] with
  | none => true
  | some t => includes (toLowerCase t) "unmapped"

/-! ## Rounding -/

theorem round2_cases (x : ℚ) :
    ∃ n : ℤ, round2 x = (n : ℚ) / 100 ∧ |round2 x - x| ≤ 1 / 200 := by
  unfold round2
  split_ifs with h
  · refine ⟨-⌊-x * 100 + 1 / 2⌋, by push_cast; ring, ?_⟩
    have h1 := Int.floor_le (-x * 100 + 1 / 2)
    have h2 := Int.lt_floor_add_one (-x * 100 + 1 / 2)
    rw [abs_le]
    constructor <;> linarith
  · refine ⟨⌊x * 100 + 1 / 2⌋, rfl, ?_⟩
    have h1 := Int.floor_le (x * 100 + 1 / 2)
    have h2 := Int.lt_floor_add_one (x * 100 + 1 / 2)
    rw [abs_le]
    constructor <;> linarith

theorem round2_nonneg {x : ℚ} (hx : 0 ≤ x) : 0 ≤ round2 x := by
  unfold round2
  rw [if_neg (not_lt.mpr hx)]
  have h : (0 : ℤ) ≤ ⌊x * 100 + 1 / 2⌋ := Int.floor_nonneg.mpr (by linarith)
  have h' : (0 : ℚ) ≤ ((⌊x * 100 + 1 / 2⌋ : ℤ) : ℚ) := by exact_mod_cast h
  positivity

theorem round2_nonpos {x : ℚ} (hx : x ≤ 0) : round2 x ≤ 0 := by
  rcases eq_or_lt_of_le hx with h0 | hneg
  · subst h0
    norm_num [round2]
  · unfold round2
    rw [if_pos hneg]
    have h : (0 : ℤ) ≤ ⌊-x * 100 + 1 / 2⌋ := Int.floor_nonneg.mpr (by linarith)
    have h' : (0 : ℚ) ≤ ((⌊-x * 100 + 1 / 2⌋ : ℤ) : ℚ) := by exact_mod_cast h
    have : 0 ≤ ((⌊-x * 100 + 1 / 2⌋ : ℤ) : ℚ) / 100 := by positivity
    linarith [neg_div (100 : ℚ) ((⌊-x * 100 + 1 / 2⌋ : ℤ) : ℚ)]

theorem round2_neg {x : ℚ} (hx : x ≤ -(1 / 200)) : round2 x < 0 := by
  have hneg : x < 0 := by linarith
  unfold round2
  rw [if_pos hneg]
  have h : (1 : ℤ) ≤ ⌊-x * 100 + 1 / 2⌋ := Int.le_floor.mpr (by push_cast; linarith)
  have h' : (1 : ℚ) ≤ ((⌊-x * 100 + 1 / 2⌋ : ℤ) : ℚ) := by exact_mod_cast h
  have : 0 < ((⌊-x * 100 + 1 / 2⌋ : ℤ) : ℚ) / 100 := by positivity
  linarith [neg_div (100 : ℚ) ((⌊-x * 100 + 1 / 2⌋ : ℤ) : ℚ)]

theorem round2_of_hundredths (n : ℤ) : round2 ((n : ℚ) / 100) = (n : ℚ) / 100 := by
  unfold round2
  split_ifs with h
  · have e : -((n : ℚ) / 100) * 100 + 1 / 2 = ((-n : ℤ) : ℚ) + 1 / 2 := by push_cast; ring
    rw [e]
    have : ⌊((-n : ℤ) : ℚ) + 1 / 2⌋ = -n := by
      rw [Int.floor_eq_iff]
      constructor <;> push_cast <;> linarith
    rw [this]; push_cast; ring
  · have e : (n : ℚ) / 100 * 100 + 1 / 2 = (n : ℚ) + 1 / 2 := by ring
    rw [e]
    have : ⌊(n : ℚ) + 1 / 2⌋ = n := by
      rw [Int.floor_eq_iff]
      constructor <;> linarith
    rw [this]

/-! ## Energy and loss -/

theorem lossOrNull_fin (U D : ℚ) (hU : U ≠ 0) :
    lossOrNull (some (fin U)) (some (fin D)) = some (fin (round2 ((U - D) / U * 100))) := by
  have h : fin U ≠ fin 0 := fun h => hU (by injection h)
  simp [lossOrNull, h, JSNum.sub, JSNum.div, hU, JSNum.mul, toFixed2]

theorem diffEnergy_fin (day1 day2 mf : ℚ) :
    diffEnergy (some (fin day1)) (some (fin day2)) (fin mf)
      = some (fin (round2 (max 0 (round2 (day2 - day1)) * mf))) := by
  simp [diffEnergy, computeEnergy, JSNum.sub, JSNum.isFinite, toFixed2, JSNum.max0, JSNum.mul]

theorem diffEnergy_fin_one (day1 day2 : ℚ) (mf : JSNum) (h : mf.isFinite = false) :
    diffEnergy (some (fin day1)) (some (fin day2)) mf
      = some (fin (round2 (max 0 (round2 (day2 - day1)) * 1))) := by
  cases mf with
  | fin q => simp [JSNum.isFinite] at h
  | _ => simp [diffEnergy, computeEnergy, JSNum.sub, JSNum.isFinite, toFixed2, JSNum.max0, JSNum.mul]

theorem orOne_nonneg {n : JSNum} (h : ∀ q, n = fin q → 0 ≤ q) : ∀ q, orOne n = fin q → 0 ≤ q := by
  intro q hq
  unfold orOne at hq
  split_ifs at hq
  · exact h q hq
  · injection hq with hq
    rw [← hq]
    norm_num

theorem diffEnergy_ge_zero_of_mf (day1 day2 : ℚ) (mf : JSNum) (hmf : ∀ q, mf = fin q → 0 ≤ q) :
    ∃ r : ℚ, diffEnergy (some (fin day1)) (some (fin day2)) mf = some (fin r) ∧ 0 ≤ r := by
  cases mf with
  | fin q =>
      refine ⟨_, diffEnergy_fin day1 day2 q, round2_nonneg ?_⟩
      exact mul_nonneg (le_max_left _ _) (hmf q rfl)
  | nan =>
      refine ⟨_, diffEnergy_fin_one day1 day2 _ rfl, round2_nonneg ?_⟩
      exact mul_nonneg (le_max_left _ _) (by norm_num)
  | posInf =>
      refine ⟨_, diffEnergy_fin_one day1 day2 _ rfl, round2_nonneg ?_⟩
      exact mul_nonneg (le_max_left _ _) (by norm_num)
  | negInf =>
      refine ⟨_, diffEnergy_fin_one day1 day2 _ rfl, round2_nonneg ?_⟩
      exact mul_nonneg (le_max_left _ _) (by norm_num)

/-- C3, counterexample: a feeder row with readings `0` and `10` and the number
`-2` in its `MF Feeder` cell gets the multiplier `-2` and the energy `-20`. -/
theorem diffEnergy_negative_counterexample :
    orOne (toNumber (Cell.num (fin (-2)))) = fin (-2) ∧
    diffEnergy (some (fin 0)) (some (fin 10)) (fin (-2)) = some (fin (-20)) ∧
    (mkFeederObj [("Feeder Code", Cell.str "F1"), ("Feeder Day1 reading", Cell.num (fin 0)),
      ("Feeder Day2 reading", Cell.num (fin 10)), ("MF Feeder", Cell.num (fin (-2)))]).feederEnergy
      = some (fin (-20)) ∧
    (-20 : ℚ) < 0 := by
  have h1 : orOne (toNumber (Cell.num (fin (-2)))) = fin (-2) := by
    simp [orOne, toNumber, JSNum.truthy]
  have h2 : diffEnergy (some (fin 0)) (some (fin 10)) (fin (-2)) = some (fin (-20)) := by
    rw [diffEnergy_fin]
    norm_num [round2]
  refine ⟨h1, h2, ?_, by norm_num⟩
  have e : (mkFeederObj [("Feeder Code", Cell.str "F1"), ("Feeder Day1 reading", Cell.num (fin 0)),
      ("Feeder Day2 reading", Cell.num (fin 10)), ("MF Feeder", Cell.num (fin (-2)))]).feederEnergy
      = diffEnergy (some (fin 0)) (some (fin 10)) (orOne (toNumber (Cell.num (fin (-2))))) := by
    simp [mkFeederObj, field, List.lookup, toNumber]
  rw [e, h1, h2]

/-- C3, amended: for finite readings and a multiplier that is not a negative
number (a non-finite multiplier is replaced by `1`), `diffEnergy` returns a
number that is at least `0`; this covers the multiplier the builder reads from
an `MF Feeder` / `MF DT` cell whenever that cell does not convert to a negative
number. -/
theorem diffEnergy_nonneg (day1 day2 : ℚ) (mf : JSNum) (hmf : ∀ q, mf = fin q → 0 ≤ q) :
    (∃ r : ℚ, diffEnergy (some (fin day1)) (some (fin day2)) mf = some (fin r) ∧ 0 ≤ r) ∧
    (∀ cell : Cell, (∀ q, toNumber cell = fin q → 0 ≤ q) →
      ∃ r : ℚ, diffEnergy (some (fin day1)) (some (fin day2)) (orOne (toNumber cell))
        = some (fin r) ∧ 0 ≤ r) :=
  ⟨diffEnergy_ge_zero_of_mf day1 day2 mf hmf,
   fun _ hc => diffEnergy_ge_zero_of_mf day1 day2 _ (orOne_nonneg hc)⟩

/-- C3, witness of the amended statement at readings `3`, `8` and multiplier `2`. -/
theorem diffEnergy_nonneg_witness :
    (∀ q, (fin 2 : JSNum) = fin q → 0 ≤ q) ∧
    ∃ r : ℚ, diffEnergy (some (fin 3)) (some (fin 8)) (fin 2) = some (fin r) ∧ 0 ≤ r :=
  have h : ∀ q, (fin 2 : JSNum) = fin q → 0 ≤ q := by
    intro q hq
    injection hq with hq
    rw [← hq]
    norm_num
  ⟨h, (diffEnergy_nonneg 3 8 (fin 2) h).1⟩

/-- C4, the code at the failing input: a meter row, a DT row and a feeder row
whose Day1 reading cell is `null` and whose Day2 reading is `50` are registered
with energy `50`, the missing reading having been converted to `0`. -/
theorem build_null_reading_energy :
    (buildModelFromThreeSheets State.init
        [[("Region Name", Cell.str "R"), ("Feeder Code", Cell.str "F1"),
          ("Feeder Day1 reading", Cell.null), ("Feeder Day2 reading", Cell.num (fin 50))]]
        [[("Feeder Code", Cell.str "F1"), ("DT Code", Cell.str "D1"),
          ("DT Day1 Reading", Cell.null), ("DT Day2 Reading", Cell.num (fin 50))]]
        [[("Meter No.", Cell.str "M1"), ("DT Code", Cell.str "D1"), ("Feeder Code", Cell.str "F1"),
          ("Meter Day1 Reading", Cell.null), ("Meter Day2 Reading", Cell.num (fin 50))]]).meterObjs.map
      (fun m => (m.id, m.energy)) = [(Cell.str "M1", some (fin 50))] ∧
    (buildModelFromThreeSheets State.init
        [[("Region Name", Cell.str "R"), ("Feeder Code", Cell.str "F1"),
          ("Feeder Day1 reading", Cell.null), ("Feeder Day2 reading", Cell.num (fin 50))]]
        [[("Feeder Code", Cell.str "F1"), ("DT Code", Cell.str "D1"),
          ("DT Day1 Reading", Cell.null), ("DT Day2 Reading", Cell.num (fin 50))]]
        [[("Meter No.", Cell.str "M1"), ("DT Code", Cell.str "D1"), ("Feeder Code", Cell.str "F1"),
          ("Meter Day1 Reading", Cell.null), ("Meter Day2 Reading", Cell.num (fin 50))]]).dtObjs.map
      (fun d => (d.id, d.dtEnergy)) = [(Cell.str "D1", some (fin 50))] ∧
    (buildModelFromThreeSheets State.init
        [[("Region Name", Cell.str "R"), ("Feeder Code", Cell.str "F1"),
          ("Feeder Day1 reading", Cell.null), ("Feeder Day2 reading", Cell.num (fin 50))]]
        [[("Feeder Code", Cell.str "F1"), ("DT Code", Cell.str "D1"),
          ("DT Day1 Reading", Cell.null), ("DT Day2 Reading", Cell.num (fin 50))]]
        [[("Meter No.", Cell.str "M1"), ("DT Code", Cell.str "D1"), ("Feeder Code", Cell.str "F1"),
          ("Meter Day1 Reading", Cell.null), ("Meter Day2 Reading", Cell.num (fin 50))]]).feederObjs.map
      (fun f => (f.id, f.feederEnergy)) = [(Cell.str "F1", some (fin 50))] := by
  have e : diffEnergy (some (fin 0)) (some (fin 50)) (fin 1) = some (fin 50) := by
    rw [diffEnergy_fin]
    norm_num [round2]
  have o : orOne nan = fin 1 := by simp [orOne, JSNum.truthy]
  refine ⟨?_, ?_, ?_⟩ <;>
    simp [buildModelFromThreeSheets, aggregateRegions, feederStep, dtStep, meterStep, resetState,
      State.init, mkFeederObj, mkDtObj, mkMeterObj, field, List.lookup, toNumber, mapGet, mapSet,
      pushFeeder, pushDt, pushDtMeter, pushFeederMeter, parseYesNo, e, o]

/-! ## Lists and maps -/

theorem getElem?_snoc {α : Type} (l : List α) (a : α) (i : Nat) :
    (l ++ [a])[i]? = if i < l.length then l[i]? else if i = l.length then some a else none := by
  rw [List.getElem?_append]
  split_ifs with h1 h2
  · rfl
  · subst h2; simp
  · have : i - l.length ≠ 0 := by omega
    rcases hk : i - l.length with _ | n
    · omega
    · simp

theorem mapGet_mapSet {V : Type} (m : JSMap V) (k k' : Cell) (v : V) :
    mapGet (mapSet m k v) k' = if k = k' then some v else mapGet m k' := by
  induction m with
  | nil =>
      simp [mapSet, mapGet]
  | cons p t ih =>
      obtain ⟨a, b⟩ := p
      by_cases hak : a = k
      · subst hak
        by_cases h : a = k' <;> simp [mapSet, mapGet, h]
      · by_cases h : a = k'
        · subst h
          have : ¬ k = a := fun e => hak e.symm
          simp [mapSet, mapGet, hak, this]
        · simp [mapSet, mapGet, hak, h, ih]

theorem IndexesLast.nil : IndexesLast [] [] := by
  intro k i
  simp [mapGet]

theorem IndexesLast.snoc {ids : List Cell} {m : JSMap Nat} (h : IndexesLast ids m) (k : Cell) :
    IndexesLast (ids ++ [k]) (mapSet m k ids.length) := by
  intro k' i
  rw [mapGet_mapSet]
  by_cases hk : k = k'
  · subst hk
    simp only [if_true]
    constructor
    · intro hi
      injection hi with hi
      subst hi
      refine ⟨by simp [getElem?_snoc], ?_⟩
      intro j hj
      rw [getElem?_snoc]
      have h1 : ¬ j < ids.length := by omega
      have h2 : ¬ j = ids.length := by omega
      simp [h1, h2]
    · rintro ⟨hi, hlast⟩
      rw [getElem?_snoc] at hi
      split_ifs at hi with h1 h2
      · exfalso
        exact hlast ids.length h1 (by simp [getElem?_snoc])
      · rw [h2]
  · simp only [if_neg hk]
    rw [h k' i]
    have hk' : ¬ k' = k := fun e => hk e.symm
    constructor
    · rintro ⟨hi, hlast⟩
      have hlt : i < ids.length := by
        by_contra hc
        rw [List.getElem?_eq_none (by omega)] at hi
        exact Option.noConfusion hi
      refine ⟨by rw [getElem?_snoc, if_pos hlt]; exact hi, ?_⟩
      intro j hj
      rw [getElem?_snoc]
      split_ifs with h1 h2
      · exact hlast j hj
      · simpa using hk
      · simp
    · rintro ⟨hi, hlast⟩
      rw [getElem?_snoc] at hi
      split_ifs at hi with h1 h2
      · refine ⟨hi, ?_⟩
        intro j hj
        by_cases hjl : j < ids.length
        · have := hlast j hj
          rwa [getElem?_snoc, if_pos hjl] at this
        · rw [List.getElem?_eq_none (by omega)]
          simp
      · exfalso
        injection hi with hi
        exact hk hi

theorem rowIndicesFrom_snoc (p : Row → Bool) (base : Nat) (rows : List Row) (r : Row) :
    rowIndicesFrom p base (rows ++ [r])
      = rowIndicesFrom p base rows ++ (if p r then [base + rows.length] else []) := by
  induction rows generalizing base with
  | nil => by_cases h : p r <;> simp [rowIndicesFrom, h]
  | cons a t ih =>
      by_cases h : p a
      · simp [rowIndicesFrom, h, ih, Nat.add_assoc, Nat.add_comm 1]
      · simp [rowIndicesFrom, h, ih, Nat.add_assoc, Nat.add_comm 1]

theorem rowIndices_snoc (p : Row → Bool) (rows : List Row) (r : Row) :
    rowIndices p (rows ++ [r]) = rowIndices p rows ++ (if p r then [rows.length] else []) := by
  simp [rowIndices, rowIndicesFrom_snoc]

theorem mem_rowIndicesFrom (p : Row → Bool) (base : Nat) (rows : List Row) (i : Nat) :
    i ∈ rowIndicesFrom p base rows ↔ base ≤ i ∧ ∃ r, rows[i - base]? = some r ∧ p r = true := by
  induction rows generalizing base with
  | nil => simp [rowIndicesFrom]
  | cons a t ih =>
      have key : (i ∈ rowIndicesFrom p (base + 1) t) ↔
          base + 1 ≤ i ∧ ∃ r, t[i - (base + 1)]? = some r ∧ p r = true := ih (base + 1)
      by_cases hi : i = base
      · subst hi
        by_cases h : p a
        · simp [rowIndicesFrom, h]
        · simp [rowIndicesFrom, h, key]
      · have hstep : ∀ (hle : base ≤ i), (a :: t)[i - base]? = t[i - (base + 1)]? := by
          intro hle
          have : i - base = (i - (base + 1)) + 1 := by omega
          rw [this, List.getElem?_cons_succ]
        have hmem : i ∈ rowIndicesFrom p base (a :: t) ↔ i ∈ rowIndicesFrom p (base + 1) t := by
          by_cases h : p a = true
          · rw [rowIndicesFrom, if_pos h, List.mem_cons]
            exact ⟨fun e => e.resolve_left hi, Or.inr⟩
          · rw [rowIndicesFrom, if_neg h]
        rw [hmem, key]
        constructor
        · rintro ⟨hle, r, hr, hp⟩
          exact ⟨by omega, r, by rw [hstep (by omega)]; exact hr, hp⟩
        · rintro ⟨hle, r, hr, hp⟩
          exact ⟨by omega, r, by rw [← hstep hle]; exact hr, hp⟩

theorem mem_rowIndices (p : Row → Bool) (rows : List Row) (i : Nat) :
    i ∈ rowIndices p rows ↔ ∃ r, rows[i]? = some r ∧ p r = true := by
  simp [rowIndices, mem_rowIndicesFrom]

theorem mem_firstSeen (l : List Cell) (x : Cell) : x ∈ firstSeen l ↔ x ∈ l := by
  induction l with
  | nil => simp [firstSeen]
  | cons a t ih =>
      by_cases h : x = a
      · simp [firstSeen, h]
      · simp [firstSeen, h, ih, List.mem_filter]

theorem nodup_firstSeen (l : List Cell) : (firstSeen l).Nodup := by
  induction l with
  | nil => simp [firstSeen]
  | cons a t ih =>
      simp only [firstSeen, List.nodup_cons, List.mem_filter]
      exact ⟨by simp, ih.filter _⟩

theorem firstSeen_snoc (l : List Cell) (k : Cell) :
    firstSeen (l ++ [k]) = if k ∈ l then firstSeen l else firstSeen l ++ [k] := by
  induction l with
  | nil => simp [firstSeen]
  | cons a t ih =>
      rw [List.cons_append, firstSeen, ih]
      by_cases hk : k ∈ t
      · simp [hk, firstSeen]
      · by_cases hka : k = a
        · subst hka
          simp [hk, List.filter_append, firstSeen]
        · have : ¬ a = k := fun e => hka e.symm
          simp [hk, hka, this, List.filter_append, firstSeen]

theorem rowIndices_eq_nil (p : Row → Bool) (rows : List Row) (h : ∀ r ∈ rows, p r = false) :
    rowIndices p rows = [] := by
  rw [List.eq_nil_iff_forall_not_mem]
  intro i hi
  obtain ⟨r, hr, hp⟩ := (mem_rowIndices p rows i).mp hi
  have := h r (List.getElem?_mem hr)
  rw [this] at hp
  exact Bool.noConfusion hp

theorem getElem?_pushFeeder (regions : List RegionObj) (r ref i : Nat) :
    (pushFeeder regions r ref)[i]? = (regions[i]?).map
      (fun reg => if r = i then { reg with feeders := reg.feeders ++ [ref] } else reg) := by
  unfold pushFeeder
  rw [List.getElem?_modify]
  rfl

theorem name_pushFeeder (regions : List RegionObj) (r ref i : Nat) :
    ((pushFeeder regions r ref)[i]?).map (fun reg => reg.name)
      = (regions[i]?).map (fun reg => reg.name) := by
  rw [getElem?_pushFeeder]
  cases regions[i]? with
  | none => rfl
  | some reg => by_cases h : r = i <;> simp [h]

theorem map_name_pushFeeder (regions : List RegionObj) (r ref : Nat) :
    (pushFeeder regions r ref).map (fun reg => reg.name) = regions.map (fun reg => reg.name) := by
  apply List.ext_getElem?
  intro i
  rw [List.getElem?_map, List.getElem?_map, name_pushFeeder]

theorem feedersDone_reset (s : State) : FeedersDone [] (resetState s) where
  objs := rfl
  index := IndexesLast.nil
  names := rfl
  byName := by intro k r; simp [resetState, mapGet]
  feeders := by intro r reg h; simp [resetState] at h
  dtObjs := rfl
  dtById := rfl
  meterObjs := rfl
  meterById := rfl

theorem feedersDone_step {fs : List Row} {s : State} (h : FeedersDone fs s) (f : Row) :
    FeedersDone (fs ++ [f]) (feederStep s f) := by
  have hlen : s.feederObjs.length = fs.length := by rw [h.objs, List.length_map]
  have hidx : IndexesLast ((fs ++ [f]).map (fun f => field f "Feeder Code"))
      (mapSet s.feederById (mkFeederObj f).id s.feederObjs.length) := by
    have := h.index.snoc (field f "Feeder Code")
    rw [List.length_map] at this
    rw [List.map_append, hlen]
    exact this
  cases hget : mapGet s.regionByName (field f "Region Name") with
  | some r0 =>
      have hr0 := (h.byName _ _).mp hget
      have hmem : field f "Region Name" ∈ fs.map (fun f => field f "Region Name") := by
        rw [← mem_firstSeen, ← h.names]
        cases hreg : s.regions[r0]? with
        | none => rw [hreg] at hr0; exact Option.noConfusion hr0
        | some reg =>
            rw [hreg] at hr0
            injection hr0 with hr0
            exact List.mem_map.mpr ⟨reg, List.getElem?_mem hreg, hr0⟩
      refine ⟨?_, ?_, ?_, ?_, ?_, ?_, ?_, ?_, ?_⟩
      · simp [feederStep, hget, h.objs]
      · simpa [feederStep, hget] using hidx
      · simp only [feederStep, hget, map_name_pushFeeder, List.map_append, List.map_cons,
          List.map_nil, firstSeen_snoc, if_pos hmem]
        exact h.names
      · intro k r
        simp only [feederStep, hget, name_pushFeeder]
        exact h.byName k r
      · intro r reg' hreg'
        simp only [feederStep, hget, getElem?_pushFeeder] at hreg'
        cases hreg : s.regions[r]? with
        | none => rw [hreg] at hreg'; exact Option.noConfusion hreg'
        | some reg =>
            rw [hreg] at hreg'
            simp only [Option.map_some'] at hreg'
            injection hreg' with hreg'
            obtain ⟨hf, hm⟩ := h.feeders r reg hreg
            rw [rowIndices_snoc]
            by_cases hr : r0 = r
            · subst hr
              rw [hreg] at hr0
              injection hr0 with hr0
              rw [if_pos rfl] at hreg'
              subst hreg'
              simp [hr0, hf, hm, hlen]
            · rw [if_neg hr] at hreg'
              subst hreg'
              have hne : ¬ field f "Region Name" = reg.name := by
                intro e
                have := (h.byName (field f "Region Name") r).mpr (by rw [hreg, e]; rfl)
                rw [hget] at this
                injection this with this
                exact hr this
              simp [hne, hf, hm]
      · simp [feederStep, hget, h.dtObjs]
      · simp [feederStep, hget, h.dtById]
      · simp [feederStep, hget, h.meterObjs]
      · simp [feederStep, hget, h.meterById]
  | none =>
      have hnone : ∀ r : Nat, (s.regions[r]?).map (fun reg => reg.name) ≠ some (field f "Region Name") := by
        intro r e
        have := (h.byName _ _).mpr e
        rw [hget] at this
        exact Option.noConfusion this
      have hnot : field f "Region Name" ∉ fs.map (fun f => field f "Region Name") := by
        rw [← mem_firstSeen, ← h.names]
        intro hm
        obtain ⟨reg, hreg, hname⟩ := List.mem_map.mp hm
        obtain ⟨r, hr⟩ := List.getElem?_of_mem hreg
        exact hnone r (by rw [hr]; simp [hname])
      refine ⟨?_, ?_, ?_, ?_, ?_, ?_, ?_, ?_, ?_⟩
      · simp [feederStep, hget, h.objs]
      · simpa [feederStep, hget] using hidx
      · simp only [feederStep, hget, map_name_pushFeeder, List.map_append, List.map_cons,
          List.map_nil, firstSeen_snoc, if_neg hnot, h.names]
      · intro k r
        simp only [feederStep, hget, name_pushFeeder, mapGet_mapSet, getElem?_snoc]
        by_cases hk : field f "Region Name" = k
        · subst hk
          simp only [if_true]
          constructor
          · intro e
            injection e with e
            subst e
            simp
          · intro e
            split_ifs at e with h1 h2
            · exact absurd e (hnone r)
            · rw [h2]
            · exact Option.noConfusion e
        · simp only [if_neg hk]
          rw [h.byName k r]
          split_ifs with h1 h2
          · rfl
          · rw [List.getElem?_eq_none (by omega)]
            simp [hk]
          · rw [List.getElem?_eq_none (by omega)]
      · intro r reg' hreg'
        simp only [feederStep, hget, getElem?_pushFeeder, getElem?_snoc] at hreg'
        rw [rowIndices_snoc]
        by_cases h1 : r < s.regions.length
        · rw [if_pos h1] at hreg'
          cases hreg : s.regions[r]? with
          | none => rw [hreg] at hreg'; exact Option.noConfusion hreg'
          | some reg =>
              rw [hreg] at hreg'
              simp only [Option.map_some', if_neg (show ¬ s.regions.length = r by omega)] at hreg'
              injection hreg' with hreg'
              subst hreg'
              obtain ⟨hf, hm⟩ := h.feeders r reg hreg
              have hne : ¬ field f "Region Name" = reg.name := by
                intro e
                exact hnone r (by rw [hreg, e]; rfl)
              simp [hne, hf, hm]
        · rw [if_neg h1] at hreg'
          by_cases h2 : r = s.regions.length
          · rw [if_pos h2] at hreg'
            simp only [Option.map_some', if_pos h2.symm] at hreg'
            injection hreg' with hreg'
            subst hreg'
            have hnil : rowIndices
                (fun f' => decide (field f' "Region Name" = field f "Region Name")) fs = [] := by
              apply rowIndices_eq_nil
              intro r' hr'
              simp only [decide_eq_false_iff_not]
              intro e
              exact hnot (List.mem_map.mpr ⟨r', hr', e⟩)
            simp [hnil, hlen]
          · rw [if_neg h2] at hreg'
            simp at hreg'
      · simp [feederStep, hget, h.dtObjs]
      · simp [feederStep, hget, h.dtById]
      · simp [feederStep, hget, h.meterObjs]
      · simp [feederStep, hget, h.meterById]

theorem feedersDone_foldl (s : State) (fs : List Row) :
    FeedersDone fs (fs.foldl feederStep (resetState s)) := by
  induction fs using List.reverseRecOn with
  | nil => exact feedersDone_reset s
  | append_singleton l a ih =>
      rw [List.foldl_append]
      exact feedersDone_step ih a

theorem getElem?_pushDt (feeders : List FeederObj) (k ref i : Nat) :
    (pushDt feeders k ref)[i]? = (feeders[i]?).map
      (fun f => if k = i then { f with dts := f.dts ++ [ref] } else f) := by
  unfold pushDt
  rw [List.getElem?_modify]
  rfl

theorem getElem?_pushFeederMeter (feeders : List FeederObj) (k ref i : Nat) :
    (pushFeederMeter feeders k ref)[i]? = (feeders[i]?).map
      (fun f => if k = i then { f with meters := f.meters ++ [ref] } else f) := by
  unfold pushFeederMeter
  rw [List.getElem?_modify]
  rfl

theorem getElem?_pushDtMeter (dts : List DtObj) (j ref i : Nat) :
    (pushDtMeter dts j ref)[i]? = (dts[i]?).map
      (fun d => if j = i then { d with meters := d.meters ++ [ref] } else d) := by
  unfold pushDtMeter
  rw [List.getElem?_modify]
  rfl

theorem dtsDone_start (s0 : State) (h1 : s0.dtObjs = []) (h2 : s0.dtById = []) :
    DtsDone s0 [] s0 where
  regions := rfl
  regionByName := rfl
  feederById := rfl
  meterObjs := rfl
  meterById := rfl
  objs := by simp [h1]
  index := by rw [h2]; exact IndexesLast.nil
  feeders := by
    intro k
    cases s0.feederObjs[k]? <;> simp [rowIndices, rowIndicesFrom]

theorem dtsDone_step {s0 s : State} {ds : List Row} (h : DtsDone s0 ds s) (d : Row) :
    DtsDone s0 (ds ++ [d]) (dtStep s d) := by
  have hlen : s.dtObjs.length = ds.length := by rw [h.objs, List.length_map]
  have hidx : IndexesLast ((ds ++ [d]).map (fun d => field d "DT Code"))
      (mapSet s.dtById (mkDtObj d).id s.dtObjs.length) := by
    have := h.index.snoc (field d "DT Code")
    rw [List.length_map] at this
    rw [List.map_append, hlen]
    exact this
  refine ⟨?_, ?_, ?_, ?_, ?_, ?_, ?_, ?_⟩
  · simp [dtStep, h.regions]
  · simp [dtStep, h.regionByName]
  · simp [dtStep, h.feederById]
  · simp [dtStep, h.meterObjs]
  · simp [dtStep, h.meterById]
  · simp [dtStep, h.objs]
  · simpa [dtStep] using hidx
  · intro k
    have hfe : (mkDtObj d).feederId = field d "Feeder Code" := rfl
    simp only [dtStep, h.feederById, hfe]
    rw [rowIndices_snoc]
    cases hget : mapGet s0.feederById (field d "Feeder Code") with
    | none =>
        simp only [h.feeders k]
        cases s0.feederObjs[k]? <;> simp [dtUnder, hget]
    | some k0 =>
        simp only [getElem?_pushDt, h.feeders k]
        cases s0.feederObjs[k]? with
        | none => rfl
        | some o =>
            by_cases hk : k0 = k
            · simp [hk, hlen, dtUnder, hget]
            · simp [hk, dtUnder, hget]

theorem dtsDone_foldl (s0 : State) (h1 : s0.dtObjs = []) (h2 : s0.dtById = []) (ds : List Row) :
    DtsDone s0 ds (ds.foldl dtStep s0) := by
  induction ds using List.reverseRecOn with
  | nil => exact dtsDone_start s0 h1 h2
  | append_singleton l a ih =>
      rw [List.foldl_append]
      exact dtsDone_step ih a

theorem metersDone_start (s0 : State) (h1 : s0.meterObjs = []) (h2 : s0.meterById = []) :
    MetersDone s0 [] s0 where
  regions := rfl
  regionByName := rfl
  feederById := rfl
  dtById := rfl
  objs := by simp [h1]
  index := by rw [h2]; exact IndexesLast.nil
  dts := by
    intro j
    cases s0.dtObjs[j]? <;> simp [rowIndices, rowIndicesFrom]
  feeders := by
    intro k
    cases s0.feederObjs[k]? <;> simp [rowIndices, rowIndicesFrom]

theorem metersDone_step {s0 s : State} {ms : List Row} (h : MetersDone s0 ms s) (m : Row) :
    MetersDone s0 (ms ++ [m]) (meterStep s m) := by
  have hlen : s.meterObjs.length = ms.length := by rw [h.objs, List.length_map]
  have hidx : IndexesLast ((ms ++ [m]).map (fun m => field m "Meter No."))
      (mapSet s.meterById (mkMeterObj m).id s.meterObjs.length) := by
    have := h.index.snoc (field m "Meter No.")
    rw [List.length_map] at this
    rw [List.map_append, hlen]
    exact this
  have hun : (mkMeterObj m).unmapped = parseYesNo (field m "Unmapped") := rfl
  have hdt : (mkMeterObj m).dtId = field m "DT Code" := rfl
  have hfe : (mkMeterObj m).feederId = field m "Feeder Code" := rfl
  refine ⟨?_, ?_, ?_, ?_, ?_, ?_, ?_, ?_⟩
  · simp [meterStep, h.regions]
  · simp [meterStep, h.regionByName]
  · simp [meterStep, h.feederById]
  · simp [meterStep, h.dtById]
  · simp [meterStep, h.objs]
  · simpa [meterStep] using hidx
  · intro j
    simp only [meterStep, h.dtById, hun, hdt]
    rw [rowIndices_snoc]
    cases hu : parseYesNo (field m "Unmapped") with
    | true =>
        simp only [if_true, h.dts j]
        cases s0.dtObjs[j]? <;> simp [meterUnderDt, hu]
    | false =>
        simp only [Bool.false_eq_true, if_false]
        cases hget : mapGet s0.dtById (field m "DT Code") with
        | none =>
            simp only [h.dts j]
            cases s0.dtObjs[j]? <;> simp [meterUnderDt, hget]
        | some j0 =>
            simp only [getElem?_pushDtMeter, h.dts j]
            cases s0.dtObjs[j]? with
            | none => rfl
            | some o =>
                by_cases hj : j0 = j
                · simp [hj, hlen, meterUnderDt, hget, hu]
                · simp [hj, meterUnderDt, hget]
  · intro k
    simp only [meterStep, h.feederById, hun, hfe]
    rw [rowIndices_snoc]
    cases hu : parseYesNo (field m "Unmapped") with
    | true =>
        simp only [if_true, h.feeders k]
        cases s0.feederObjs[k]? <;> simp [meterUnderFeeder, hu]
    | false =>
        simp only [Bool.false_eq_true, if_false]
        cases hget : mapGet s0.feederById (field m "Feeder Code") with
        | none =>
            simp only [h.feeders k]
            cases s0.feederObjs[k]? <;> simp [meterUnderFeeder, hget]
        | some k0 =>
            simp only [getElem?_pushFeederMeter, h.feeders k]
            cases s0.feederObjs[k]? with
            | none => rfl
            | some o =>
                by_cases hk : k0 = k
                · simp [hk, hlen, meterUnderFeeder, hget, hu]
                · simp [hk, meterUnderFeeder, hget]

theorem metersDone_foldl (s0 : State) (h1 : s0.meterObjs = []) (h2 : s0.meterById = [])
    (ms : List Row) : MetersDone s0 ms (ms.foldl meterStep s0) := by
  induction ms using List.reverseRecOn with
  | nil => exact metersDone_start s0 h1 h2
  | append_singleton l a ih =>
      rw [List.foldl_append]
      exact metersDone_step ih a

theorem build_built (s : State) (fs ds ms : List Row) :
    Built fs ds ms (buildModelFromThreeSheets s fs ds ms) := by
  have hF := feedersDone_foldl s fs
  have hD := dtsDone_foldl (fs.foldl feederStep (resetState s)) hF.dtObjs hF.dtById ds
  have hM := metersDone_foldl (ds.foldl dtStep (fs.foldl feederStep (resetState s)))
    (hD.meterObjs.trans hF.meterObjs) (hD.meterById.trans hF.meterById) ms
  refine ⟨?_, ?_, ?_, ?_, ?_, ?_, ?_, ?_, ?_⟩
  · simp only [buildModelFromThreeSheets, aggregateRegions, hM.feederById, hD.feederById]
    exact hF.index
  · simp only [buildModelFromThreeSheets, aggregateRegions, hM.dtById]
    exact hD.index
  · simp only [buildModelFromThreeSheets, aggregateRegions]
    exact hM.index
  · intro k
    simp only [buildModelFromThreeSheets, aggregateRegions, hM.feederById, hD.feederById,
      hM.feeders k, hD.feeders k, hF.objs, List.getElem?_map]
    cases fs[k]? <;> simp [mkFeederObj]
  · intro j
    simp only [buildModelFromThreeSheets, aggregateRegions, hM.dtById, hM.dts j, hD.objs,
      List.getElem?_map]
    cases ds[j]? <;> simp [mkDtObj]
  · simp only [buildModelFromThreeSheets, aggregateRegions]
    exact hM.objs
  · simp only [buildModelFromThreeSheets, aggregateRegions, List.map_map, hM.regions, hD.regions]
    exact hF.names
  · intro k r
    simp only [buildModelFromThreeSheets, aggregateRegions, hM.regionByName, hD.regionByName,
      hM.regions, hD.regions, List.getElem?_map, Option.map_map]
    exact hF.byName k r
  · intro r reg hreg
    simp only [buildModelFromThreeSheets, aggregateRegions, hM.regions, hD.regions,
      List.getElem?_map] at hreg
    cases hreg0 : (fs.foldl feederStep (resetState s)).regions[r]? with
    | none => rw [hreg0] at hreg; exact Option.noConfusion hreg
    | some reg0 =>
        rw [hreg0] at hreg
        simp only [Option.map_some'] at hreg
        injection hreg with hreg
        subst hreg
        exact ⟨(hF.feeders r reg0 hreg0).1, rfl⟩

/-! ## Properties of a built model -/

theorem not_mem_drop_iff {α : Type} (l : List α) (i : Nat) (k : α) :
    k ∉ l.drop (i + 1) ↔ ∀ j, i < j → l[j]? ≠ some k := by
  constructor
  · intro h j hj e
    apply h
    rw [List.mem_iff_getElem?]
    refine ⟨j - (i + 1), ?_⟩
    rw [List.getElem?_drop]
    have : i + 1 + (j - (i + 1)) = j := by omega
    rw [this]
    exact e
  · intro h hm
    rw [List.mem_iff_getElem?] at hm
    obtain ⟨n, hn⟩ := hm
    rw [List.getElem?_drop] at hn
    exact h (i + 1 + n) (by omega) hn

theorem exists_last_index {α : Type} (l : List α) (k : α) (h : k ∈ l) :
    ∃ i, l[i]? = some k ∧ k ∉ l.drop (i + 1) := by
  classical
  induction l with
  | nil => exact absurd h (List.not_mem_nil k)
  | cons a t ih =>
      by_cases hk : k ∈ t
      · obtain ⟨i, hi, hlast⟩ := ih hk
        exact ⟨i + 1, by simpa using hi, by simpa using hlast⟩
      · have hka : k = a := by
          rcases List.mem_cons.mp h with e | e
          · exact e
          · exact absurd e hk
        exact ⟨0, by simp [hka], by simpa using hk⟩

theorem IndexesLast.get_last {ids : List Cell} {m : JSMap Nat} (h : IndexesLast ids m)
    {i : Nat} {k : Cell} (hi : ids[i]? = some k) (hlast : k ∉ ids.drop (i + 1)) :
    mapGet m k = some i :=
  (h k i).mpr ⟨hi, (not_mem_drop_iff ids i k).mp hlast⟩

theorem IndexesLast.isSome_of_mem {ids : List Cell} {m : JSMap Nat} (h : IndexesLast ids m)
    {k : Cell} (hk : k ∈ ids) : (mapGet m k).isSome = true := by
  obtain ⟨i, hi, hlast⟩ := exists_last_index ids k hk
  rw [h.get_last hi hlast]
  rfl

theorem IndexesLast.row_of_get {ids : List Cell} {m : JSMap Nat} (h : IndexesLast ids m)
    {i : Nat} {k : Cell} (hg : mapGet m k = some i) : ids[i]? = some k :=
  ((h k i).mp hg).1

theorem foldl_add_eq_sum {α : Type} (g : α → Nat) (l : List α) (a : Nat) :
    l.foldl (fun acc x => acc + g x) a = a + (l.map g).sum := by
  induction l generalizing a with
  | nil => simp
  | cons x t ih => simp [ih, Nat.add_assoc]

theorem rowIndicesFrom_pairwise (p : Row → Bool) (base : Nat) (rows : List Row) :
    (rowIndicesFrom p base rows).Pairwise (fun a b => a < b) := by
  induction rows generalizing base with
  | nil => simp [rowIndicesFrom]
  | cons r t ih =>
      by_cases h : p r = true
      · rw [rowIndicesFrom, if_pos h, List.pairwise_cons]
        refine ⟨?_, ih (base + 1)⟩
        intro i hi
        have := ((mem_rowIndicesFrom p (base + 1) t i).mp hi).1
        omega
      · rw [rowIndicesFrom, if_neg h]
        exact ih (base + 1)

theorem rowIndices_pairwise (p : Row → Bool) (rows : List Row) :
    (rowIndices p rows).Pairwise (fun a b => a < b) :=
  rowIndicesFrom_pairwise p 0 rows

theorem feedersAt_subset (s : State) (refs : List Nat) (f : FeederObj)
    (h : f ∈ feedersAt s refs) : f ∈ s.feederObjs := by
  unfold feedersAt at h
  obtain ⟨k, -, hk⟩ := List.mem_filterMap.mp h
  exact List.getElem?_mem hk

theorem Built.not_mem_dts_of_orphan {fs ds ms : List Row} {s : State} (B : Built fs ds ms s)
    {i : Nat} {d : Row} (hd : ds[i]? = some d)
    (horphan : mapGet s.feederById (field d "Feeder Code") = none) :
    ∀ f ∈ s.feederObjs, i ∉ f.dts := by
  intro f hf hi
  obtain ⟨k, hk⟩ := List.getElem?_of_mem hf
  rw [B.feederObjs k] at hk
  cases hrow : fs[k]? with
  | none => rw [hrow] at hk; exact Option.noConfusion hk
  | some frow =>
      rw [hrow] at hk
      simp only [Option.map_some'] at hk
      injection hk with hk
      subst hk
      obtain ⟨r, hr, hp⟩ := (mem_rowIndices _ ds i).mp hi
      rw [hd] at hr
      injection hr with hr
      subst hr
      simp [dtUnder, horphan] at hp
/-- C5, counterexample: two DT rows carry the DT Code `D1` and a Feeder Code
that no feeder row has.  Both are orphans, but the DT index holds only the DT of
the second row: the DT of the first row is in no index. -/
theorem orphan_dt_overwritten_counterexample :
    mapGet (buildModelFromThreeSheets State.init []
        [[("Feeder Code", Cell.str "X"), ("DT Code", Cell.str "D1"), ("DT Name", Cell.str "first")],
         [("Feeder Code", Cell.str "X"), ("DT Code", Cell.str "D1"), ("DT Name", Cell.str "second")]]
        []).feederById (Cell.str "X") = none ∧
    (buildModelFromThreeSheets State.init []
        [[("Feeder Code", Cell.str "X"), ("DT Code", Cell.str "D1"), ("DT Name", Cell.str "first")],
         [("Feeder Code", Cell.str "X"), ("DT Code", Cell.str "D1"), ("DT Name", Cell.str "second")]]
        []).dtObjs.map (fun d => d.name) = [Cell.str "first", Cell.str "second"] ∧
    (buildModelFromThreeSheets State.init []
        [[("Feeder Code", Cell.str "X"), ("DT Code", Cell.str "D1"), ("DT Name", Cell.str "first")],
         [("Feeder Code", Cell.str "X"), ("DT Code", Cell.str "D1"), ("DT Name", Cell.str "second")]]
        []).dtById = [(Cell.str "D1", 1)] := by
  decide

/-- C5, amended: for every build and every DT row whose `Feeder Code` is not a
key of the feeder index, the DT index has an entry under the row's `DT Code`,
and that entry is the DT of this row when no later DT row repeats the code; the
DT appears in no feeder's `dts` list, and no region's `metrics.dts` counts it
(the count is the number of other entries of the `dts` lists of the region's
feeders). -/
theorem orphan_dt_indexed_not_parented (s : State) (fs ds ms : List Row) (i : Nat) (d : Row)
    (hd : ds[i]? = some d)
    (horphan : mapGet (buildModelFromThreeSheets s fs ds ms).feederById
      (field d "Feeder Code") = none) :
    mapHas (buildModelFromThreeSheets s fs ds ms).dtById (field d "DT Code") = true ∧
    (field d "DT Code" ∉ (ds.drop (i + 1)).map (fun d' => field d' "DT Code") →
      mapGet (buildModelFromThreeSheets s fs ds ms).dtById (field d "DT Code") = some i) ∧
    (∃ o, (buildModelFromThreeSheets s fs ds ms).dtObjs[i]? = some o ∧
      { o with meters := [] } = mkDtObj d) ∧
    (∀ f ∈ (buildModelFromThreeSheets s fs ds ms).feederObjs, i ∉ f.dts) ∧
    (∀ reg ∈ (buildModelFromThreeSheets s fs ds ms).regions, ∃ m, reg.metrics = some m ∧
      m.dts = ((feedersAt (buildModelFromThreeSheets s fs ds ms) reg.feeders).map
        (fun f => (f.dts.filter (fun j => decide (j ≠ i))).length)).sum) := by
  have B := build_built s fs ds ms
  have hcode : (ds.map (fun d' => field d' "DT Code"))[i]? = some (field d "DT Code") := by
    rw [List.getElem?_map, hd]
    rfl
  have hnot := B.not_mem_dts_of_orphan hd horphan
  refine ⟨?_, ?_, ?_, hnot, ?_⟩
  · exact B.dtById.isSome_of_mem (List.getElem?_mem hcode)
  · intro hlast
    rw [List.map_drop] at hlast
    exact B.dtById.get_last hcode hlast
  · have hobj := B.dtObjs i
    rw [hd] at hobj
    exact ⟨_, hobj, rfl⟩
  · intro reg hreg
    obtain ⟨r, hr⟩ := List.getElem?_of_mem hreg
    refine ⟨_, (B.regions r reg hr).2, ?_⟩
    simp only [regionMetrics, foldl_add_eq_sum, Nat.zero_add]
    congr 1
    apply List.map_congr_left
    intro f hf
    have hfi := hnot f (feedersAt_subset _ _ f hf)
    congr 1
    symm
    rw [List.filter_eq_self]
    intro j hj
    simp only [decide_eq_true_eq]
    intro e
    exact hfi (e ▸ hj)

/-- C5, witness: one feeder `F1`, one DT row `D1` pointing at the unknown feeder `X`. -/
theorem orphan_dt_indexed_not_parented_witness :
    mapGet (buildModelFromThreeSheets State.init
        [[("Region Name", Cell.str "R"), ("Feeder Code", Cell.str "F1")]]
        [[("Feeder Code", Cell.str "X"), ("DT Code", Cell.str "D1")]] []).feederById
      (Cell.str "X") = none ∧
    mapGet (buildModelFromThreeSheets State.init
        [[("Region Name", Cell.str "R"), ("Feeder Code", Cell.str "F1")]]
        [[("Feeder Code", Cell.str "X"), ("DT Code", Cell.str "D1")]] []).dtById
      (Cell.str "D1") = some 0 ∧
    (∀ f ∈ (buildModelFromThreeSheets State.init
        [[("Region Name", Cell.str "R"), ("Feeder Code", Cell.str "F1")]]
        [[("Feeder Code", Cell.str "X"), ("DT Code", Cell.str "D1")]] []).feederObjs,
      0 ∉ f.dts) :=
  have h := orphan_dt_indexed_not_parented State.init
    [[("Region Name", Cell.str "R"), ("Feeder Code", Cell.str "F1")]]
    [[("Feeder Code", Cell.str "X"), ("DT Code", Cell.str "D1")]] [] 0
    [("Feeder Code", Cell.str "X"), ("DT Code", Cell.str "D1")] rfl (by decide)
  ⟨by decide, h.2.1 (by decide), h.2.2.2.1⟩

theorem Built.not_mem_meters_of_unmapped {fs ds ms : List Row} {s : State} (B : Built fs ds ms s)
    {i : Nat} {m : Row} (hm : ms[i]? = some m) (hun : parseYesNo (field m "Unmapped") = true) :
    (∀ d ∈ s.dtObjs, i ∉ d.meters) ∧ (∀ f ∈ s.feederObjs, i ∉ f.meters) := by
  constructor
  · intro d hd hi
    obtain ⟨j, hj⟩ := List.getElem?_of_mem hd
    rw [B.dtObjs j] at hj
    cases hrow : ds[j]? with
    | none => rw [hrow] at hj; exact Option.noConfusion hj
    | some drow =>
        rw [hrow] at hj
        simp only [Option.map_some'] at hj
        injection hj with hj
        subst hj
        obtain ⟨r, hr, hp⟩ := (mem_rowIndices _ ms i).mp hi
        rw [hm] at hr
        injection hr with hr
        subst hr
        simp [meterUnderDt, hun] at hp
  · intro f hf hi
    obtain ⟨k, hk⟩ := List.getElem?_of_mem hf
    rw [B.feederObjs k] at hk
    cases hrow : fs[k]? with
    | none => rw [hrow] at hk; exact Option.noConfusion hk
    | some frow =>
        rw [hrow] at hk
        simp only [Option.map_some'] at hk
        injection hk with hk
        subst hk
        obtain ⟨r, hr, hp⟩ := (mem_rowIndices _ ms i).mp hi
        rw [hm] at hr
        injection hr with hr
        subst hr
        simp [meterUnderFeeder, hun] at hp

/-- C6: for every build and every meter row whose Unmapped cell parses to true
and whose `Meter No.` is not repeated by a later meter row, the meter index
returns the meter of this row for its id, and the meter is in the `meters` list
of no DT and of no feeder, whether or not its parent codes resolve. -/
theorem unmapped_meter_indexed_not_linked (s : State) (fs ds ms : List Row) (i : Nat) (m : Row)
    (hm : ms[i]? = some m)
    (hun : parseYesNo (field m "Unmapped") = true)
    (hlast : field m "Meter No." ∉ (ms.drop (i + 1)).map (fun m' => field m' "Meter No.")) :
    mapGet (buildModelFromThreeSheets s fs ds ms).meterById (field m "Meter No.") = some i ∧
    (buildModelFromThreeSheets s fs ds ms).meterObjs[i]? = some (mkMeterObj m) ∧
    (mkMeterObj m).id = field m "Meter No." ∧
    (∀ d ∈ (buildModelFromThreeSheets s fs ds ms).dtObjs, i ∉ d.meters) ∧
    (∀ f ∈ (buildModelFromThreeSheets s fs ds ms).feederObjs, i ∉ f.meters) := by
  have B := build_built s fs ds ms
  have hcode : (ms.map (fun m' => field m' "Meter No."))[i]? = some (field m "Meter No.") := by
    rw [List.getElem?_map, hm]
    rfl
  obtain ⟨h1, h2⟩ := B.not_mem_meters_of_unmapped hm hun
  refine ⟨?_, ?_, rfl, h1, h2⟩
  · rw [List.map_drop] at hlast
    exact B.meterById.get_last hcode hlast
  · rw [B.meterObjs, List.getElem?_map, hm]
    rfl

/-- C6, witness: a feeder `F1`, a DT `D1` under it and an unmapped meter `M1`
whose parent codes both resolve. -/
theorem unmapped_meter_indexed_not_linked_witness :
    parseYesNo (Cell.str "Yes") = true ∧
    mapGet (buildModelFromThreeSheets State.init
        [[("Region Name", Cell.str "R"), ("Feeder Code", Cell.str "F1")]]
        [[("Feeder Code", Cell.str "F1"), ("DT Code", Cell.str "D1")]]
        [[("Meter No.", Cell.str "M1"), ("Feeder Code", Cell.str "F1"), ("DT Code", Cell.str "D1"),
          ("Unmapped", Cell.str "Yes")]]).meterById (Cell.str "M1") = some 0 ∧
    (∀ d ∈ (buildModelFromThreeSheets State.init
        [[("Region Name", Cell.str "R"), ("Feeder Code", Cell.str "F1")]]
        [[("Feeder Code", Cell.str "F1"), ("DT Code", Cell.str "D1")]]
        [[("Meter No.", Cell.str "M1"), ("Feeder Code", Cell.str "F1"), ("DT Code", Cell.str "D1"),
          ("Unmapped", Cell.str "Yes")]]).dtObjs, 0 ∉ d.meters) ∧
    (∀ f ∈ (buildModelFromThreeSheets State.init
        [[("Region Name", Cell.str "R"), ("Feeder Code", Cell.str "F1")]]
        [[("Feeder Code", Cell.str "F1"), ("DT Code", Cell.str "D1")]]
        [[("Meter No.", Cell.str "M1"), ("Feeder Code", Cell.str "F1"), ("DT Code", Cell.str "D1"),
          ("Unmapped", Cell.str "Yes")]]).feederObjs, 0 ∉ f.meters) :=
  have h := unmapped_meter_indexed_not_linked State.init
    [[("Region Name", Cell.str "R"), ("Feeder Code", Cell.str "F1")]]
    [[("Feeder Code", Cell.str "F1"), ("DT Code", Cell.str "D1")]]
    [[("Meter No.", Cell.str "M1"), ("Feeder Code", Cell.str "F1"), ("DT Code", Cell.str "D1"),
      ("Unmapped", Cell.str "Yes")]] 0
    [("Meter No.", Cell.str "M1"), ("Feeder Code", Cell.str "F1"), ("DT Code", Cell.str "D1"),
      ("Unmapped", Cell.str "Yes")] rfl (by decide) (by decide)
  ⟨by decide, h.1, h.2.2.2.1, h.2.2.2.2⟩
theorem Built.feeder_ref {fs ds ms : List Row} {s : State} (B : Built fs ds ms s)
    {k : Nat} {f : Row} (hk : fs[k]? = some f) :
    (∃ o, s.feederObjs[k]? = some o ∧ { o with dts := [], meters := [] } = mkFeederObj f) ∧
    (field f "Feeder Code" ∉ (fs.drop (k + 1)).map (fun f' => field f' "Feeder Code") →
      mapGet s.feederById (field f "Feeder Code") = some k) := by
  constructor
  · have hobj := B.feederObjs k
    rw [hk] at hobj
    exact ⟨_, hobj, rfl⟩
  · intro hlast
    rw [List.map_drop] at hlast
    exact B.feederById.get_last (by rw [List.getElem?_map, hk]; rfl) hlast

theorem Built.dt_ref {fs ds ms : List Row} {s : State} (B : Built fs ds ms s)
    {j : Nat} {d : Row} (hj : ds[j]? = some d) :
    (∃ o, s.dtObjs[j]? = some o ∧ { o with meters := [] } = mkDtObj d) ∧
    (field d "DT Code" ∉ (ds.drop (j + 1)).map (fun d' => field d' "DT Code") →
      mapGet s.dtById (field d "DT Code") = some j) := by
  constructor
  · have hobj := B.dtObjs j
    rw [hj] at hobj
    exact ⟨_, hobj, rfl⟩
  · intro hlast
    rw [List.map_drop] at hlast
    exact B.dtById.get_last (by rw [List.getElem?_map, hj]; rfl) hlast

theorem Built.meter_ref {fs ds ms : List Row} {s : State} (B : Built fs ds ms s)
    {i : Nat} {m : Row} (hi : ms[i]? = some m) :
    s.meterObjs[i]? = some (mkMeterObj m) ∧
    (field m "Meter No." ∉ (ms.drop (i + 1)).map (fun m' => field m' "Meter No.") →
      mapGet s.meterById (field m "Meter No.") = some i) := by
  constructor
  · rw [B.meterObjs, List.getElem?_map, hi]
    rfl
  · intro hlast
    rw [List.map_drop] at hlast
    exact B.meterById.get_last (by rw [List.getElem?_map, hi]; rfl) hlast

theorem Built.row_of_mem_feeders {fs ds ms : List Row} {s : State} (B : Built fs ds ms s)
    {reg : RegionObj} (hreg : reg ∈ s.regions) {k : Nat} (hk : k ∈ reg.feeders) :
    ∃ f, fs[k]? = some f ∧ field f "Region Name" = reg.name := by
  obtain ⟨r, hr⟩ := List.getElem?_of_mem hreg
  rw [(B.regions r reg hr).1] at hk
  obtain ⟨f, hf, hp⟩ := (mem_rowIndices _ fs k).mp hk
  exact ⟨f, hf, by simpa using hp⟩

theorem Built.row_of_mem_dts {fs ds ms : List Row} {s : State} (B : Built fs ds ms s)
    {fo : FeederObj} (hfo : fo ∈ s.feederObjs) {j : Nat} (hj : j ∈ fo.dts) :
    ∃ d, ds[j]? = some d := by
  obtain ⟨k, hk⟩ := List.getElem?_of_mem hfo
  rw [B.feederObjs k] at hk
  cases hrow : fs[k]? with
  | none => rw [hrow] at hk; exact Option.noConfusion hk
  | some frow =>
      rw [hrow] at hk
      simp only [Option.map_some'] at hk
      injection hk with hk
      subst hk
      obtain ⟨d, hd, -⟩ := (mem_rowIndices _ ds j).mp hj
      exact ⟨d, hd⟩

theorem Built.row_of_mem_feeder_meters {fs ds ms : List Row} {s : State} (B : Built fs ds ms s)
    {fo : FeederObj} (hfo : fo ∈ s.feederObjs) {i : Nat} (hi : i ∈ fo.meters) :
    ∃ m, ms[i]? = some m := by
  obtain ⟨k, hk⟩ := List.getElem?_of_mem hfo
  rw [B.feederObjs k] at hk
  cases hrow : fs[k]? with
  | none => rw [hrow] at hk; exact Option.noConfusion hk
  | some frow =>
      rw [hrow] at hk
      simp only [Option.map_some'] at hk
      injection hk with hk
      subst hk
      obtain ⟨m, hm, -⟩ := (mem_rowIndices _ ms i).mp hi
      exact ⟨m, hm⟩

theorem Built.row_of_mem_dt_meters {fs ds ms : List Row} {s : State} (B : Built fs ds ms s)
    {dto : DtObj} (hdto : dto ∈ s.dtObjs) {i : Nat} (hi : i ∈ dto.meters) :
    ∃ m, ms[i]? = some m := by
  obtain ⟨j, hj⟩ := List.getElem?_of_mem hdto
  rw [B.dtObjs j] at hj
  cases hrow : ds[j]? with
  | none => rw [hrow] at hj; exact Option.noConfusion hj
  | some drow =>
      rw [hrow] at hj
      simp only [Option.map_some'] at hj
      injection hj with hj
      subst hj
      obtain ⟨m, hm, -⟩ := (mem_rowIndices _ ms i).mp hi
      exact ⟨m, hm⟩

/-- C7, counterexample: two feeder rows of region `R` carry the Feeder Code
`F1`.  The region lists both feeders (references 0 and 1), the one of the first
row being named `first`, while the feeder index returns for `F1` the feeder of
the second row. -/
theorem tree_index_disagree_counterexample :
    (buildModelFromThreeSheets State.init
        [[("Region Name", Cell.str "R"), ("Feeder Code", Cell.str "F1"),
          ("Feeder Name", Cell.str "first")],
         [("Region Name", Cell.str "R"), ("Feeder Code", Cell.str "F1"),
          ("Feeder Name", Cell.str "second")]] [] []).regions.map (fun reg => reg.feeders)
      = [[0, 1]] ∧
    (buildModelFromThreeSheets State.init
        [[("Region Name", Cell.str "R"), ("Feeder Code", Cell.str "F1"),
          ("Feeder Name", Cell.str "first")],
         [("Region Name", Cell.str "R"), ("Feeder Code", Cell.str "F1"),
          ("Feeder Name", Cell.str "second")]] [] []).feederObjs.map (fun f => (f.id, f.name))
      = [(Cell.str "F1", Cell.str "first"), (Cell.str "F1", Cell.str "second")] ∧
    mapGet (buildModelFromThreeSheets State.init
        [[("Region Name", Cell.str "R"), ("Feeder Code", Cell.str "F1"),
          ("Feeder Name", Cell.str "first")],
         [("Region Name", Cell.str "R"), ("Feeder Code", Cell.str "F1"),
          ("Feeder Name", Cell.str "second")]] [] []).feederById (Cell.str "F1") = some 1 := by
  decide

/-- C7, amended: after every build, each feeder in a region's `feeders` list,
each DT in a feeder's `dts` list and each meter in a DT's or feeder's `meters`
list is the entity built from one row of its sheet, and it is the very entity
that the corresponding index returns for its id whenever no later row of that
sheet repeats the id. -/
theorem tree_entity_is_index_entity (s : State) (fs ds ms : List Row) :
    (∀ reg ∈ (buildModelFromThreeSheets s fs ds ms).regions, ∀ k ∈ reg.feeders,
      ∃ f, fs[k]? = some f ∧
        (∃ o, (buildModelFromThreeSheets s fs ds ms).feederObjs[k]? = some o ∧
          { o with dts := [], meters := [] } = mkFeederObj f) ∧
        (field f "Feeder Code" ∉ (fs.drop (k + 1)).map (fun f' => field f' "Feeder Code") →
          mapGet (buildModelFromThreeSheets s fs ds ms).feederById (field f "Feeder Code")
            = some k)) ∧
    (∀ fo ∈ (buildModelFromThreeSheets s fs ds ms).feederObjs, ∀ j ∈ fo.dts,
      ∃ d, ds[j]? = some d ∧
        (∃ o, (buildModelFromThreeSheets s fs ds ms).dtObjs[j]? = some o ∧
          { o with meters := [] } = mkDtObj d) ∧
        (field d "DT Code" ∉ (ds.drop (j + 1)).map (fun d' => field d' "DT Code") →
          mapGet (buildModelFromThreeSheets s fs ds ms).dtById (field d "DT Code") = some j)) ∧
    (∀ dto ∈ (buildModelFromThreeSheets s fs ds ms).dtObjs, ∀ i ∈ dto.meters,
      ∃ m, ms[i]? = some m ∧
        (buildModelFromThreeSheets s fs ds ms).meterObjs[i]? = some (mkMeterObj m) ∧
        (field m "Meter No." ∉ (ms.drop (i + 1)).map (fun m' => field m' "Meter No.") →
          mapGet (buildModelFromThreeSheets s fs ds ms).meterById (field m "Meter No.")
            = some i)) ∧
    (∀ fo ∈ (buildModelFromThreeSheets s fs ds ms).feederObjs, ∀ i ∈ fo.meters,
      ∃ m, ms[i]? = some m ∧
        (buildModelFromThreeSheets s fs ds ms).meterObjs[i]? = some (mkMeterObj m) ∧
        (field m "Meter No." ∉ (ms.drop (i + 1)).map (fun m' => field m' "Meter No.") →
          mapGet (buildModelFromThreeSheets s fs ds ms).meterById (field m "Meter No.")
            = some i)) := by
  have B := build_built s fs ds ms
  refine ⟨?_, ?_, ?_, ?_⟩
  · intro reg hreg k hk
    obtain ⟨f, hf, -⟩ := B.row_of_mem_feeders hreg hk
    exact ⟨f, hf, (B.feeder_ref hf).1, (B.feeder_ref hf).2⟩
  · intro fo hfo j hj
    obtain ⟨d, hd⟩ := B.row_of_mem_dts hfo hj
    exact ⟨d, hd, (B.dt_ref hd).1, (B.dt_ref hd).2⟩
  · intro dto hdto i hi
    obtain ⟨m, hm⟩ := B.row_of_mem_dt_meters hdto hi
    exact ⟨m, hm, (B.meter_ref hm).1, (B.meter_ref hm).2⟩
  · intro fo hfo i hi
    obtain ⟨m, hm⟩ := B.row_of_mem_feeder_meters hfo hi
    exact ⟨m, hm, (B.meter_ref hm).1, (B.meter_ref hm).2⟩
/-- C7, witness: region `R` with feeder `F1`, DT `D1` and meter `M1`; the
feeder listed under the region is the one the feeder index returns for `F1`. -/
theorem tree_entity_is_index_entity_witness :
    (0 : Nat) ∈ ((buildModelFromThreeSheets State.init
        [[("Region Name", Cell.str "R"), ("Feeder Code", Cell.str "F1")]]
        [[("Feeder Code", Cell.str "F1"), ("DT Code", Cell.str "D1")]]
        [[("Meter No.", Cell.str "M1"), ("Feeder Code", Cell.str "F1"),
          ("DT Code", Cell.str "D1")]]).regions.map (fun reg => reg.feeders)).flatten ∧
    mapGet (buildModelFromThreeSheets State.init
        [[("Region Name", Cell.str "R"), ("Feeder Code", Cell.str "F1")]]
        [[("Feeder Code", Cell.str "F1"), ("DT Code", Cell.str "D1")]]
        [[("Meter No.", Cell.str "M1"), ("Feeder Code", Cell.str "F1"),
          ("DT Code", Cell.str "D1")]]).feederById (Cell.str "F1") = some 0 := by
  refine ⟨by decide, ?_⟩
  obtain ⟨f, hf, -, hidx⟩ := (tree_entity_is_index_entity State.init
    [[("Region Name", Cell.str "R"), ("Feeder Code", Cell.str "F1")]]
    [[("Feeder Code", Cell.str "F1"), ("DT Code", Cell.str "D1")]]
    [[("Meter No.", Cell.str "M1"), ("Feeder Code", Cell.str "F1"),
      ("DT Code", Cell.str "D1")]]).1
    { name := Cell.str "R", feeders := [0],
      metrics := some { feeders := 1, dts := 1, meters := 1, communicating := 0,
                        nonCommunicating := 0, unmapped := 0, neverComm := 0 } }
    (by decide) 0 (by decide)
  have hf' : f = [("Region Name", Cell.str "R"), ("Feeder Code", Cell.str "F1")] :=
    (Option.some.inj hf).symm
  subst hf'
  exact hidx (by decide)

/-- C8: in every build, for each of the three sheets, a row whose id
(`Feeder Code`, `DT Code`, `Meter No.`) is not carried by any later row of the
sheet, so the last row with that id, is the row whose entity the index returns
for the id, whatever earlier rows carried the same id. -/
theorem index_last_write_wins (s : State) (fs ds ms : List Row) :
    (∀ (i : Nat) (f : Row), fs[i]? = some f →
      field f "Feeder Code" ∉ (fs.drop (i + 1)).map (fun f' => field f' "Feeder Code") →
      mapGet (buildModelFromThreeSheets s fs ds ms).feederById (field f "Feeder Code") = some i ∧
      ∃ o, (buildModelFromThreeSheets s fs ds ms).feederObjs[i]? = some o ∧
        { o with dts := [], meters := [] } = mkFeederObj f) ∧
    (∀ (i : Nat) (d : Row), ds[i]? = some d →
      field d "DT Code" ∉ (ds.drop (i + 1)).map (fun d' => field d' "DT Code") →
      mapGet (buildModelFromThreeSheets s fs ds ms).dtById (field d "DT Code") = some i ∧
      ∃ o, (buildModelFromThreeSheets s fs ds ms).dtObjs[i]? = some o ∧
        { o with meters := [] } = mkDtObj d) ∧
    (∀ (i : Nat) (m : Row), ms[i]? = some m →
      field m "Meter No." ∉ (ms.drop (i + 1)).map (fun m' => field m' "Meter No.") →
      mapGet (buildModelFromThreeSheets s fs ds ms).meterById (field m "Meter No.") = some i ∧
      (buildModelFromThreeSheets s fs ds ms).meterObjs[i]? = some (mkMeterObj m)) := by
  have B := build_built s fs ds ms
  refine ⟨?_, ?_, ?_⟩
  · intro i f hf hlast
    exact ⟨(B.feeder_ref hf).2 hlast, (B.feeder_ref hf).1⟩
  · intro i d hd hlast
    exact ⟨(B.dt_ref hd).2 hlast, (B.dt_ref hd).1⟩
  · intro i m hm hlast
    exact ⟨(B.meter_ref hm).2 hlast, (B.meter_ref hm).1⟩

/-- C8, witness: three meter rows, the first and the last carrying `M1`; the
index returns for `M1` the meter of the last row (reference 2, DT Code `D9`). -/
theorem index_last_write_wins_witness :
    mapGet (buildModelFromThreeSheets State.init [] []
        [[("Meter No.", Cell.str "M1"), ("DT Code", Cell.str "D1")],
         [("Meter No.", Cell.str "M2"), ("DT Code", Cell.str "D1")],
         [("Meter No.", Cell.str "M1"), ("DT Code", Cell.str "D9")]]).meterById
      (Cell.str "M1") = some 2 ∧
    (buildModelFromThreeSheets State.init [] []
        [[("Meter No.", Cell.str "M1"), ("DT Code", Cell.str "D1")],
         [("Meter No.", Cell.str "M2"), ("DT Code", Cell.str "D1")],
         [("Meter No.", Cell.str "M1"), ("DT Code", Cell.str "D9")]]).meterObjs[2]?
      = some (mkMeterObj [("Meter No.", Cell.str "M1"), ("DT Code", Cell.str "D9")]) :=
  (index_last_write_wins State.init [] []
    [[("Meter No.", Cell.str "M1"), ("DT Code", Cell.str "D1")],
     [("Meter No.", Cell.str "M2"), ("DT Code", Cell.str "D1")],
     [("Meter No.", Cell.str "M1"), ("DT Code", Cell.str "D9")]]).2.2 2
    [("Meter No.", Cell.str "M1"), ("DT Code", Cell.str "D9")] rfl (by decide)

/-- C9: after every build the names of `state.regions` are the distinct
`Region Name` values of the feeder rows in order of first occurrence (each once);
the region index maps a name to a position exactly when the region there bears
that name; and each region's `feeders` list is, in increasing row order, the
references of exactly the feeder rows carrying its name, the feeder at
reference `k` being the one built from row `k`. -/
theorem regions_in_first_seen_order (s : State) (fs ds ms : List Row) :
    (buildModelFromThreeSheets s fs ds ms).regions.map (fun reg => reg.name)
      = firstSeen (fs.map (fun f => field f "Region Name")) ∧
    ((buildModelFromThreeSheets s fs ds ms).regions.map (fun reg => reg.name)).Nodup ∧
    (∀ x : Cell, x ∈ (buildModelFromThreeSheets s fs ds ms).regions.map (fun reg => reg.name) ↔
      ∃ f ∈ fs, field f "Region Name" = x) ∧
    (∀ (k : Cell) (r : Nat),
      mapGet (buildModelFromThreeSheets s fs ds ms).regionByName k = some r ↔
        ((buildModelFromThreeSheets s fs ds ms).regions[r]?).map (fun reg => reg.name) = some k) ∧
    (∀ (r : Nat) (reg : RegionObj), (buildModelFromThreeSheets s fs ds ms).regions[r]? = some reg →
      reg.feeders = rowIndices (fun f => decide (field f "Region Name" = reg.name)) fs ∧
      reg.feeders.Pairwise (fun a b => a < b) ∧
      ∀ k : Nat, k ∈ reg.feeders ↔ ∃ f, fs[k]? = some f ∧ field f "Region Name" = reg.name) ∧
    (∀ (k : Nat) (f : Row), fs[k]? = some f →
      ∃ o, (buildModelFromThreeSheets s fs ds ms).feederObjs[k]? = some o ∧
        { o with dts := [], meters := [] } = mkFeederObj f) := by
  have B := build_built s fs ds ms
  refine ⟨B.names, ?_, ?_, B.byName, ?_, ?_⟩
  · rw [B.names]
    exact nodup_firstSeen _
  · intro x
    rw [B.names, mem_firstSeen, List.mem_map]
  · intro r reg hreg
    have hf := (B.regions r reg hreg).1
    refine ⟨hf, ?_, ?_⟩
    · rw [hf]
      exact rowIndices_pairwise _ _
    · intro k
      rw [hf, mem_rowIndices]
      simp
  · intro k f hf
    exact (B.feeder_ref hf).1

/-- C9, witness: feeder rows of regions `B`, `A`, `B` give the regions `B`, `A`
in that order, and region `B` lists the feeders of rows 0 and 2. -/
theorem regions_in_first_seen_order_witness :
    (buildModelFromThreeSheets State.init
        [[("Region Name", Cell.str "B"), ("Feeder Code", Cell.str "F1")],
         [("Region Name", Cell.str "A"), ("Feeder Code", Cell.str "F2")],
         [("Region Name", Cell.str "B"), ("Feeder Code", Cell.str "F3")]] [] []).regions[0]?
      = some { name := Cell.str "B", feeders := [0, 2],
               metrics := some { feeders := 2, dts := 0, meters := 0, communicating := 0,
                                 nonCommunicating := 0, unmapped := 0, neverComm := 0 } } ∧
    ((0 : Nat) ∈ [0, 2] ↔
      ∃ f, [[("Region Name", Cell.str "B"), ("Feeder Code", Cell.str "F1")],
         [("Region Name", Cell.str "A"), ("Feeder Code", Cell.str "F2")],
         [("Region Name", Cell.str "B"), ("Feeder Code", Cell.str "F3")]][0]? = some f ∧
        field f "Region Name" = Cell.str "B") :=
  ⟨by decide,
   ((regions_in_first_seen_order State.init
      [[("Region Name", Cell.str "B"), ("Feeder Code", Cell.str "F1")],
       [("Region Name", Cell.str "A"), ("Feeder Code", Cell.str "F2")],
       [("Region Name", Cell.str "B"), ("Feeder Code", Cell.str "F3")]] [] []).2.2.2.2.1 0
      { name := Cell.str "B", feeders := [0, 2],
        metrics := some { feeders := 2, dts := 0, meters := 0, communicating := 0,
                          nonCommunicating := 0, unmapped := 0, neverComm := 0 } }
      (by decide)).2.2 0⟩

/-- C10: for every build and every meter row that is not unmapped, the meter
is in the `meters` list of the DT at `j` exactly when the DT index maps the
row's `DT Code` to `j` (so in no DT's list when the code is not a key), and in
the `meters` list of the feeder at `k` exactly when the feeder index maps the
row's `Feeder Code` to `k`; each of the two depends on its own code only, and
the meter occurs at most once in any list. -/
theorem mapped_meter_linked_independently (s : State) (fs ds ms : List Row) (i : Nat) (m : Row)
    (hm : ms[i]? = some m) (hun : parseYesNo (field m "Unmapped") = false) :
    (∀ j : Nat, (∃ o, (buildModelFromThreeSheets s fs ds ms).dtObjs[j]? = some o ∧ i ∈ o.meters) ↔
      mapGet (buildModelFromThreeSheets s fs ds ms).dtById (field m "DT Code") = some j) ∧
    (∀ k : Nat,
      (∃ o, (buildModelFromThreeSheets s fs ds ms).feederObjs[k]? = some o ∧ i ∈ o.meters) ↔
      mapGet (buildModelFromThreeSheets s fs ds ms).feederById (field m "Feeder Code") = some k) ∧
    (∀ o ∈ (buildModelFromThreeSheets s fs ds ms).dtObjs, o.meters.count i ≤ 1) ∧
    (∀ o ∈ (buildModelFromThreeSheets s fs ds ms).feederObjs, o.meters.count i ≤ 1) := by
  have B := build_built s fs ds ms
  have hmemD : ∀ j : Nat, i ∈ rowIndices
      (meterUnderDt (buildModelFromThreeSheets s fs ds ms).dtById j) ms ↔
      mapGet (buildModelFromThreeSheets s fs ds ms).dtById (field m "DT Code") = some j := by
    intro j
    rw [mem_rowIndices]
    constructor
    · rintro ⟨r, hr, hp⟩
      rw [hm] at hr
      injection hr with hr
      subst hr
      simpa [meterUnderDt, hun] using hp
    · intro h
      exact ⟨m, hm, by simp [meterUnderDt, hun, h]⟩
  have hmemF : ∀ k : Nat, i ∈ rowIndices
      (meterUnderFeeder (buildModelFromThreeSheets s fs ds ms).feederById k) ms ↔
      mapGet (buildModelFromThreeSheets s fs ds ms).feederById (field m "Feeder Code") = some k := by
    intro k
    rw [mem_rowIndices]
    constructor
    · rintro ⟨r, hr, hp⟩
      rw [hm] at hr
      injection hr with hr
      subst hr
      simpa [meterUnderFeeder, hun] using hp
    · intro h
      exact ⟨m, hm, by simp [meterUnderFeeder, hun, h]⟩
  refine ⟨?_, ?_, ?_, ?_⟩
  · intro j
    rw [← hmemD j, B.dtObjs j]
    constructor
    · rintro ⟨o, ho, hi⟩
      cases hrow : ds[j]? with
      | none => rw [hrow] at ho; exact Option.noConfusion ho
      | some drow =>
          rw [hrow] at ho
          simp only [Option.map_some'] at ho
          injection ho with ho
          subst ho
          exact hi
    · intro hi
      have hj := B.dtById.row_of_get ((hmemD j).mp hi)
      rw [List.getElem?_map] at hj
      cases hrow : ds[j]? with
      | none => rw [hrow] at hj; exact Option.noConfusion hj
      | some drow => exact ⟨_, rfl, hi⟩
  · intro k
    rw [← hmemF k, B.feederObjs k]
    constructor
    · rintro ⟨o, ho, hi⟩
      cases hrow : fs[k]? with
      | none => rw [hrow] at ho; exact Option.noConfusion ho
      | some frow =>
          rw [hrow] at ho
          simp only [Option.map_some'] at ho
          injection ho with ho
          subst ho
          exact hi
    · intro hi
      have hk := B.feederById.row_of_get ((hmemF k).mp hi)
      rw [List.getElem?_map] at hk
      cases hrow : fs[k]? with
      | none => rw [hrow] at hk; exact Option.noConfusion hk
      | some frow => exact ⟨_, rfl, hi⟩
  · intro o ho
    obtain ⟨j, hj⟩ := List.getElem?_of_mem ho
    rw [B.dtObjs j] at hj
    cases hrow : ds[j]? with
    | none => rw [hrow] at hj; exact Option.noConfusion hj
    | some drow =>
        rw [hrow] at hj
        simp only [Option.map_some'] at hj
        injection hj with hj
        subst hj
        exact List.nodup_iff_count_le_one.mp
          ((rowIndices_pairwise _ ms).imp (fun h => Nat.ne_of_lt h)) i
  · intro o ho
    obtain ⟨k, hk⟩ := List.getElem?_of_mem ho
    rw [B.feederObjs k] at hk
    cases hrow : fs[k]? with
    | none => rw [hrow] at hk; exact Option.noConfusion hk
    | some frow =>
        rw [hrow] at hk
        simp only [Option.map_some'] at hk
        injection hk with hk
        subst hk
        exact List.nodup_iff_count_le_one.mp
          ((rowIndices_pairwise _ ms).imp (fun h => Nat.ne_of_lt h)) i

/-- C10, witness: a meter whose `DT Code` resolves to the DT at 0 while its
`Feeder Code` is unknown is in that DT's list and in no feeder's list. -/
theorem mapped_meter_linked_independently_witness :
    parseYesNo (field [("Meter No.", Cell.str "M1"), ("Feeder Code", Cell.str "X"),
      ("DT Code", Cell.str "D1"), ("Unmapped", Cell.str "No")] "Unmapped") = false ∧
    (∃ o, (buildModelFromThreeSheets State.init
        [[("Region Name", Cell.str "R"), ("Feeder Code", Cell.str "F1")]]
        [[("Feeder Code", Cell.str "F1"), ("DT Code", Cell.str "D1")]]
        [[("Meter No.", Cell.str "M1"), ("Feeder Code", Cell.str "X"),
          ("DT Code", Cell.str "D1"), ("Unmapped", Cell.str "No")]]).dtObjs[0]? = some o ∧
      0 ∈ o.meters) ∧
    ¬ (∃ o, (buildModelFromThreeSheets State.init
        [[("Region Name", Cell.str "R"), ("Feeder Code", Cell.str "F1")]]
        [[("Feeder Code", Cell.str "F1"), ("DT Code", Cell.str "D1")]]
        [[("Meter No.", Cell.str "M1"), ("Feeder Code", Cell.str "X"),
          ("DT Code", Cell.str "D1"), ("Unmapped", Cell.str "No")]]).feederObjs[0]? = some o ∧
      0 ∈ o.meters) :=
  have h := mapped_meter_linked_independently State.init
    [[("Region Name", Cell.str "R"), ("Feeder Code", Cell.str "F1")]]
    [[("Feeder Code", Cell.str "F1"), ("DT Code", Cell.str "D1")]]
    [[("Meter No.", Cell.str "M1"), ("Feeder Code", Cell.str "X"),
      ("DT Code", Cell.str "D1"), ("Unmapped", Cell.str "No")]] 0
    [("Meter No.", Cell.str "M1"), ("Feeder Code", Cell.str "X"),
      ("DT Code", Cell.str "D1"), ("Unmapped", Cell.str "No")] rfl (by decide)
  ⟨by decide, (h.1 0).mpr (by decide), fun hex => absurd ((h.2.1 0).mp hex) (by decide)⟩

/-! ## Global counters -/

theorem bump_eq (flag : Bool) (c : Option Nat) : bump flag c = c.map (fun x => x + oneIf flag) := by
  cases flag <;> cases c <;> simp [bump, oneIf]

theorem SlaGlobal.count_eq_plus (g : SlaGlobal) (x y z w : Bool) :
    g.count x y z w = g.plus 1 (oneIf x) (oneIf y) (oneIf z) (oneIf w) := by
  simp [SlaGlobal.count, SlaGlobal.plus, bump_eq]

theorem SlaGlobal.plus_plus (g : SlaGlobal) (n a b c d n' a' b' c' d' : Nat) :
    (g.plus n a b c d).plus n' a' b' c' d' = g.plus (n + n') (a + a') (b + b') (c + c') (d + d') := by
  simp [SlaGlobal.plus, Nat.add_assoc, Function.comp_def]

theorem SlaGlobal.plus_zero (g : SlaGlobal) : g.plus 0 0 0 0 0 = g := by
  cases g
  simp [SlaGlobal.plus]

theorem countYes_cons (col : String) (r : Row) (rows : List Row) :
    countYes col (r :: rows) = oneIf (parseYesNo (field r col)) + countYes col rows := by
  unfold countYes oneIf
  by_cases h : parseYesNo (field r col) = true
  · simp [h, Nat.add_comm]
  · simp [h]

theorem countYes_le (col : String) (rows : List Row) : countYes col rows ≤ rows.length :=
  List.length_filter_le _ _

theorem feederStep_slaGlobal (s : State) (f : Row) :
    (feederStep s f).slaGlobal
      = s.slaGlobal.count (parseYesNo (field f "Comm")) (parseYesNo (field f "NonComm"))
          false false := by
  cases h : mapGet s.regionByName (field f "Region Name") <;> simp [feederStep, h, mkFeederObj]

theorem feeders_slaGlobal (fs : List Row) (s : State) :
    (fs.foldl feederStep s).slaGlobal
      = s.slaGlobal.plus fs.length (countYes "Comm" fs) (countYes "NonComm" fs) 0 0 := by
  induction fs generalizing s with
  | nil => simp [countYes, SlaGlobal.plus_zero]
  | cons f t ih =>
      rw [List.foldl_cons, ih, feederStep_slaGlobal, SlaGlobal.count_eq_plus, SlaGlobal.plus_plus,
        countYes_cons, countYes_cons]
      simp [oneIf, Nat.add_comm]

theorem dts_slaGlobal (ds : List Row) (s : State) :
    (ds.foldl dtStep s).slaGlobal
      = s.slaGlobal.plus ds.length (countYes "Comm" ds) (countYes "NonComm" ds)
          (countYes "Unmapped" ds) (countYes "NeverComm" ds) := by
  induction ds generalizing s with
  | nil => simp [countYes, SlaGlobal.plus_zero]
  | cons d t ih =>
      have hstep : (dtStep s d).slaGlobal
          = s.slaGlobal.count (parseYesNo (field d "Comm")) (parseYesNo (field d "NonComm"))
              (parseYesNo (field d "Unmapped")) (parseYesNo (field d "NeverComm")) := rfl
      rw [List.foldl_cons, ih, hstep, SlaGlobal.count_eq_plus, SlaGlobal.plus_plus,
        countYes_cons, countYes_cons, countYes_cons, countYes_cons]
      simp [Nat.add_comm]

theorem meters_slaGlobal (ms : List Row) (s : State) :
    (ms.foldl meterStep s).slaGlobal
      = s.slaGlobal.plus ms.length (countYes "Comm" ms) (countYes "NonComm" ms)
          (countYes "Unmapped" ms) (countYes "NeverComm" ms) := by
  induction ms generalizing s with
  | nil => simp [countYes, SlaGlobal.plus_zero]
  | cons m t ih =>
      have hstep : (meterStep s m).slaGlobal
          = s.slaGlobal.count (parseYesNo (field m "Comm")) (parseYesNo (field m "NonComm"))
              (parseYesNo (field m "Unmapped")) (parseYesNo (field m "NeverComm")) := rfl
      rw [List.foldl_cons, ih, hstep, SlaGlobal.count_eq_plus, SlaGlobal.plus_plus,
        countYes_cons, countYes_cons, countYes_cons, countYes_cons]
      simp [Nat.add_comm]

theorem build_slaGlobal (s : State) (fs ds ms : List Row) :
    (buildModelFromThreeSheets s fs ds ms).slaGlobal =
      { totalRows := fs.length + ds.length + ms.length
        commYes := some (countYes "Comm" fs + countYes "Comm" ds + countYes "Comm" ms)
        nonCommYes := some (countYes "NonComm" fs + countYes "NonComm" ds + countYes "NonComm" ms)
        unmappedYes := some (countYes "Unmapped" ds + countYes "Unmapped" ms)
        neverCommYes := some (countYes "NeverComm" ds + countYes "NeverComm" ms)
        dailyYes := none
        loadYes := none } := by
  have h : (buildModelFromThreeSheets s fs ds ms).slaGlobal
      = (ms.foldl meterStep (ds.foldl dtStep (fs.foldl feederStep (resetState s)))).slaGlobal := rfl
  rw [h, meters_slaGlobal, dts_slaGlobal, feeders_slaGlobal, SlaGlobal.plus_plus,
    SlaGlobal.plus_plus]
  simp [SlaGlobal.plus, resetState, Nat.add_assoc]

/-- C12: after every build `slaGlobal.totalRows` is the number of feeder, DT and
meter rows; `commYes` and `nonCommYes` count the rows of all three sheets whose
`Comm` / `NonComm` cell parses to true; `unmappedYes` and `neverCommYes` count
the DT and meter rows (no feeder row) whose `Unmapped` / `NeverComm` cell parses
to true; and every counter is at most `totalRows`. -/
theorem sla_counters_count_rows (s : State) (fs ds ms : List Row) :
    (buildModelFromThreeSheets s fs ds ms).slaGlobal.totalRows
      = fs.length + ds.length + ms.length ∧
    (buildModelFromThreeSheets s fs ds ms).slaGlobal.commYes
      = some (countYes "Comm" fs + countYes "Comm" ds + countYes "Comm" ms) ∧
    (buildModelFromThreeSheets s fs ds ms).slaGlobal.nonCommYes
      = some (countYes "NonComm" fs + countYes "NonComm" ds + countYes "NonComm" ms) ∧
    (buildModelFromThreeSheets s fs ds ms).slaGlobal.unmappedYes
      = some (countYes "Unmapped" ds + countYes "Unmapped" ms) ∧
    (buildModelFromThreeSheets s fs ds ms).slaGlobal.neverCommYes
      = some (countYes "NeverComm" ds + countYes "NeverComm" ms) ∧
    countYes "Comm" fs + countYes "Comm" ds + countYes "Comm" ms
      ≤ (buildModelFromThreeSheets s fs ds ms).slaGlobal.totalRows ∧
    countYes "NonComm" fs + countYes "NonComm" ds + countYes "NonComm" ms
      ≤ (buildModelFromThreeSheets s fs ds ms).slaGlobal.totalRows ∧
    countYes "Unmapped" ds + countYes "Unmapped" ms
      ≤ (buildModelFromThreeSheets s fs ds ms).slaGlobal.totalRows ∧
    countYes "NeverComm" ds + countYes "NeverComm" ms
      ≤ (buildModelFromThreeSheets s fs ds ms).slaGlobal.totalRows := by
  rw [build_slaGlobal]
  have h1 := countYes_le "Comm" fs
  have h2 := countYes_le "Comm" ds
  have h3 := countYes_le "Comm" ms
  have h4 := countYes_le "NonComm" fs
  have h5 := countYes_le "NonComm" ds
  have h6 := countYes_le "NonComm" ms
  have h7 := countYes_le "Unmapped" ds
  have h8 := countYes_le "Unmapped" ms
  have h9 := countYes_le "NeverComm" ds
  have h10 := countYes_le "NeverComm" ms
  refine ⟨rfl, rfl, rfl, rfl, rfl, ?_, ?_, ?_, ?_⟩
  · show _ ≤ fs.length + ds.length + ms.length
    omega
  · show _ ≤ fs.length + ds.length + ms.length
    omega
  · show _ ≤ fs.length + ds.length + ms.length
    omega
  · show _ ≤ fs.length + ds.length + ms.length
    omega

/-! ## Region metrics -/

theorem length_filterMap_of_valid {α : Type} (store : List α) (refs : List Nat)
    (h : ∀ r ∈ refs, ∃ o, store[r]? = some o) :
    (refs.filterMap (fun r => store[r]?)).length = refs.length := by
  induction refs with
  | nil => rfl
  | cons r t ih =>
      obtain ⟨o, ho⟩ := h r (List.mem_cons_self r t)
      rw [List.filterMap_cons, ho]
      simp only [List.length_cons]
      rw [ih (fun r' hr' => h r' (List.mem_cons_of_mem r hr'))]

theorem foldl_oneIf_eq_length_filter {α : Type} (p : α → Bool) (l : List α) (a : Nat) :
    l.foldl (fun acc x => acc + oneIf (p x)) a = a + (l.filter p).length := by
  induction l generalizing a with
  | nil => simp
  | cons x t ih =>
      rw [List.foldl_cons, ih]
      by_cases h : p x = true
      · simp [oneIf, h, Nat.add_assoc, Nat.add_comm 1]
      · simp [oneIf, h]

theorem foldl_add3_eq_sum {α : Type} (a b c : α → Nat) (l : List α) (n : Nat) :
    l.foldl (fun acc x => acc + a x + b x + c x) n
      = n + ((l.map a).sum + (l.map b).sum + (l.map c).sum) := by
  induction l generalizing n with
  | nil => simp
  | cons x t ih =>
      rw [List.foldl_cons, ih]
      simp only [List.map_cons, List.sum_cons]
      omega

theorem foldl_add2_eq_sum {α : Type} (b c : α → Nat) (l : List α) (n : Nat) :
    l.foldl (fun acc x => acc + b x + c x) n = n + ((l.map b).sum + (l.map c).sum) := by
  induction l generalizing n with
  | nil => simp
  | cons x t ih =>
      rw [List.foldl_cons, ih]
      simp only [List.map_cons, List.sum_cons]
      omega

theorem sum_map_oneIf {α : Type} (p : α → Bool) (l : List α) :
    (l.map (fun x => oneIf (p x))).sum = (l.filter p).length := by
  induction l with
  | nil => rfl
  | cons x t ih =>
      rw [List.map_cons, List.sum_cons, ih]
      by_cases h : p x = true
      · simp [oneIf, h, Nat.add_comm]
      · simp [oneIf, h]

theorem Built.store_feeder {fs ds ms : List Row} {s : State} (B : Built fs ds ms s)
    {f : FeederObj} (hf : f ∈ s.feederObjs) :
    ∃ k row, fs[k]? = some row ∧ s.feederObjs[k]? = some f ∧
      f.dts = rowIndices (dtUnder s.feederById k) ds ∧
      f.meters = rowIndices (meterUnderFeeder s.feederById k) ms ∧
      { f with dts := [], meters := [] } = mkFeederObj row := by
  obtain ⟨k, hk⟩ := List.getElem?_of_mem hf
  have hk' := hk
  rw [B.feederObjs k] at hk
  cases hrow : fs[k]? with
  | none => rw [hrow] at hk; exact Option.noConfusion hk
  | some row =>
      rw [hrow] at hk
      simp only [Option.map_some'] at hk
      injection hk with hk
      subst hk
      exact ⟨k, row, hrow, hk', rfl, rfl, rfl⟩

theorem Built.store_dt {fs ds ms : List Row} {s : State} (B : Built fs ds ms s)
    {d : DtObj} (hd : d ∈ s.dtObjs) :
    ∃ j row, ds[j]? = some row ∧ s.dtObjs[j]? = some d ∧
      d.meters = rowIndices (meterUnderDt s.dtById j) ms ∧
      { d with meters := [] } = mkDtObj row := by
  obtain ⟨j, hj⟩ := List.getElem?_of_mem hd
  have hj' := hj
  rw [B.dtObjs j] at hj
  cases hrow : ds[j]? with
  | none => rw [hrow] at hj; exact Option.noConfusion hj
  | some row =>
      rw [hrow] at hj
      simp only [Option.map_some'] at hj
      injection hj with hj
      subst hj
      exact ⟨j, row, hrow, hj', rfl, rfl⟩

theorem Built.valid_region_refs {fs ds ms : List Row} {s : State} (B : Built fs ds ms s)
    {reg : RegionObj} (hreg : reg ∈ s.regions) :
    (feedersAt s reg.feeders).length = reg.feeders.length := by
  apply length_filterMap_of_valid
  intro k hk
  obtain ⟨f, hf, -⟩ := B.row_of_mem_feeders hreg hk
  exact ⟨_, (B.feeder_ref hf).1.choose_spec.1⟩

theorem Built.valid_feeder_refs {fs ds ms : List Row} {s : State} (B : Built fs ds ms s)
    {f : FeederObj} (hf : f ∈ s.feederObjs) :
    (dtsAt s f.dts).length = f.dts.length ∧ (metersAt s f.meters).length = f.meters.length := by
  constructor
  · apply length_filterMap_of_valid
    intro j hj
    obtain ⟨d, hd⟩ := B.row_of_mem_dts hf hj
    exact ⟨_, (B.dt_ref hd).1.choose_spec.1⟩
  · apply length_filterMap_of_valid
    intro i hi
    obtain ⟨m, hm⟩ := B.row_of_mem_feeder_meters hf hi
    exact ⟨_, (B.meter_ref hm).1⟩

theorem Built.valid_dt_refs {fs ds ms : List Row} {s : State} (B : Built fs ds ms s)
    {d : DtObj} (hd : d ∈ s.dtObjs) : (metersAt s d.meters).length = d.meters.length := by
  apply length_filterMap_of_valid
  intro i hi
  obtain ⟨m, hm⟩ := B.row_of_mem_dt_meters hd hi
  exact ⟨_, (B.meter_ref hm).1⟩

/-- C11: after every build, for every region, `metrics.feeders` is the length
of its `feeders` list, `metrics.dts` and `metrics.meters` are the sums of its
feeders' `dts` and `meters` list lengths, and `metrics.communicating` (resp.
`nonCommunicating`) is the number of its feeders with `comm` (resp. `nonComm`)
true plus the number of DTs in those feeders' `dts` lists with the flag true
plus the number of meters in those feeders' `meters` lists with the flag true;
every reference in these lists resolves to an object. -/
theorem region_metrics_are_counts (s : State) (fs ds ms : List Row) :
    ∀ reg ∈ (buildModelFromThreeSheets s fs ds ms).regions, ∃ m, reg.metrics = some m ∧
      (feedersAt (buildModelFromThreeSheets s fs ds ms) reg.feeders).length
        = reg.feeders.length ∧
      (∀ f ∈ feedersAt (buildModelFromThreeSheets s fs ds ms) reg.feeders,
        (dtsAt (buildModelFromThreeSheets s fs ds ms) f.dts).length = f.dts.length ∧
        (metersAt (buildModelFromThreeSheets s fs ds ms) f.meters).length = f.meters.length) ∧
      m.feeders = reg.feeders.length ∧
      m.dts = ((feedersAt (buildModelFromThreeSheets s fs ds ms) reg.feeders).map
        (fun f => f.dts.length)).sum ∧
      m.meters = ((feedersAt (buildModelFromThreeSheets s fs ds ms) reg.feeders).map
        (fun f => f.meters.length)).sum ∧
      m.communicating =
        ((feedersAt (buildModelFromThreeSheets s fs ds ms) reg.feeders).filter
          (fun f => f.comm)).length +
        ((feedersAt (buildModelFromThreeSheets s fs ds ms) reg.feeders).map (fun f =>
          ((dtsAt (buildModelFromThreeSheets s fs ds ms) f.dts).filter
            (fun d => d.comm)).length)).sum +
        ((feedersAt (buildModelFromThreeSheets s fs ds ms) reg.feeders).map (fun f =>
          ((metersAt (buildModelFromThreeSheets s fs ds ms) f.meters).filter
            (fun x => x.comm)).length)).sum ∧
      m.nonCommunicating =
        ((feedersAt (buildModelFromThreeSheets s fs ds ms) reg.feeders).filter
          (fun f => f.nonComm)).length +
        ((feedersAt (buildModelFromThreeSheets s fs ds ms) reg.feeders).map (fun f =>
          ((dtsAt (buildModelFromThreeSheets s fs ds ms) f.dts).filter
            (fun d => d.nonComm)).length)).sum +
        ((feedersAt (buildModelFromThreeSheets s fs ds ms) reg.feeders).map (fun f =>
          ((metersAt (buildModelFromThreeSheets s fs ds ms) f.meters).filter
            (fun x => x.nonComm)).length)).sum := by
  intro reg hreg
  have B := build_built s fs ds ms
  obtain ⟨r, hr⟩ := List.getElem?_of_mem hreg
  refine ⟨_, (B.regions r reg hr).2, B.valid_region_refs hreg, ?_, rfl, ?_, ?_, ?_, ?_⟩
  · intro f hf
    exact B.valid_feeder_refs (feedersAt_subset _ _ f hf)
  · simp only [regionMetrics, foldl_add_eq_sum, Nat.zero_add]
  · simp only [regionMetrics, foldl_add_eq_sum, Nat.zero_add]
  · simp only [regionMetrics, foldl_add3_eq_sum, foldl_oneIf_eq_length_filter, Nat.zero_add,
      sum_map_oneIf]
  · simp only [regionMetrics, foldl_add3_eq_sum, foldl_oneIf_eq_length_filter, Nat.zero_add,
      sum_map_oneIf]

/-- C11, witness: region `R` with feeder `F1` (Comm yes), DT `D1` (Comm yes)
and meters `M1` (Comm yes) and `M2` (Comm no) has `communicating = 3`. -/
theorem region_metrics_are_counts_witness :
    (buildModelFromThreeSheets State.init
        [[("Region Name", Cell.str "R"), ("Feeder Code", Cell.str "F1"), ("Comm", Cell.str "Yes")]]
        [[("Feeder Code", Cell.str "F1"), ("DT Code", Cell.str "D1"), ("Comm", Cell.str "Yes")]]
        [[("Meter No.", Cell.str "M1"), ("Feeder Code", Cell.str "F1"),
          ("DT Code", Cell.str "D1"), ("Comm", Cell.str "Yes")],
         [("Meter No.", Cell.str "M2"), ("Feeder Code", Cell.str "F1"),
          ("DT Code", Cell.str "D1"), ("Comm", Cell.str "No")]]).regions
      = [{ name := Cell.str "R", feeders := [0],
           metrics := some { feeders := 1, dts := 1, meters := 2, communicating := 3,
                             nonCommunicating := 0, unmapped := 0, neverComm := 0 } }] ∧
    ∃ m : RegionMetrics, m.communicating = 3 ∧ m.feeders = 1 := by
  refine ⟨by decide, ?_⟩
  obtain ⟨m, hm, -, -, hf, -⟩ := region_metrics_are_counts State.init
    [[("Region Name", Cell.str "R"), ("Feeder Code", Cell.str "F1"), ("Comm", Cell.str "Yes")]]
    [[("Feeder Code", Cell.str "F1"), ("DT Code", Cell.str "D1"), ("Comm", Cell.str "Yes")]]
    [[("Meter No.", Cell.str "M1"), ("Feeder Code", Cell.str "F1"),
      ("DT Code", Cell.str "D1"), ("Comm", Cell.str "Yes")],
     [("Meter No.", Cell.str "M2"), ("Feeder Code", Cell.str "F1"),
      ("DT Code", Cell.str "D1"), ("Comm", Cell.str "No")]]
    { name := Cell.str "R", feeders := [0],
      metrics := some { feeders := 1, dts := 1, meters := 2, communicating := 3,
                        nonCommunicating := 0, unmapped := 0, neverComm := 0 } }
    (by decide)
  have hm' := Option.some.inj hm
  subst hm'
  exact ⟨_, rfl, hf⟩

/-! ## Global totals -/

theorem diffEnergy_finite (a b : Option JSNum) (mf x : JSNum) (h : diffEnergy a b mf = some x) :
    ∃ q, x = fin q := by
  unfold diffEnergy at h
  cases hc : computeEnergy a b with
  | none => rw [hc] at h; exact Option.noConfusion h
  | some base =>
      rw [hc] at h
      have hb : ∃ r, base = fin r := by
        unfold computeEnergy at hc
        cases a with
        | none => simp at hc
        | some d1 =>
            cases b with
            | none => simp at hc
            | some d2 =>
                simp only at hc
                cases hd : JSNum.sub d2 d1 with
                | fin d =>
                    rw [hd] at hc
                    simp only [JSNum.isFinite, if_true, toFixed2, JSNum.max0] at hc
                    exact ⟨_, (Option.some.inj hc).symm⟩
                | nan => rw [hd] at hc; simp [JSNum.isFinite] at hc
                | posInf => rw [hd] at hc; simp [JSNum.isFinite] at hc
                | negInf => rw [hd] at hc; simp [JSNum.isFinite] at hc
      obtain ⟨r, rfl⟩ := hb
      simp only [Option.some.injEq] at h
      subst h
      cases mf <;> simp [JSNum.isFinite, JSNum.mul, toFixed2]

theorem dtsAt_subset (s : State) (refs : List Nat) (d : DtObj) (h : d ∈ dtsAt s refs) :
    d ∈ s.dtObjs := by
  unfold dtsAt at h
  obtain ⟨j, -, hj⟩ := List.mem_filterMap.mp h
  exact List.getElem?_mem hj

theorem metersAt_subset (s : State) (refs : List Nat) (m : MeterObj) (h : m ∈ metersAt s refs) :
    m ∈ s.meterObjs := by
  unfold metersAt at h
  obtain ⟨i, -, hi⟩ := List.mem_filterMap.mp h
  exact List.getElem?_mem hi

theorem Built.feeder_energy_finite {fs ds ms : List Row} {s : State} (B : Built fs ds ms s)
    {f : FeederObj} (hf : f ∈ s.feederObjs) : ∀ x, f.feederEnergy = some x → ∃ q, x = fin q := by
  intro x hx
  obtain ⟨k, row, -, -, -, -, hmk⟩ := B.store_feeder hf
  have h := congrArg (fun o : FeederObj => o.feederEnergy) hmk
  change f.feederEnergy = (mkFeederObj row).feederEnergy at h
  rw [hx] at h
  exact diffEnergy_finite _ _ _ x h.symm

theorem Built.dt_energy_finite {fs ds ms : List Row} {s : State} (B : Built fs ds ms s)
    {d : DtObj} (hd : d ∈ s.dtObjs) : ∀ x, d.dtEnergy = some x → ∃ q, x = fin q := by
  intro x hx
  obtain ⟨j, row, -, -, -, hmk⟩ := B.store_dt hd
  have h := congrArg (fun o : DtObj => o.dtEnergy) hmk
  change d.dtEnergy = (mkDtObj row).dtEnergy at h
  rw [hx] at h
  exact diffEnergy_finite _ _ _ x h.symm

theorem Built.meter_energy_finite {fs ds ms : List Row} {s : State} (B : Built fs ds ms s)
    {m : MeterObj} (hm : m ∈ s.meterObjs) : ∀ x, m.energy = some x → ∃ q, x = fin q := by
  intro x hx
  rw [B.meterObjs] at hm
  obtain ⟨row, -, rfl⟩ := List.mem_map.mp hm
  exact diffEnergy_finite _ _ _ x hx

/-- C14, counterexample: with no feeder row and one DT row of energy `50` the
total feeder energy is `0`, and `computeGlobalTotals` reports the feeder-to-DT
loss as the number `0`, not as `null`. -/
theorem global_loss_zero_upstream_counterexample :
    (computeGlobalTotals (buildModelFromThreeSheets State.init []
        [[("Feeder Code", Cell.str "F1"), ("DT Code", Cell.str "D1"),
          ("DT Day1 Reading", Cell.num (fin 0)), ("DT Day2 Reading", Cell.num (fin 50))]]
        [])).lossFdt = fin 0 ∧
    (computeGlobalTotals (buildModelFromThreeSheets State.init []
        [[("Feeder Code", Cell.str "F1"), ("DT Code", Cell.str "D1"),
          ("DT Day1 Reading", Cell.num (fin 0)), ("DT Day2 Reading", Cell.num (fin 50))]]
        [])).lossFc = fin 0 := by
  constructor <;>
    simp [computeGlobalTotals, buildModelFromThreeSheets, aggregateRegions, dtStep, resetState,
      State.init, feedersAt, mapValues, sum, pctLoss, JSNum.truthy]

/-! ## Detail metrics, search, rebuild, flag parsing -/

/-- C15, the code at the failing input: feeder `F1` with energy `100` and its
DT `D1` with energy `90`.  The feeder's metrics record holds `feederEnergy`
only: the reads of `lossFdt`, `lossDtc`, `lossFc` on it, and of `lossDtc` on
the DT's record, are `undefined`, while `lossOrNull(100, 90)` is `10`. -/
theorem build_stores_no_loss_metrics :
    (buildModelFromThreeSheets State.init
        [[("Region Name", Cell.str "R"), ("Feeder Code", Cell.str "F1"),
          ("Feeder Day1 reading", Cell.num (fin 0)), ("Feeder Day2 reading", Cell.num (fin 100))]]
        [[("Feeder Code", Cell.str "F1"), ("DT Code", Cell.str "D1"),
          ("DT Day1 Reading", Cell.num (fin 0)), ("DT Day2 Reading", Cell.num (fin 90))]]
        []).feederObjs.map
      (fun f => (f.dts, f.metric "feederEnergy", f.metric "lossFdt", f.metric "lossDtc",
        f.metric "lossFc"))
      = [([0], Cell.num (fin 100), Cell.undef, Cell.undef, Cell.undef)] ∧
    (buildModelFromThreeSheets State.init
        [[("Region Name", Cell.str "R"), ("Feeder Code", Cell.str "F1"),
          ("Feeder Day1 reading", Cell.num (fin 0)), ("Feeder Day2 reading", Cell.num (fin 100))]]
        [[("Feeder Code", Cell.str "F1"), ("DT Code", Cell.str "D1"),
          ("DT Day1 Reading", Cell.num (fin 0)), ("DT Day2 Reading", Cell.num (fin 90))]]
        []).dtObjs.map (fun d => (d.metric "dtEnergy", d.metric "lossDtc"))
      = [(Cell.num (fin 90), Cell.undef)] ∧
    lossOrNull (some (fin 100)) (some (fin 90)) = some (fin 10) := by
  have e1 : diffEnergy (some (fin 0)) (some (fin 100)) (fin 1) = some (fin 100) := by
    rw [diffEnergy_fin]
    norm_num [round2]
  have e2 : diffEnergy (some (fin 0)) (some (fin 90)) (fin 1) = some (fin 90) := by
    rw [diffEnergy_fin]
    norm_num [round2]
  have o : orOne nan = fin 1 := by simp [orOne, JSNum.truthy]
  refine ⟨?_, ?_, ?_⟩
  · simp [buildModelFromThreeSheets, aggregateRegions, feederStep, dtStep, resetState,
      State.init, mkFeederObj, mkDtObj, field, List.lookup, toNumber, mapGet, mapSet,
      pushFeeder, pushDt, parseYesNo, FeederObj.metric, e1, e2, o]
  · simp [buildModelFromThreeSheets, aggregateRegions, feederStep, dtStep, resetState,
      State.init, mkFeederObj, mkDtObj, field, List.lookup, toNumber, mapGet, mapSet,
      pushFeeder, pushDt, parseYesNo, DtObj.metric, e1, e2, o]
  · rw [lossOrNull_fin _ _ (by norm_num)]
    norm_num [round2]

/-- C16: for every non-empty token and every model, `onGlobalSearch` selects
`{level, id: token}` for the first of the meter, DT, feeder and region indexes
(in that order) that has the token as a key, without raising the alert; it
raises the "no match" alert exactly when none of the four indexes has the
token, and then leaves the state, with its selection, unchanged. -/
theorem search_first_match_wins (s : State) (token : String) (h : token ≠ "") :
    (mapHas s.meterById (Cell.str token) = true →
      onGlobalSearch s token =
        { state := { s with currentSelection := { level := Level.meter, id := Cell.str token } },
          alerted := false }) ∧
    (mapHas s.meterById (Cell.str token) = false → mapHas s.dtById (Cell.str token) = true →
      onGlobalSearch s token =
        { state := { s with currentSelection := { level := Level.dt, id := Cell.str token } },
          alerted := false }) ∧
    (mapHas s.meterById (Cell.str token) = false → mapHas s.dtById (Cell.str token) = false →
      mapHas s.feederById (Cell.str token) = true →
      onGlobalSearch s token =
        { state := { s with currentSelection := { level := Level.feeder, id := Cell.str token } },
          alerted := false }) ∧
    (mapHas s.meterById (Cell.str token) = false → mapHas s.dtById (Cell.str token) = false →
      mapHas s.feederById (Cell.str token) = false →
      mapHas s.regionByName (Cell.str token) = true →
      onGlobalSearch s token =
        { state := { s with currentSelection := { level := Level.region, id := Cell.str token } },
          alerted := false }) ∧
    ((onGlobalSearch s token).alerted = true ↔
      (mapHas s.meterById (Cell.str token) = false ∧ mapHas s.dtById (Cell.str token) = false ∧
       mapHas s.feederById (Cell.str token) = false ∧
       mapHas s.regionByName (Cell.str token) = false)) ∧
    ((onGlobalSearch s token).alerted = true → (onGlobalSearch s token).state = s) := by
  refine ⟨?_, ?_, ?_, ?_, ?_, ?_⟩
  · intro h1
    simp [onGlobalSearch, h, h1]
  · intro h1 h2
    simp [onGlobalSearch, h, h1, h2]
  · intro h1 h2 h3
    simp [onGlobalSearch, h, h1, h2, h3]
  · intro h1 h2 h3 h4
    simp [onGlobalSearch, h, h1, h2, h3, h4]
  · unfold onGlobalSearch
    rw [if_neg h]
    cases h1 : mapHas s.meterById (Cell.str token) <;>
    cases h2 : mapHas s.dtById (Cell.str token) <;>
    cases h3 : mapHas s.feederById (Cell.str token) <;>
    cases h4 : mapHas s.regionByName (Cell.str token) <;> simp
  · unfold onGlobalSearch
    rw [if_neg h]
    cases h1 : mapHas s.meterById (Cell.str token) <;>
    cases h2 : mapHas s.dtById (Cell.str token) <;>
    cases h3 : mapHas s.feederById (Cell.str token) <;>
    cases h4 : mapHas s.regionByName (Cell.str token) <;> simp

/-- C16, witness: the token `X` is both a feeder id and a meter id; the search
selects the meter. -/
theorem search_first_match_wins_witness :
    mapHas (buildModelFromThreeSheets State.init
        [[("Region Name", Cell.str "R"), ("Feeder Code", Cell.str "X")]] []
        [[("Meter No.", Cell.str "X")]]).feederById (Cell.str "X") = true ∧
    (onGlobalSearch (buildModelFromThreeSheets State.init
        [[("Region Name", Cell.str "R"), ("Feeder Code", Cell.str "X")]] []
        [[("Meter No.", Cell.str "X")]]) "X").state.currentSelection
      = { level := Level.meter, id := Cell.str "X" } :=
  ⟨by decide,
   congrArg (fun o : SearchOutcome => o.state.currentSelection)
    ((search_first_match_wins (buildModelFromThreeSheets State.init
        [[("Region Name", Cell.str "R"), ("Feeder Code", Cell.str "X")]] []
        [[("Meter No.", Cell.str "X")]]) "X" (by decide)).1 (by decide))⟩

theorem feederStep_carry (t : State) (sel : Selection) (rows : List ResultRow) (f : Row) :
    feederStep (t.carry sel rows) f = (feederStep t f).carry sel rows := by
  cases h : mapGet t.regionByName (field f "Region Name") <;>
    simp [feederStep, State.carry, h]

theorem dtStep_carry (t : State) (sel : Selection) (rows : List ResultRow) (d : Row) :
    dtStep (t.carry sel rows) d = (dtStep t d).carry sel rows := rfl

theorem meterStep_carry (t : State) (sel : Selection) (rows : List ResultRow) (m : Row) :
    meterStep (t.carry sel rows) m = (meterStep t m).carry sel rows := rfl

theorem foldl_carry (step : State → Row → State)
    (hstep : ∀ t sel rows r, step (State.carry t sel rows) r = (step t r).carry sel rows)
    (l : List Row) (t : State) (sel : Selection) (rows : List ResultRow) :
    l.foldl step (t.carry sel rows) = (l.foldl step t).carry sel rows := by
  induction l generalizing t with
  | nil => rfl
  | cons r tl ih => rw [List.foldl_cons, hstep, ih, List.foldl_cons]

theorem build_carry (s : State) (fs ds ms : List Row) :
    buildModelFromThreeSheets s fs ds ms
      = (buildModelFromThreeSheets State.init fs ds ms).carry s.currentSelection s.resultsRows := by
  have hreset : resetState s
      = (resetState State.init).carry s.currentSelection s.resultsRows := rfl
  unfold buildModelFromThreeSheets
  simp only [hreset, foldl_carry feederStep feederStep_carry, foldl_carry dtStep dtStep_carry,
    foldl_carry meterStep meterStep_carry]
  rfl

/-- C17: for all row-sets A and B, building A and then B leaves the regions,
the four indexes, the global SLA counters and the object stores equal to what
building B alone on the initial state gives; every object of the stores the
regions and indexes refer to is built from a row of B, and the region names
are those of the feeder rows of B. -/
theorem rebuild_equals_fresh_build (s : State) (fsA dsA msA fsB dsB msB : List Row) :
    (buildModelFromThreeSheets (buildModelFromThreeSheets s fsA dsA msA) fsB dsB msB).regions
      = (buildModelFromThreeSheets State.init fsB dsB msB).regions ∧
    (buildModelFromThreeSheets (buildModelFromThreeSheets s fsA dsA msA) fsB dsB msB).regionByName
      = (buildModelFromThreeSheets State.init fsB dsB msB).regionByName ∧
    (buildModelFromThreeSheets (buildModelFromThreeSheets s fsA dsA msA) fsB dsB msB).feederById
      = (buildModelFromThreeSheets State.init fsB dsB msB).feederById ∧
    (buildModelFromThreeSheets (buildModelFromThreeSheets s fsA dsA msA) fsB dsB msB).dtById
      = (buildModelFromThreeSheets State.init fsB dsB msB).dtById ∧
    (buildModelFromThreeSheets (buildModelFromThreeSheets s fsA dsA msA) fsB dsB msB).meterById
      = (buildModelFromThreeSheets State.init fsB dsB msB).meterById ∧
    (buildModelFromThreeSheets (buildModelFromThreeSheets s fsA dsA msA) fsB dsB msB).slaGlobal
      = (buildModelFromThreeSheets State.init fsB dsB msB).slaGlobal ∧
    (buildModelFromThreeSheets (buildModelFromThreeSheets s fsA dsA msA) fsB dsB msB).feederObjs
      = (buildModelFromThreeSheets State.init fsB dsB msB).feederObjs ∧
    (buildModelFromThreeSheets (buildModelFromThreeSheets s fsA dsA msA) fsB dsB msB).dtObjs
      = (buildModelFromThreeSheets State.init fsB dsB msB).dtObjs ∧
    (buildModelFromThreeSheets (buildModelFromThreeSheets s fsA dsA msA) fsB dsB msB).meterObjs
      = (buildModelFromThreeSheets State.init fsB dsB msB).meterObjs ∧
    (buildModelFromThreeSheets (buildModelFromThreeSheets s fsA dsA msA) fsB dsB msB).feederObjs.map
      (fun o => { o with dts := [], meters := [] }) = fsB.map mkFeederObj ∧
    (buildModelFromThreeSheets (buildModelFromThreeSheets s fsA dsA msA) fsB dsB msB).dtObjs.map
      (fun o => { o with meters := [] }) = dsB.map mkDtObj ∧
    (buildModelFromThreeSheets (buildModelFromThreeSheets s fsA dsA msA) fsB dsB msB).meterObjs
      = msB.map mkMeterObj ∧
    (buildModelFromThreeSheets (buildModelFromThreeSheets s fsA dsA msA) fsB dsB msB).regions.map
      (fun reg => reg.name) = firstSeen (fsB.map (fun f => field f "Region Name")) := by
  have B := build_built (buildModelFromThreeSheets s fsA dsA msA) fsB dsB msB
  rw [build_carry (buildModelFromThreeSheets s fsA dsA msA) fsB dsB msB] at B ⊢
  refine ⟨rfl, rfl, rfl, rfl, rfl, rfl, rfl, rfl, rfl, ?_, ?_, B.meterObjs, B.names⟩
  · apply List.ext_getElem?
    intro k
    rw [List.getElem?_map, List.getElem?_map, B.feederObjs k]
    cases fsB[k]? <;> rfl
  · apply List.ext_getElem?
    intro j
    rw [List.getElem?_map, List.getElem?_map, B.dtObjs j]
    cases dsB[j]? <;> rfl

/-- C20: `parseYesNo(null)` is false; for a string, trimmed and lower-cased,
that is one of `yes`, `y`, `true`, `1` it is true, for one of `no`, `n`,
`false`, `0` it is false, and for every other string it is true exactly when
the raw string is non-empty. -/
theorem parseYesNo_tokens_then_truthiness (v : String) :
    parseYesNo Cell.null = false ∧
    ((jsTrim v.toList).map Char.toLower ∈
        ["yes".toList, "y".toList, "true".toList, "1".toList] →
      parseYesNo (Cell.str v) = true) ∧
    ((jsTrim v.toList).map Char.toLower ∈
        ["no".toList, "n".toList, "false".toList, "0".toList] →
      parseYesNo (Cell.str v) = false) ∧
    ((jsTrim v.toList).map Char.toLower ∉
        ["yes".toList, "y".toList, "true".toList, "1".toList] →
      (jsTrim v.toList).map Char.toLower ∉
        ["no".toList, "n".toList, "false".toList, "0".toList] →
      (parseYesNo (Cell.str v) = true ↔ v ≠ "")) ∧
    parseYesNo (Cell.str "maybe") = true ∧
    parseYesNo (Cell.str "") = false ∧
    parseYesNo (Cell.str "  ") = true ∧
    parseYesNo (Cell.str " YES ") = true ∧
    parseYesNo (Cell.str "No") = false := by
  refine ⟨rfl, ?_, ?_, ?_, by decide, by decide, by decide, by decide, by decide⟩
  · intro h
    simp only [List.mem_cons, List.mem_singleton, List.not_mem_nil, or_false] at h
    unfold parseYesNo
    simp only []
    rw [if_pos (by tauto)]
  · intro h
    simp only [List.mem_cons, List.mem_singleton, List.not_mem_nil, or_false] at h
    unfold parseYesNo
    simp only []
    have hyes : ¬ ((jsTrim v.toList).map Char.toLower = "yes".toList ∨
        (jsTrim v.toList).map Char.toLower = "y".toList ∨
        (jsTrim v.toList).map Char.toLower = "true".toList ∨
        (jsTrim v.toList).map Char.toLower = "1".toList) := by
      rcases h with h | h | h | h <;> rw [h] <;> decide
    rw [if_neg hyes, if_pos (by tauto)]
  · intro h1 h2
    simp only [List.mem_cons, List.mem_singleton, List.not_mem_nil, or_false] at h1 h2
    unfold parseYesNo
    simp only []
    rw [if_neg (by tauto), if_neg (by tauto)]
    have hv : v.toList = [] ↔ v = "" := by
      constructor
      · intro e
        apply String.ext
        exact e
      · intro e
        rw [e]
        rfl
    rw [Bool.not_eq_true', ← Bool.not_eq_true, List.isEmpty_iff]
    exact not_congr hv

/-- C20, witness: the string ` Yes ` trims and lower-cases to `yes`. -/
theorem parseYesNo_tokens_then_truthiness_witness :
    (jsTrim " Yes ".toList).map Char.toLower ∈
        ["yes".toList, "y".toList, "true".toList, "1".toList] ∧
    parseYesNo (Cell.str " Yes ") = true :=
  ⟨by decide, (parseYesNo_tokens_then_truthiness " Yes ").2.1 (by decide)⟩

/-! ## The exact content of the indexes -/

theorem feederStep_feederById (s : State) (f : Row) :
    (feederStep s f).feederById = mapSet s.feederById (field f "Feeder Code") s.feederObjs.length ∧
    (feederStep s f).feederObjs.length = s.feederObjs.length + 1 := by
  cases h : mapGet s.regionByName (field f "Region Name") <;>
    simp [feederStep, h, mkFeederObj]

theorem feeders_feederById (fs : List Row) (s : State) :
    (fs.foldl feederStep s).feederById
      = indexFrom s.feederById s.feederObjs.length (fs.map (fun f => field f "Feeder Code")) := by
  induction fs generalizing s with
  | nil => rfl
  | cons f t ih =>
      rw [List.foldl_cons, ih, (feederStep_feederById s f).1, (feederStep_feederById s f).2]
      rfl

theorem dts_dtById (ds : List Row) (s : State) :
    (ds.foldl dtStep s).dtById
      = indexFrom s.dtById s.dtObjs.length (ds.map (fun d => field d "DT Code")) := by
  induction ds generalizing s with
  | nil => rfl
  | cons d t ih =>
      rw [List.foldl_cons, ih]
      simp [dtStep, indexFrom, mkDtObj]

theorem meters_meterById (ms : List Row) (s : State) :
    (ms.foldl meterStep s).meterById
      = indexFrom s.meterById s.meterObjs.length (ms.map (fun m => field m "Meter No.")) := by
  induction ms generalizing s with
  | nil => rfl
  | cons m t ih =>
      rw [List.foldl_cons, ih]
      simp [meterStep, indexFrom, mkMeterObj]

theorem build_indexes (s : State) (fs ds ms : List Row) :
    (buildModelFromThreeSheets s fs ds ms).feederById
      = indexFrom [] 0 (fs.map (fun f => field f "Feeder Code")) ∧
    (buildModelFromThreeSheets s fs ds ms).dtById
      = indexFrom [] 0 (ds.map (fun d => field d "DT Code")) ∧
    (buildModelFromThreeSheets s fs ds ms).meterById
      = indexFrom [] 0 (ms.map (fun m => field m "Meter No.")) := by
  have hF := feedersDone_foldl s fs
  have hD := dtsDone_foldl (fs.foldl feederStep (resetState s)) hF.dtObjs hF.dtById ds
  have hM := metersDone_foldl (ds.foldl dtStep (fs.foldl feederStep (resetState s)))
    (hD.meterObjs.trans hF.meterObjs) (hD.meterById.trans hF.meterById) ms
  refine ⟨?_, ?_, ?_⟩
  · have h : (buildModelFromThreeSheets s fs ds ms).feederById
        = (ms.foldl meterStep (ds.foldl dtStep (fs.foldl feederStep (resetState s)))).feederById :=
      rfl
    rw [h, hM.feederById, hD.feederById, feeders_feederById]
    rfl
  · have h : (buildModelFromThreeSheets s fs ds ms).dtById
        = (ms.foldl meterStep (ds.foldl dtStep (fs.foldl feederStep (resetState s)))).dtById :=
      rfl
    rw [h, hM.dtById, dts_dtById, hF.dtById, hF.dtObjs]
    rfl
  · have h : (buildModelFromThreeSheets s fs ds ms).meterById
        = (ms.foldl meterStep (ds.foldl dtStep (fs.foldl feederStep (resetState s)))).meterById :=
      rfl
    rw [h, meters_meterById, hD.meterById, hF.meterById, hD.meterObjs, hF.meterObjs]
    rfl

theorem mem_mapSet {V : Type} (m : JSMap V) (k : Cell) (v : V) (p : Cell × V)
    (h : p ∈ mapSet m k v) : p ∈ m ∨ p = (k, v) := by
  induction m with
  | nil =>
      simp only [mapSet, List.mem_singleton] at h
      exact Or.inr h
  | cons q t ih =>
      obtain ⟨a, b⟩ := q
      by_cases hak : a = k
      · simp only [mapSet, if_pos hak, List.mem_cons] at h
        rcases h with h | h
        · right
          rw [h, hak]
        · left
          exact List.mem_cons_of_mem _ h
      · simp only [mapSet, if_neg hak, List.mem_cons] at h
        rcases h with h | h
        · left
          rw [h]
          exact List.mem_cons_self _ _
        · rcases ih h with h' | h'
          · left
            exact List.mem_cons_of_mem _ h'
          · right
            exact h'

theorem mem_indexFrom (m : JSMap Nat) (base : Nat) (ids : List Cell) (p : Cell × Nat)
    (h : p ∈ indexFrom m base ids) : p ∈ m ∨ (base ≤ p.2 ∧ ids[p.2 - base]? = some p.1) := by
  induction ids generalizing m base with
  | nil => exact Or.inl h
  | cons k t ih =>
      rcases ih _ _ h with h' | ⟨hle, hget⟩
      · rcases mem_mapSet m k base p h' with h'' | h''
        · exact Or.inl h''
        · right
          rw [h'']
          simp
      · right
        refine ⟨by omega, ?_⟩
        have e : p.2 - base = (p.2 - (base + 1)) + 1 := by omega
        rw [e, List.getElem?_cons_succ]
        exact hget

theorem mapSet_of_get_none {V : Type} (m : JSMap V) (k : Cell) (v : V) (h : mapGet m k = none) :
    mapSet m k v = m ++ [(k, v)] := by
  induction m with
  | nil => rfl
  | cons q t ih =>
      obtain ⟨a, b⟩ := q
      by_cases hak : a = k
      · simp [mapGet, hak] at h
      · simp only [mapGet, if_neg hak] at h
        simp [mapSet, hak, ih h]

theorem mapGet_append_of_none {V : Type} (m m' : JSMap V) (k : Cell) (h : mapGet m k = none) :
    mapGet (m ++ m') k = mapGet m' k := by
  induction m with
  | nil => rfl
  | cons q t ih =>
      obtain ⟨a, b⟩ := q
      by_cases hak : a = k
      · simp [mapGet, hak] at h
      · simp only [mapGet, if_neg hak] at h
        simp [mapGet, hak, ih h]

theorem indexFrom_nodup (m : JSMap Nat) (base : Nat) (ids : List Cell) (hnd : ids.Nodup)
    (hm : ∀ k ∈ ids, mapGet m k = none) : indexFrom m base ids = m ++ pairsFrom base ids := by
  induction ids generalizing m base with
  | nil => simp [indexFrom, pairsFrom]
  | cons k t ih =>
      have hk := hm k (List.mem_cons_self k t)
      rw [indexFrom, mapSet_of_get_none m k base hk, ih _ _ (List.nodup_cons.mp hnd).2]
      · simp [pairsFrom]
      · intro k' hk'
        rw [mapGet_append_of_none _ _ _ (hm k' (List.mem_cons_of_mem k hk'))]
        have hne : ¬ k = k' := by
          intro e
          rw [← e] at hk'
          exact (List.nodup_cons.mp hnd).1 hk'
        simp [mapGet, hne]

theorem filterMap_pairsFrom {α : Type} (store : List α) (ids : List Cell) (base : Nat)
    (h : base + ids.length = store.length) :
    (mapValues (pairsFrom base ids)).filterMap (fun i => store[i]?) = store.drop base := by
  induction ids generalizing base with
  | nil =>
      simp only [List.length_nil, Nat.add_zero] at h
      simp [pairsFrom, mapValues, h]
  | cons k t ih =>
      simp only [List.length_cons] at h
      have hlt : base < store.length := by omega
      have hrest := ih (base + 1) (by omega)
      simp only [mapValues] at hrest
      simp only [pairsFrom, mapValues, List.map_cons, List.filterMap_cons,
        List.getElem?_eq_getElem hlt, hrest]
      exact (List.drop_eq_getElem_cons hlt).symm

theorem map_fst_filterMap_of_valid {α : Type} (store : List α) (key : α → Cell) (m : JSMap Nat)
    (h : ∀ p ∈ m, ∃ o, store[p.2]? = some o ∧ key o = p.1) :
    ((mapValues m).filterMap (fun i => store[i]?)).map key = mapKeys m := by
  induction m with
  | nil => rfl
  | cons p t ih =>
      obtain ⟨o, ho, hkey⟩ := h p (List.mem_cons_self p t)
      simp only [mapValues, mapKeys, List.map_cons, List.filterMap_cons, ho, hkey]
      congr 1
      exact ih (fun q hq => h q (List.mem_cons_of_mem p hq))

theorem Built.index_entries {fs ds ms : List Row} {s : State} (B : Built fs ds ms s)
    (hF : s.feederById = indexFrom [] 0 (fs.map (fun f => field f "Feeder Code")))
    (hD : s.dtById = indexFrom [] 0 (ds.map (fun d => field d "DT Code"))) :
    (∀ p ∈ s.feederById, ∃ o, s.feederObjs[p.2]? = some o ∧ o.id = p.1) ∧
    (∀ p ∈ s.dtById, ∃ o, s.dtObjs[p.2]? = some o ∧ o.id = p.1) := by
  constructor
  · intro p hp
    rw [hF] at hp
    rcases mem_indexFrom _ _ _ p hp with h | ⟨-, h⟩
    · exact absurd h (List.not_mem_nil p)
    · rw [Nat.sub_zero, List.getElem?_map] at h
      cases hrow : fs[p.2]? with
      | none => rw [hrow] at h; exact Option.noConfusion h
      | some row =>
          rw [hrow] at h
          refine ⟨_, by rw [B.feederObjs p.2, hrow]; rfl, ?_⟩
          exact Option.some.inj h
  · intro p hp
    rw [hD] at hp
    rcases mem_indexFrom _ _ _ p hp with h | ⟨-, h⟩
    · exact absurd h (List.not_mem_nil p)
    · rw [Nat.sub_zero, List.getElem?_map] at h
      cases hrow : ds[p.2]? with
      | none => rw [hrow] at h; exact Option.noConfusion h
      | some row =>
          rw [hrow] at h
          refine ⟨_, by rw [B.dtObjs p.2, hrow]; rfl, ?_⟩
          exact Option.some.inj h

/-- C18: for every built model `buildResultsTable` stores as many rows as the
feeder index and the DT index have entries: first one row per indexed feeder,
in index order, with `DT_Code` blank and `DT_E`, `Sum_Cons_E_for_DT`,
`DT_to_Cons_Loss` null, then one row per indexed DT, in index order, with
`Feeder_E`, `Sum_DT_E`, `Feeder_to_DT_Loss`, `Sum_Cons_E` and
`Feeder_to_Cons_Loss` null. -/
theorem results_table_rows (s : State) (fs ds ms : List Row) :
    (buildResultsTable (buildModelFromThreeSheets s fs ds ms)).resultsRows.length
      = (buildModelFromThreeSheets s fs ds ms).feederById.length
        + (buildModelFromThreeSheets s fs ds ms).dtById.length ∧
    ((buildResultsTable (buildModelFromThreeSheets s fs ds ms)).resultsRows.take
        (buildModelFromThreeSheets s fs ds ms).feederById.length).map (fun row => row.Feeder_Code)
      = mapKeys (buildModelFromThreeSheets s fs ds ms).feederById ∧
    (∀ row ∈ (buildResultsTable (buildModelFromThreeSheets s fs ds ms)).resultsRows.take
        (buildModelFromThreeSheets s fs ds ms).feederById.length,
      row.DT_Code = Cell.str "" ∧ row.DT_E = none ∧ row.Sum_Cons_E_for_DT = none ∧
      row.DT_to_Cons_Loss = none) ∧
    ((buildResultsTable (buildModelFromThreeSheets s fs ds ms)).resultsRows.drop
        (buildModelFromThreeSheets s fs ds ms).feederById.length).map (fun row => row.DT_Code)
      = mapKeys (buildModelFromThreeSheets s fs ds ms).dtById ∧
    (∀ row ∈ (buildResultsTable (buildModelFromThreeSheets s fs ds ms)).resultsRows.drop
        (buildModelFromThreeSheets s fs ds ms).feederById.length,
      row.Feeder_E = none ∧ row.Sum_DT_E = none ∧ row.Feeder_to_DT_Loss = none ∧
      row.Sum_Cons_E = none ∧ row.Feeder_to_Cons_Loss = none) := by
  have B := build_built s fs ds ms
  obtain ⟨hF, hD, -⟩ := build_indexes s fs ds ms
  obtain ⟨hvF, hvD⟩ := B.index_entries hF hD
  have hkF := map_fst_filterMap_of_valid (buildModelFromThreeSheets s fs ds ms).feederObjs
    (fun o => o.id) _ hvF
  have hkD := map_fst_filterMap_of_valid (buildModelFromThreeSheets s fs ds ms).dtObjs
    (fun o => o.id) _ hvD
  have hlF : (feedersAt (buildModelFromThreeSheets s fs ds ms)
      (mapValues (buildModelFromThreeSheets s fs ds ms).feederById)).length
      = (buildModelFromThreeSheets s fs ds ms).feederById.length := by
    have := congrArg List.length hkF
    simpa [mapKeys, feedersAt] using this
  have hlD : (dtsAt (buildModelFromThreeSheets s fs ds ms)
      (mapValues (buildModelFromThreeSheets s fs ds ms).dtById)).length
      = (buildModelFromThreeSheets s fs ds ms).dtById.length := by
    have := congrArg List.length hkD
    simpa [mapKeys, dtsAt] using this
  simp only [buildResultsTable]
  refine ⟨?_, ?_, ?_, ?_, ?_⟩
  · rw [List.length_append, List.length_map, List.length_map, hlF, hlD]
  · rw [List.take_left' (by rw [List.length_map, hlF]), List.map_map]
    exact hkF
  · intro row hrow
    rw [List.take_left' (by rw [List.length_map, hlF])] at hrow
    obtain ⟨f, -, rfl⟩ := List.mem_map.mp hrow
    exact ⟨rfl, rfl, rfl, rfl⟩
  · rw [List.drop_left' (by rw [List.length_map, hlF]), List.map_map]
    exact hkD
  · intro row hrow
    rw [List.drop_left' (by rw [List.length_map, hlF])] at hrow
    obtain ⟨d, -, rfl⟩ := List.mem_map.mp hrow
    exact ⟨rfl, rfl, rfl, rfl, rfl⟩

/-- C18, witness: a model with the single feeder `F1` gives one feeder row with
blank DT columns. -/
theorem results_table_rows_witness :
    (buildResultsTable (buildModelFromThreeSheets State.init
        [[("Region Name", Cell.str "R"), ("Feeder Code", Cell.str "F1")]] [] [])).resultsRows
      = [{ Feeder_Code := Cell.str "F1", Feeder_E := none, Sum_DT_E := some (fin 0),
           Feeder_to_DT_Loss := none, Sum_Cons_E := some (fin 0), Feeder_to_Cons_Loss := none,
           DT_Code := Cell.str "", DT_E := none, Sum_Cons_E_for_DT := none,
           DT_to_Cons_Loss := none }] ∧
    (Cell.str "" = Cell.str "" ∧ (none : Option JSNum) = none ∧ (none : Option JSNum) = none ∧
      (none : Option JSNum) = none) :=
  ⟨by decide,
   (results_table_rows State.init
      [[("Region Name", Cell.str "R"), ("Feeder Code", Cell.str "F1")]] [] []).2.2.1
      { Feeder_Code := Cell.str "F1", Feeder_E := none, Sum_DT_E := some (fin 0),
        Feeder_to_DT_Loss := none, Sum_Cons_E := some (fin 0), Feeder_to_Cons_Loss := none,
        DT_Code := Cell.str "", DT_E := none, Sum_Cons_E_for_DT := none,
        DT_to_Cons_Loss := none }
      (by decide)⟩

/-! ## Sums of the results table -/

theorem energyById_step (acc : JSMap JSNum) (l : List (Cell × Option JSNum)) :
    l.foldl (fun acc p =>
      match p.2 with
      | none => acc
      | some e => if e.ltZero then acc else mapSet acc p.1 e) acc
    = l.foldl (fun acc p =>
      match keptEnergy p.2 with
      | none => acc
      | some e => mapSet acc p.1 e) acc := by
  congr 1
  funext acc p
  cases h : p.2 with
  | none => simp [keptEnergy]
  | some e => by_cases hl : e.ltZero = true <;> simp [keptEnergy, hl]

theorem energyById_snoc (l : List (Cell × Option JSNum)) (p : Cell × Option JSNum) :
    energyById (l ++ [p]) =
      match keptEnergy p.2 with
      | none => energyById l
      | some e => mapSet (energyById l) p.1 e := by
  unfold energyById
  rw [energyById_step, energyById_step, List.foldl_append]
  rfl

theorem energyById_get_of_not_mem (l : List (Cell × Option JSNum)) (k : Cell)
    (h : k ∉ l.map (fun p => p.1)) : mapGet (energyById l) k = none := by
  induction l using List.reverseRecOn with
  | nil => rfl
  | append_singleton t p ih =>
      rw [List.map_append, List.mem_append, not_or] at h
      have hne : ¬ p.1 = k := by
        intro e
        apply h.2
        simp [e]
      rw [energyById_snoc]
      cases hk : keptEnergy p.2 with
      | none => exact ih h.1
      | some e =>
          simp only []
          rw [mapGet_mapSet, if_neg hne]
          exact ih h.1

theorem energyById_get (l : List (Cell × Option JSNum)) (hnd : (l.map (fun p => p.1)).Nodup)
    (p : Cell × Option JSNum) (hp : p ∈ l) : mapGet (energyById l) p.1 = keptEnergy p.2 := by
  induction l using List.reverseRecOn with
  | nil => exact absurd hp (List.not_mem_nil p)
  | append_singleton t q ih =>
      rw [List.map_append, List.nodup_append] at hnd
      obtain ⟨hndt, -, hdisj⟩ := hnd
      rw [energyById_snoc]
      rcases List.mem_append.mp hp with hpt | hpq
      · have hne : ¬ q.1 = p.1 := by
          intro e
          exact hdisj (List.mem_map.mpr ⟨p, hpt, rfl⟩) (by simp [e])
        cases hk : keptEnergy q.2 with
        | none => exact ih hndt hpt
        | some e =>
            simp only []
            rw [mapGet_mapSet, if_neg hne]
            exact ih hndt hpt
      · have hpq' : p = q := List.mem_singleton.mp hpq
        subst hpq'
        have hnot : p.1 ∉ t.map (fun p => p.1) := by
          intro hm
          exact hdisj hm (by simp)
        cases hk : keptEnergy p.2 with
        | none => exact energyById_get_of_not_mem t p.1 hnot
        | some e =>
            simp only []
            rw [mapGet_mapSet, if_pos rfl]

theorem sumByParent_snoc (E : JSMap JSNum) (l : List (Cell × Cell)) (p : Cell × Cell) :
    sumByParent E (l ++ [p]) =
      mapSet (sumByParent E l) p.2
        (JSNum.add ((mapGet (sumByParent E l) p.2).getD (fin 0))
          ((mapGet E p.1).getD (fin 0))).rounded := by
  unfold sumByParent
  rw [List.foldl_append]
  rfl

theorem sumByParent_get (E : JSMap JSNum) (l : List (Cell × Cell)) (k : Cell) :
    (mapGet (sumByParent E l) k).getD (fin 0)
      = (l.filter (fun p => decide (p.2 = k))).foldl
          (fun a p => (JSNum.add a ((mapGet E p.1).getD (fin 0))).rounded) (fin 0) := by
  induction l using List.reverseRecOn with
  | nil => rfl
  | append_singleton t p ih =>
      rw [sumByParent_snoc, mapGet_mapSet, List.filter_append]
      by_cases hk : p.2 = k
      · subst hk
        simp only [if_true, Option.getD_some, List.filter_cons, decide_True, List.filter_nil,
          List.foldl_append, List.foldl_cons, List.foldl_nil]
        rw [ih]
      · simp only [if_neg hk, List.filter_cons, hk, decide_False, List.filter_nil,
          List.append_nil, Bool.false_eq_true, if_false]
        exact ih

theorem nodup_not_mem_drop {α : Type} (l : List α) (hnd : l.Nodup) (j : Nat) (k : α)
    (hj : l[j]? = some k) : k ∉ l.drop (j + 1) := by
  rw [not_mem_drop_iff]
  intro j' hlt e
  have hj'len : j' < l.length := by
    by_contra hc
    rw [List.getElem?_eq_none (by omega)] at e
    exact Option.noConfusion e
  exact (List.nodup_iff_getElem?_ne_getElem?.mp hnd j j' hlt hj'len) (hj.trans e.symm)

theorem filterMap_rowIndicesFrom {α : Type} (mk : Row → α) (p : Row → Bool) (store : List α)
    (rows : List Row) (base : Nat) (h : store.drop base = rows.map mk) :
    (rowIndicesFrom p base rows).filterMap (fun i => store[i]?) = (rows.filter p).map mk := by
  induction rows generalizing base with
  | nil => rfl
  | cons r t ih =>
      have h0 : store[base]? = some (mk r) := by
        have := List.getElem?_drop store base 0
        rw [h] at this
        simpa using this.symm
      have hrest : store.drop (base + 1) = t.map mk := by
        have := congrArg (List.drop 1) h
        rw [List.drop_drop] at this
        simpa using this
      by_cases hp : p r = true
      · rw [rowIndicesFrom, if_pos hp, List.filterMap_cons, h0, List.filter_cons, if_pos hp,
          List.map_cons, ih (base + 1) hrest]
      · rw [rowIndicesFrom, if_neg hp, List.filter_cons, if_neg hp, ih (base + 1) hrest]

theorem Built.dtObjs_erase {fs ds ms : List Row} {s : State} (B : Built fs ds ms s) :
    s.dtObjs.map (fun o => { o with meters := [] }) = ds.map mkDtObj := by
  apply List.ext_getElem?
  intro j
  rw [List.getElem?_map, List.getElem?_map, B.dtObjs j]
  cases ds[j]? <;> rfl

theorem Built.unique_meters {fs ds ms : List Row} {s : State} (B : Built fs ds ms s)
    (hI : s.meterById = indexFrom [] 0 (ms.map (fun m => field m "Meter No.")))
    (hnd : (ms.map (fun m => field m "Meter No.")).Nodup) :
    metersAt s (mapValues s.meterById) = ms.map mkMeterObj := by
  rw [hI, indexFrom_nodup [] 0 _ hnd (fun _ _ => rfl), List.nil_append]
  unfold metersAt
  rw [filterMap_pairsFrom s.meterObjs _ 0 (by rw [B.meterObjs]; simp), List.drop_zero,
    B.meterObjs]

theorem Built.unique_dts {fs ds ms : List Row} {s : State} (B : Built fs ds ms s)
    (hI : s.dtById = indexFrom [] 0 (ds.map (fun d => field d "DT Code")))
    (hnd : (ds.map (fun d => field d "DT Code")).Nodup) :
    dtsAt s (mapValues s.dtById) = s.dtObjs := by
  have hlen : s.dtObjs.length = ds.length := by
    have := congrArg List.length B.dtObjs_erase
    simpa using this
  rw [hI, indexFrom_nodup [] 0 _ hnd (fun _ _ => rfl), List.nil_append]
  unfold dtsAt
  rw [filterMap_pairsFrom s.dtObjs _ 0 (by simp [hlen]), List.drop_zero]

theorem Built.dt_resolves_iff {fs ds ms : List Row} {s : State} (B : Built fs ds ms s)
    (hnd : (ds.map (fun d => field d "DT Code")).Nodup) {j : Nat} {d : Row}
    (hd : ds[j]? = some d) (k : Cell) :
    mapGet s.dtById k = some j ↔ k = field d "DT Code" := by
  have hcode : (ds.map (fun d' => field d' "DT Code"))[j]? = some (field d "DT Code") := by
    rw [List.getElem?_map, hd]
    rfl
  constructor
  · intro h
    have := B.dtById.row_of_get h
    rw [hcode] at this
    exact (Option.some.inj this).symm
  · intro e
    rw [e]
    exact B.dtById.get_last hcode (nodup_not_mem_drop _ hnd j _ hcode)

/-! ## Loss bands -/

/-- C21: `classifyLoss` gives the label "—" for `null` and for `NaN`; for a
finite percentage it gives "Green" below 2 (negative losses included), "Amber"
from 2 to 5 with both bounds included, and "Red" above 5; `-Infinity` is below
2 and `+Infinity` is above 5. -/
theorem classifyLoss_bands (q : ℚ) :
    (classifyLoss none).label = "—" ∧
    (classifyLoss (some nan)).label = "—" ∧
    (classifyLoss (some (fin q))).label
      = (if q < 2 then "Green" else if q ≤ 5 then "Amber" else "Red") ∧
    (classifyLoss (some negInf)).label = "Green" ∧
    (classifyLoss (some posInf)).label = "Red" ∧
    (classifyLoss (some (fin (-1)))).label = "Green" ∧
    (classifyLoss (some (fin 2))).label = "Amber" ∧
    (classifyLoss (some (fin 5))).label = "Amber" := by
  have key : ∀ x : ℚ, (classifyLoss (some (fin x))).label
      = (if x < 2 then "Green" else if x ≤ 5 then "Amber" else "Red") := by
    intro x
    have hne : (fin x : JSNum) ≠ nan := fun h => by cases h
    simp only [classifyLoss, LOSS_THRESHOLDS, JSNum.lt, JSNum.le, if_neg hne]
    by_cases h1 : x < 2
    · simp [h1]
    · by_cases h2 : x ≤ 5
      · simp [h1, h2]
      · simp [h1, h2]
  refine ⟨rfl, rfl, key q, rfl, rfl, ?_, ?_, ?_⟩
  · rw [key]; norm_num
  · rw [key]; norm_num
  · rw [key]; norm_num

/-! ## The fallback and the initial state -/

/-- C24, the code on the fallback path: in the scope the scripts set up,
`bootstrapWithMockData` raises a `ReferenceError` for `mockFeeders` whatever
the state, so it does not run to completion and the state is left as it was
(on the initial state: no region and empty indexes). -/
theorem bootstrap_raises_reference_error (s : State) :
    bootstrapWithMockData pageScope s = Except.error (JSError.referenceError "mockFeeders") ∧
    State.init.regions = [] ∧ State.init.feederById = [] ∧ State.init.dtById = [] ∧
    State.init.meterById = [] :=
  ⟨rfl, rfl, rfl, rfl, rfl⟩

/-- C25, the code on the initial state: the three counts, the three loss
percentages and the four SLA percentages are the number `0`, but the four SLA
counts are `undefined`, the initial `slaGlobal` record carrying none of the
counters `commYes`, `nonCommYes`, `unmappedYes`, `neverCommYes`; after a build
of three empty sheets the four counts are `0`. -/
theorem initial_totals_sla_counts_undefined :
    computeGlobalTotals State.init =
      { feeders := 0, dts := 0, meters := 0,
        lossFdt := fin 0, lossDtc := fin 0, lossFc := fin 0,
        communicating := none, communicatingPct := fin 0,
        nonCommunicating := none, nonCommunicatingPct := fin 0,
        unmapped := none, unmappedPct := fin 0,
        neverComm := none, neverCommPct := fin 0 } ∧
    computeGlobalTotals (buildModelFromThreeSheets State.init [] [] []) =
      { feeders := 0, dts := 0, meters := 0,
        lossFdt := fin 0, lossDtc := fin 0, lossFc := fin 0,
        communicating := some 0, communicatingPct := fin 0,
        nonCommunicating := some 0, nonCommunicatingPct := fin 0,
        unmapped := some 0, unmappedPct := fin 0,
        neverComm := some 0, neverCommPct := fin 0 } := by
  constructor
  · simp [computeGlobalTotals, State.init, feedersAt, dtsAt, metersAt, mapValues, sum, pctLoss,
      pct, JSNum.truthy, counterNum]
  · simp [computeGlobalTotals, buildModelFromThreeSheets, aggregateRegions, resetState,
      State.init, feedersAt, dtsAt, metersAt, mapValues, sum, pctLoss, pct, JSNum.truthy,
      counterNum]

theorem sum_map_eq_zero {α : Type} (l : List α) (g : α → Nat) (h : ∀ x ∈ l, g x = 0) :
    (l.map g).sum = 0 := by
  induction l with
  | nil => rfl
  | cons x t ih =>
      rw [List.map_cons, List.sum_cons, h x (List.mem_cons_self x t),
        ih (fun y hy => h y (List.mem_cons_of_mem x hy))]

theorem Built.linked_meter_mapped {fs ds ms : List Row} {s : State} (B : Built fs ds ms s)
    {f : FeederObj} (hf : f ∈ s.feederObjs) {m : MeterObj} (hm : m ∈ metersAt s f.meters) :
    m.unmapped = false := by
  unfold metersAt at hm
  obtain ⟨i, hi, him⟩ := List.mem_filterMap.mp hm
  obtain ⟨row, hrow⟩ := B.row_of_mem_feeder_meters hf hi
  have hobj := (B.meter_ref hrow).1
  rw [him] at hobj
  have hmk : m = mkMeterObj row := Option.some.inj hobj
  cases hun : m.unmapped with
  | false => rfl
  | true =>
      exfalso
      have hp : parseYesNo (field row "Unmapped") = true := by
        rw [hmk] at hun
        exact hun
      exact (B.not_mem_meters_of_unmapped hrow hp).2 f hf hi

/-- C27: after every build no feeder's `meters` list holds a meter whose
`unmapped` flag is true, and for every region `metrics.unmapped` is the number
of DTs in its feeders' `dts` lists whose `unmapped` flag is true. -/
theorem region_unmapped_counts_only_dts (s : State) (fs ds ms : List Row) (reg : RegionObj)
    (hreg : reg ∈ (buildModelFromThreeSheets s fs ds ms).regions) :
    (∀ f ∈ (buildModelFromThreeSheets s fs ds ms).feederObjs,
      ∀ m ∈ metersAt (buildModelFromThreeSheets s fs ds ms) f.meters, m.unmapped = false) ∧
    ∃ M, reg.metrics = some M ∧
      M.unmapped =
        ((feedersAt (buildModelFromThreeSheets s fs ds ms) reg.feeders).map (fun f =>
          ((dtsAt (buildModelFromThreeSheets s fs ds ms) f.dts).filter
            (fun d => d.unmapped)).length)).sum := by
  have B := build_built s fs ds ms
  refine ⟨fun f hf m hm => B.linked_meter_mapped hf hm, ?_⟩
  obtain ⟨r, hr⟩ := List.getElem?_of_mem hreg
  refine ⟨_, (B.regions r reg hr).2, ?_⟩
  simp only [regionMetrics, foldl_add2_eq_sum, foldl_oneIf_eq_length_filter, Nat.zero_add]
  have hz : ((feedersAt (buildModelFromThreeSheets s fs ds ms) reg.feeders).map (fun x =>
      ((metersAt (buildModelFromThreeSheets s fs ds ms) x.meters).filter
        (fun m => m.unmapped)).length)).sum = 0 := by
    apply sum_map_eq_zero
    intro f hf
    rw [List.length_eq_zero, List.filter_eq_nil_iff]
    intro m hm
    rw [B.linked_meter_mapped (feedersAt_subset _ _ f hf) hm]
    simp
  rw [hz, Nat.add_zero]

/-- C27, witness: feeder `F1` of region `R` has the unmapped DT `D1` and the
meters `M1` (unmapped) and `M2`; the feeder lists only `M2` and the region's
`unmapped` metric is `1`. -/
theorem region_unmapped_counts_only_dts_witness :
    (buildModelFromThreeSheets State.init
        [[("Region Name", Cell.str "R"), ("Feeder Code", Cell.str "F1")]]
        [[("Feeder Code", Cell.str "F1"), ("DT Code", Cell.str "D1"), ("Unmapped", Cell.str "Yes")]]
        [[("Meter No.", Cell.str "M1"), ("Feeder Code", Cell.str "F1"),
          ("DT Code", Cell.str "D1"), ("Unmapped", Cell.str "Yes")],
         [("Meter No.", Cell.str "M2"), ("Feeder Code", Cell.str "F1"),
          ("DT Code", Cell.str "D1")]]).regions
      = [{ name := Cell.str "R", feeders := [0],
           metrics := some { feeders := 1, dts := 1, meters := 1, communicating := 0,
                             nonCommunicating := 0, unmapped := 1, neverComm := 0 } }] ∧
    ∃ M : RegionMetrics, M.unmapped = 1 ∧
      M.unmapped =
        ((feedersAt (buildModelFromThreeSheets State.init
            [[("Region Name", Cell.str "R"), ("Feeder Code", Cell.str "F1")]]
            [[("Feeder Code", Cell.str "F1"), ("DT Code", Cell.str "D1"),
              ("Unmapped", Cell.str "Yes")]]
            [[("Meter No.", Cell.str "M1"), ("Feeder Code", Cell.str "F1"),
              ("DT Code", Cell.str "D1"), ("Unmapped", Cell.str "Yes")],
             [("Meter No.", Cell.str "M2"), ("Feeder Code", Cell.str "F1"),
              ("DT Code", Cell.str "D1")]]) [0]).map (fun f =>
          ((dtsAt (buildModelFromThreeSheets State.init
            [[("Region Name", Cell.str "R"), ("Feeder Code", Cell.str "F1")]]
            [[("Feeder Code", Cell.str "F1"), ("DT Code", Cell.str "D1"),
              ("Unmapped", Cell.str "Yes")]]
            [[("Meter No.", Cell.str "M1"), ("Feeder Code", Cell.str "F1"),
              ("DT Code", Cell.str "D1"), ("Unmapped", Cell.str "Yes")],
             [("Meter No.", Cell.str "M2"), ("Feeder Code", Cell.str "F1"),
              ("DT Code", Cell.str "D1")]]) f.dts).filter
            (fun d => d.unmapped)).length)).sum := by
  refine ⟨by decide, ?_⟩
  obtain ⟨-, M, hM, hsum⟩ := region_unmapped_counts_only_dts State.init
    [[("Region Name", Cell.str "R"), ("Feeder Code", Cell.str "F1")]]
    [[("Feeder Code", Cell.str "F1"), ("DT Code", Cell.str "D1"), ("Unmapped", Cell.str "Yes")]]
    [[("Meter No.", Cell.str "M1"), ("Feeder Code", Cell.str "F1"),
      ("DT Code", Cell.str "D1"), ("Unmapped", Cell.str "Yes")],
     [("Meter No.", Cell.str "M2"), ("Feeder Code", Cell.str "F1"),
      ("DT Code", Cell.str "D1")]]
    { name := Cell.str "R", feeders := [0],
      metrics := some { feeders := 1, dts := 1, meters := 1, communicating := 0,
                        nonCommunicating := 0, unmapped := 1, neverComm := 0 } }
    (by decide)
  have hM' := Option.some.inj hM
  subst hM'
  exact ⟨_, rfl, hsum⟩

/-! ## Feeder rows, region counts and the size of the feeder index -/

theorem length_rowIndicesFrom (p : Row → Bool) (base : Nat) (rows : List Row) :
    (rowIndicesFrom p base rows).length = (rows.filter p).length := by
  induction rows generalizing base with
  | nil => rfl
  | cons r t ih =>
      by_cases h : p r = true
      · simp [rowIndicesFrom, h, ih]
      · simp [rowIndicesFrom, h, ih]

theorem length_filter_eq_count (g : Row → Cell) (x : Cell) (rows : List Row) :
    (rows.filter (fun f => decide (g f = x))).length = (rows.map g).count x := by
  induction rows with
  | nil => rfl
  | cons r t ih =>
      by_cases h : g r = x
      · simp [List.filter_cons, h, ih]
      · simp [List.filter_cons, h, ih, List.count_cons]

theorem sum_count_firstSeen (l : List Cell) :
    ((firstSeen l).map (fun x => l.count x)).sum = l.length := by
  have hp : (firstSeen l).Perm l.dedup := by
    rw [List.perm_ext_iff_of_nodup (nodup_firstSeen l) (List.nodup_dedup l)]
    intro a
    rw [mem_firstSeen, List.mem_dedup]
  rw [(hp.map _).sum_eq]
  exact List.sum_map_count_dedup_eq_length l

theorem filterMap_eq_map_of_some {α β : Type} (l : List α) (f : α → Option β) (g : α → β)
    (h : ∀ x ∈ l, f x = some (g x)) : l.filterMap f = l.map g := by
  induction l with
  | nil => rfl
  | cons x t ih =>
      rw [List.filterMap_cons, h x (List.mem_cons_self x t), List.map_cons,
        ih (fun y hy => h y (List.mem_cons_of_mem x hy))]

theorem Built.region_feeder_sum {fs ds ms : List Row} {s : State} (B : Built fs ds ms s) :
    s.regions.filterMap (fun reg => reg.metrics) = s.regions.map (regionMetrics s) ∧
    ((s.regions.map (regionMetrics s)).map (fun M => M.feeders)).sum = fs.length := by
  constructor
  · apply filterMap_eq_map_of_some
    intro reg hreg
    obtain ⟨r, hr⟩ := List.getElem?_of_mem hreg
    exact (B.regions r reg hr).2
  · have h1 : (s.regions.map (regionMetrics s)).map (fun M => M.feeders)
        = (s.regions.map (fun reg => reg.name)).map
            (fun x => (fs.map (fun f => field f "Region Name")).count x) := by
      rw [List.map_map, List.map_map]
      apply List.map_congr_left
      intro reg hreg
      obtain ⟨r, hr⟩ := List.getElem?_of_mem hreg
      show reg.feeders.length = _
      rw [(B.regions r reg hr).1]
      show (rowIndicesFrom _ 0 fs).length = _
      rw [length_rowIndicesFrom, length_filter_eq_count]
      rfl
    rw [h1, B.names, sum_count_firstSeen, List.length_map]

theorem mapKeys_mapSet {V : Type} (m : JSMap V) (k : Cell) (v : V) :
    mapKeys (mapSet m k v) = if k ∈ mapKeys m then mapKeys m else mapKeys m ++ [k] := by
  induction m with
  | nil => simp [mapSet, mapKeys]
  | cons q t ih =>
      obtain ⟨a, b⟩ := q
      by_cases hak : a = k
      · simp [mapSet, mapKeys, hak]
      · have hka : ¬ k = a := fun e => hak e.symm
        simp only [mapKeys] at ih
        simp only [mapSet, if_neg hak, mapKeys, List.map_cons, List.mem_cons, hka, false_or, ih]
        split_ifs <;> simp

theorem indexFrom_keys (m : JSMap Nat) (base : Nat) (ids : List Cell) (hm : (mapKeys m).Nodup) :
    (mapKeys (indexFrom m base ids)).Nodup ∧
    ∀ k, k ∈ mapKeys (indexFrom m base ids) ↔ k ∈ mapKeys m ∨ k ∈ ids := by
  induction ids generalizing m base with
  | nil => exact ⟨hm, fun k => by simp [indexFrom]⟩
  | cons x t ih =>
      have hnd : (mapKeys (mapSet m x base)).Nodup := by
        rw [mapKeys_mapSet]
        split_ifs with hx
        · exact hm
        · exact List.Nodup.append hm (List.nodup_singleton x) (by simpa using hx)
      obtain ⟨h1, h2⟩ := ih (mapSet m x base) (base + 1) hnd
      refine ⟨h1, fun k => ?_⟩
      rw [indexFrom, h2, mapKeys_mapSet]
      split_ifs with hx
      · constructor
        · rintro (h | h)
          · exact Or.inl h
          · exact Or.inr (List.mem_cons_of_mem x h)
        · rintro (h | h)
          · exact Or.inl h
          · rcases List.mem_cons.mp h with h | h
            · left; rw [h]; exact hx
            · exact Or.inr h
      · simp only [List.mem_append, List.mem_singleton, List.mem_cons]
        tauto

theorem length_indexFrom (ids : List Cell) : (indexFrom [] 0 ids).length = ids.toFinset.card := by
  obtain ⟨hnd, hmem⟩ := indexFrom_keys [] 0 ids (by simp [mapKeys])
  have hlen : (indexFrom [] 0 ids).length = (mapKeys (indexFrom [] 0 ids)).length := by
    simp [mapKeys]
  rw [hlen, ← List.toFinset_card_of_nodup hnd]
  congr 1
  ext k
  rw [List.mem_toFinset, List.mem_toFinset, hmem]
  simp [mapKeys]

theorem toFinset_card_eq_length_iff (l : List Cell) : l.toFinset.card = l.length ↔ l.Nodup := by
  constructor
  · intro h
    rw [List.card_toFinset] at h
    have e : l.dedup = l := (List.dedup_sublist l).eq_of_length h
    rw [← e]
    exact List.nodup_dedup l
  · exact List.toFinset_card_of_nodup

/-- C28: after every build every region carries metrics, and the sum over the
regions of `metrics.feeders` is the number of feeder rows; the `feeders` field
of `computeGlobalTotals()` is the number of distinct `Feeder Code` values; the
second is at most the first, the two are equal exactly when no `Feeder Code` is
repeated, and otherwise the region sum is strictly larger. -/
theorem region_feeder_sum_vs_index_size (s : State) (fs ds ms : List Row) :
    ((buildModelFromThreeSheets s fs ds ms).regions.filterMap (fun reg => reg.metrics)).length
      = (buildModelFromThreeSheets s fs ds ms).regions.length ∧
    (((buildModelFromThreeSheets s fs ds ms).regions.filterMap (fun reg => reg.metrics)).map
      (fun M => M.feeders)).sum = fs.length ∧
    (computeGlobalTotals (buildModelFromThreeSheets s fs ds ms)).feeders
      = (fs.map (fun f => field f "Feeder Code")).toFinset.card ∧
    ((computeGlobalTotals (buildModelFromThreeSheets s fs ds ms)).feeders
        = (((buildModelFromThreeSheets s fs ds ms).regions.filterMap (fun reg => reg.metrics)).map
            (fun M => M.feeders)).sum
      ↔ (fs.map (fun f => field f "Feeder Code")).Nodup) ∧
    ((fs.map (fun f => field f "Feeder Code")).Nodup ∨
      (computeGlobalTotals (buildModelFromThreeSheets s fs ds ms)).feeders
        < (((buildModelFromThreeSheets s fs ds ms).regions.filterMap (fun reg => reg.metrics)).map
            (fun M => M.feeders)).sum) := by
  have B := build_built s fs ds ms
  obtain ⟨hmap, hsum⟩ := B.region_feeder_sum
  have hidx : (computeGlobalTotals (buildModelFromThreeSheets s fs ds ms)).feeders
      = (fs.map (fun f => field f "Feeder Code")).toFinset.card := by
    show (buildModelFromThreeSheets s fs ds ms).feederById.length = _
    rw [(build_indexes s fs ds ms).1, length_indexFrom]
  have hlen : (fs.map (fun f => field f "Feeder Code")).length = fs.length := List.length_map _ _
  refine ⟨by rw [hmap, List.length_map], by rw [hmap, hsum], hidx, ?_, ?_⟩
  · rw [hmap, hsum, hidx, ← hlen]
    exact toFinset_card_eq_length_iff _
  · rw [hmap, hsum, hidx, ← hlen]
    by_cases hnd : (fs.map (fun f => field f "Feeder Code")).Nodup
    · exact Or.inl hnd
    · right
      have hle := List.toFinset_card_le (fs.map (fun f => field f "Feeder Code"))
      have hne : (fs.map (fun f => field f "Feeder Code")).toFinset.card
          ≠ (fs.map (fun f => field f "Feeder Code")).length :=
        fun e => hnd ((toFinset_card_eq_length_iff _).mp e)
      omega

/-! ## The accordion losses and the search by text -/

theorem inlineLoss_eq_lossOrNull (e : Option JSNum) (h : ∀ x, e = some x → ∃ q, x = fin q)
    (c : JSNum) : inlineLoss (nullishZero e) c = lossOrNull e (some c) := by
  cases e with
  | none => simp [inlineLoss, nullishZero, JSNum.truthy, lossOrNull]
  | some x =>
      obtain ⟨q, rfl⟩ := h x rfl
      by_cases hq : q = 0
      · subst hq
        simp [inlineLoss, nullishZero, JSNum.truthy, lossOrNull]
      · have hne : (fin q : JSNum) ≠ fin 0 := fun h => hq (by injection h)
        simp [inlineLoss, nullishZero, JSNum.truthy, lossOrNull, hq, hne]

/-- C29: for every built model and every value of the region filter, the rows
of `renderAccordionTable` are the rows whose loss figures are
`lossOrNull(upstream energy, summed child energy)`: `f2dt` and `f2cons` of a
feeder row from `feederEnergy` and the energies of the feeder's `dts` and
`meters`, `dt2cons` of a DT row from `dtEnergy` and the energies of the DT's
`meters`, a `null` child energy counting as `0`; such a figure is `null`
exactly when the upstream energy is `null` or `0`.  With upstream 100 and
children summing to 90 the inline figure is 10. -/
theorem accordion_losses_are_lossOrNull (s : State) (fs ds ms : List Row) (regionSel : String) :
    renderAccordionTable (buildModelFromThreeSheets s fs ds ms) regionSel
      = accordionRowsByLossOrNull (buildModelFromThreeSheets s fs ds ms) regionSel ∧
    (∀ (e : Option JSNum) (c : JSNum),
      lossOrNull e (some c) = none ↔ e = none ∨ e = some (fin 0)) ∧
    inlineLoss (nullishZero (some (fin 100))) (fin 90) = some (fin 10) ∧
    inlineLoss (nullishZero none) (fin 90) = none := by
  have B := build_built s fs ds ms
  refine ⟨?_, ?_, ?_, ?_⟩
  · unfold renderAccordionTable accordionRowsByLossOrNull
    apply List.flatMap_congr
    intro region _
    apply List.flatMap_congr
    intro feeder hfeeder
    have hf := feedersAt_subset _ _ feeder hfeeder
    have hfin := B.feeder_energy_finite hf
    simp only [inlineLoss_eq_lossOrNull _ hfin]
    congr 1
    apply List.flatMap_congr
    intro dt hdt
    have hd := dtsAt_subset _ _ dt hdt
    simp only [inlineLoss_eq_lossOrNull _ (B.dt_energy_finite hd)]
  · intro e c
    cases e with
    | none => simp [lossOrNull]
    | some i =>
        by_cases h : i = fin 0
        · simp [lossOrNull, h]
        · simp [lossOrNull, h]
  · rw [inlineLoss_eq_lossOrNull _ (fun x hx => ⟨100, (Option.some.inj hx).symm⟩),
      lossOrNull_fin _ _ (by norm_num)]
    norm_num [round2]
  · simp [inlineLoss, nullishZero, JSNum.truthy]

theorem mapHas_eq_false_of_not_mem {V : Type} (m : JSMap V) (k : Cell) (h : k ∉ mapKeys m) :
    mapHas m k = false := by
  induction m with
  | nil => rfl
  | cons q t ih =>
      obtain ⟨a, b⟩ := q
      have hak : ¬ a = k := fun e => h (by simp [mapKeys, e])
      have ht : k ∉ mapKeys t := fun e => h (by
        simp only [mapKeys, List.map_cons, List.mem_cons]
        exact Or.inr e)
      have := ih ht
      simp only [mapHas, mapGet, if_neg hak] at this ⊢
      exact this

theorem mapHas_of_mem {V : Type} (m : JSMap V) (k : Cell) (h : k ∈ mapKeys m) :
    mapHas m k = true := by
  induction m with
  | nil => simp [mapKeys] at h
  | cons q t ih =>
      obtain ⟨a, b⟩ := q
      by_cases hak : a = k
      · simp [mapHas, mapGet, hak]
      · have ht : k ∈ mapKeys t := by
          simp only [mapKeys, List.map_cons, List.mem_cons] at h
          rcases h with h | h
          · exact absurd h.symm hak
          · exact h
        have := ih ht
        simp only [mapHas, mapGet, if_neg hak] at this ⊢
        exact this

/-- C30: the indexes are keyed by the raw id cell and the search token is a
text.  In every model in which an entity is indexed under a number cell `n` and
no key of the four indexes is the text `token`, the index still answers for the
number cell, and `onGlobalSearch(token)` for a non-empty `token` (in particular
the decimal text of `n`) raises the "No match found" alert and leaves the state
unchanged. -/
theorem search_text_misses_number_key (s : State) (token : String) (n : JSNum)
    (htoken : token ≠ "")
    (hn : Cell.num n ∈ mapKeys s.meterById ++ mapKeys s.dtById ++ mapKeys s.feederById)
    (hno : Cell.str token ∉
      mapKeys s.meterById ++ mapKeys s.dtById ++ mapKeys s.feederById ++ mapKeys s.regionByName) :
    (mapHas s.meterById (Cell.num n) || mapHas s.dtById (Cell.num n)
      || mapHas s.feederById (Cell.num n)) = true ∧
    Cell.num n ≠ Cell.str token ∧
    (onGlobalSearch s token).alerted = true ∧
    (onGlobalSearch s token).state = s := by
  simp only [List.mem_append, not_or] at hno hn
  obtain ⟨⟨⟨h1, h2⟩, h3⟩, h4⟩ := hno
  have e1 := mapHas_eq_false_of_not_mem _ _ h1
  have e2 := mapHas_eq_false_of_not_mem _ _ h2
  have e3 := mapHas_eq_false_of_not_mem _ _ h3
  have e4 := mapHas_eq_false_of_not_mem _ _ h4
  refine ⟨?_, (fun h => by cases h), ?_, ?_⟩
  · rcases hn with (hn | hn) | hn
    · simp [mapHas_of_mem _ _ hn]
    · simp [mapHas_of_mem _ _ hn]
    · simp [mapHas_of_mem _ _ hn]
  · simp [onGlobalSearch, htoken, e1, e2, e3, e4]
  · simp [onGlobalSearch, htoken, e1, e2, e3, e4]

/-- C30, witness: a meter row whose `Meter No.` cell is the number 123 is
indexed under that number, and the search for the text "123" finds nothing. -/
theorem search_text_misses_number_key_witness :
    (buildModelFromThreeSheets State.init [] []
        [[("Meter No.", Cell.num (fin 123))]]).meterById = [(Cell.num (fin 123), 0)] ∧
    (onGlobalSearch (buildModelFromThreeSheets State.init [] []
        [[("Meter No.", Cell.num (fin 123))]]) "123").alerted = true := by
  have hb : (buildModelFromThreeSheets State.init [] []
      [[("Meter No.", Cell.num (fin 123))]]).meterById = [(Cell.num (fin 123), 0)] := by
    simp [buildModelFromThreeSheets, aggregateRegions, meterStep, resetState, State.init,
      mkMeterObj, field, List.lookup, mapSet]
  have hd : (buildModelFromThreeSheets State.init [] []
      [[("Meter No.", Cell.num (fin 123))]]).dtById = [] := by
    simp [buildModelFromThreeSheets, aggregateRegions, meterStep, resetState, State.init]
  have hf : (buildModelFromThreeSheets State.init [] []
      [[("Meter No.", Cell.num (fin 123))]]).feederById = [] := by
    simp [buildModelFromThreeSheets, aggregateRegions, meterStep, resetState, State.init]
  have hr : (buildModelFromThreeSheets State.init [] []
      [[("Meter No.", Cell.num (fin 123))]]).regionByName = [] := by
    simp [buildModelFromThreeSheets, aggregateRegions, meterStep, resetState, State.init]
  exact ⟨hb, (search_text_misses_number_key _ "123" (fin 123) (by decide)
    (by rw [hb]; simp [mapKeys]) (by rw [hb, hd, hf, hr]; simp [mapKeys])).2.2.1⟩

/-! ## The KPI totals -/

theorem propGet_propSet (o : Props) (k k' : String) (v : Tally) :
    propGet (propSet o k v) k' = if k = k' then some v else propGet o k' := by
  induction o with
  | nil => simp [propSet, propGet]
  | cons p t ih =>
      obtain ⟨a, w⟩ := p
      by_cases hak : a = k
      · subst hak
        by_cases hk : a = k'
        · simp [propSet, propGet, hk]
        · simp [propSet, propGet, hk]
      · by_cases hk : k = k'
        · subst hk
          simp [propSet, propGet, hak, ih]
        · by_cases hak' : a = k'
          · subst hak'
            simp [propSet, propGet, hak, hk]
          · simp [propSet, propGet, hak, hak', hk, ih]

theorem propGet_bumpRegion_ne (o : Props) (key k' : String) (h : key ≠ k') :
    propGet (bumpRegion o key) k' = propGet o k' := by
  unfold bumpRegion
  cases hg : propGet o key with
  | none =>
      simp only
      split_ifs
      · rfl
      · rw [propGet_propSet, if_neg h]
      · rw [propGet_propSet, if_neg h]
  | some w =>
      cases w with
      | count n => simp only; rw [propGet_propSet, if_neg h]
      | text => simp only; rw [propGet_propSet, if_neg h]

theorem propGet_bumpRegion_unmapped (o : Props) (n : Nat)
    (h : (propGet o "Unmapped").getD (Tally.count 0) = Tally.count n) :
    (propGet (bumpRegion o "Unmapped") "Unmapped").getD (Tally.count 0) = Tally.count (n + 1) := by
  unfold bumpRegion
  cases hg : propGet o "Unmapped" with
  | none =>
      rw [hg] at h
      simp only [Option.getD_none, Tally.count.injEq] at h
      subst h
      have h1 : ¬ ("Unmapped" = "__proto__") := by decide
      have h2 : "Unmapped" ∉ objectPrototypeMethods := by decide
      simp only [if_neg h1, if_neg h2, propGet_propSet, if_true, Option.getD_some]
  | some w =>
      rw [hg] at h
      simp only [Option.getD_some] at h
      subst h
      simp only [propGet_propSet, if_true, Option.getD_some]

theorem regionKey_eq_unmapped_iff (numberText : JSNum → String) (row : Row) :
    regionKey numberText row = "Unmapped" ↔ isUnmapped numberText row = true := by
  constructor
  · intro h
    by_contra hun
    unfold regionKey at h
    simp only [if_neg hun] at h
    unfold isUnmapped at hun
    dsimp only at h hun
    generalize (if getField numberText row COLS.region = Cell.null ∨
      getField numberText row COLS.region = Cell.undef then ""
      else norm numberText (getField numberText row COLS.region)) = X at h hun
    by_cases hX : X = ""
    · rw [if_neg (not_not.mpr hX)] at h
      exact absurd h (by decide)
    · rw [if_pos hX] at h
      subst h
      exact hun (by decide)
  · intro h
    unfold regionKey
    simp only [if_pos h]

theorem kpi_comm_buckets (numberText : JSNum → String) (now : JSNum)
    (parseExcelDate : Cell → Option JSNum) (rows : List Row) (acc : KpiCounters) :
    (rows.foldl (kpiStep numberText now parseExcelDate) acc).comm
      + (rows.foldl (kpiStep numberText now parseExcelDate) acc).non
      + (rows.foldl (kpiStep numberText now parseExcelDate) acc).never
      = acc.comm + acc.non + acc.never + rows.length := by
  induction rows generalizing acc with
  | nil => rfl
  | cons r t ih =>
      rw [List.foldl_cons, ih]
      have hstep : (kpiStep numberText now parseExcelDate acc r).comm
          + (kpiStep numberText now parseExcelDate acc r).non
          + (kpiStep numberText now parseExcelDate acc r).never
          = acc.comm + acc.non + acc.never + 1 := by
        unfold kpiStep
        simp only
        split_ifs <;> simp only <;> omega
      rw [hstep, List.length_cons]
      omega

theorem kpiStep_regionBreak (numberText : JSNum → String) (now : JSNum)
    (parseExcelDate : Cell → Option JSNum) (acc : KpiCounters) (row : Row) :
    (kpiStep numberText now parseExcelDate acc row).regionBreak
      = bumpRegion acc.regionBreak (regionKey numberText row) := by
  unfold kpiStep
  simp only
  split_ifs <;> rfl

theorem kpi_unmapped_count (numberText : JSNum → String) (now : JSNum)
    (parseExcelDate : Cell → Option JSNum) (rows : List Row) (acc : KpiCounters) (n : Nat)
    (h : (propGet acc.regionBreak "Unmapped").getD (Tally.count 0) = Tally.count n) :
    (propGet (rows.foldl (kpiStep numberText now parseExcelDate) acc).regionBreak
        "Unmapped").getD (Tally.count 0)
      = Tally.count (n + (rows.filter (isUnmapped numberText)).length) := by
  induction rows generalizing acc n with
  | nil => simpa using h
  | cons r t ih =>
      rw [List.foldl_cons]
      by_cases hun : isUnmapped numberText r = true
      · have hkey := (regionKey_eq_unmapped_iff numberText r).mpr hun
        have hstep : (propGet (kpiStep numberText now parseExcelDate acc r).regionBreak
            "Unmapped").getD (Tally.count 0) = Tally.count (n + 1) := by
          rw [kpiStep_regionBreak, hkey]
          exact propGet_bumpRegion_unmapped _ _ h
        rw [ih _ _ hstep, List.filter_cons, if_pos hun, List.length_cons]
        congr 1
        omega
      · have hkey : regionKey numberText r ≠ "Unmapped" :=
          fun e => hun ((regionKey_eq_unmapped_iff numberText r).mp e)
        have hstep : (propGet (kpiStep numberText now parseExcelDate acc r).regionBreak
            "Unmapped").getD (Tally.count 0) = Tally.count n := by
          rw [kpiStep_regionBreak, propGet_bumpRegion_ne _ _ _ hkey]
          exact h
        rw [ih _ _ hstep, List.filter_cons, if_neg hun]

theorem getField_regionFieldText (numberText : JSNum → String) (row : Row) (names : List String) :
    (regionFieldText numberText row names = none ∧ getField numberText row names = Cell.null) ∨
    (∃ v, getField numberText row names = v ∧ v ≠ Cell.null ∧ v ≠ Cell.undef ∧
      regionFieldText numberText row names = some (norm numberText v) ∧
      norm numberText v ≠ "") := by
  induction names with
  | nil => left; exact ⟨rfl, rfl⟩
  | cons c cs ih =>
      have hskip : ∀ (hcond : ((row.lookup c).isSome && decide (field row c ≠ Cell.null) &&
            decide (field row c ≠ Cell.undef) &&
            decide (jsTrim (cellText numberText (field row c)).toList ≠ [])) = false)
          (hnone : (match row.lookup c with
            | none => none
            | some Cell.null => none
            | some Cell.undef => none
            | some v =>
                if jsTrim (cellText numberText v).toList = [] then none
                else some (String.mk (jsTrim (cellText numberText v).toList))) = none),
          (regionFieldText numberText row (c :: cs) = none ∧
              getField numberText row (c :: cs) = Cell.null) ∨
          (∃ v, getField numberText row (c :: cs) = v ∧ v ≠ Cell.null ∧ v ≠ Cell.undef ∧
            regionFieldText numberText row (c :: cs) = some (norm numberText v) ∧
            norm numberText v ≠ "") := by
        intro hcond hnone
        have e1 : getField numberText row (c :: cs) = getField numberText row cs := by
          simp only [getField, hcond, Bool.false_eq_true, if_false]
        have e2 : regionFieldText numberText row (c :: cs) = regionFieldText numberText row cs := by
          simp only [regionFieldText, List.filterMap_cons, hnone]
        rw [e1, e2]
        exact ih
      have htake : ∀ v, row.lookup c = some v → v ≠ Cell.null → v ≠ Cell.undef →
          jsTrim (cellText numberText v).toList ≠ [] →
          norm numberText v = String.mk (jsTrim (cellText numberText v).toList) →
          (match row.lookup c with
            | none => none
            | some Cell.null => none
            | some Cell.undef => none
            | some v =>
                if jsTrim (cellText numberText v).toList = [] then none
                else some (String.mk (jsTrim (cellText numberText v).toList)))
            = some (String.mk (jsTrim (cellText numberText v).toList)) →
          (regionFieldText numberText row (c :: cs) = none ∧
              getField numberText row (c :: cs) = Cell.null) ∨
          (∃ v, getField numberText row (c :: cs) = v ∧ v ≠ Cell.null ∧ v ≠ Cell.undef ∧
            regionFieldText numberText row (c :: cs) = some (norm numberText v) ∧
            norm numberText v ≠ "") := by
        intro v hv h1 h2 h3 hnorm hsome
        right
        have hf : field row c = v := by simp [field, hv]
        refine ⟨v, ?_, h1, h2, ?_, ?_⟩
        · have hcond : ((row.lookup c).isSome && decide (field row c ≠ Cell.null) &&
              decide (field row c ≠ Cell.undef) &&
              decide (jsTrim (cellText numberText (field row c)).toList ≠ [])) = true := by
            rw [hf, hv, decide_eq_true h1, decide_eq_true h2, decide_eq_true h3]
            rfl
          simp only [getField]
          rw [if_pos hcond, hf]
        · simp only [regionFieldText, List.filterMap_cons, hsome, List.head?_cons, hnorm]
        · rw [hnorm]
          intro e
          apply h3
          have := congrArg String.toList e
          simpa using this
      cases hl : row.lookup c with
      | none =>
          apply hskip
          · simp [hl]
          · simp [hl]
      | some v =>
          cases v with
          | null =>
              apply hskip
              · simp [hl, field]
              · simp [hl]
          | undef =>
              apply hskip
              · simp [hl, field]
              · simp [hl]
          | num x =>
              by_cases ht : jsTrim (cellText numberText (Cell.num x)).toList = []
              · apply hskip
                · rw [show field row c = Cell.num x by simp [field, hl], decide_eq_false (not_not.mpr ht)]
                  simp
                · rw [hl]
                  simp only [ht, if_true]
              · exact htake _ hl (by simp) (by simp) ht rfl (by rw [hl]; simp only [ht, if_false])
          | str x =>
              by_cases ht : jsTrim (cellText numberText (Cell.str x)).toList = []
              · apply hskip
                · rw [show field row c = Cell.str x by simp [field, hl], decide_eq_false (not_not.mpr ht)]
                  simp
                · rw [hl]
                  simp only [ht, if_true]
              · exact htake _ hl (by simp) (by simp) ht rfl (by rw [hl]; simp only [ht, if_false])
          | bool x =>
              by_cases ht : jsTrim (cellText numberText (Cell.bool x)).toList = []
              · apply hskip
                · rw [show field row c = Cell.bool x by simp [field, hl], decide_eq_false (not_not.mpr ht)]
                  simp
                · rw [hl]
                  simp only [ht, if_true]
              · exact htake _ hl (by simp) (by simp) ht rfl (by rw [hl]; simp only [ht, if_false])

theorem isUnmapped_eq_regionFieldUnmapped (numberText : JSNum → String) (row : Row) :
    isUnmapped numberText row = regionFieldUnmapped numberText row := by
  unfold isUnmapped regionFieldUnmapped
  rcases getField_regionFieldText numberText row ["Region Name", "RegionName", "Region"] with
    ⟨h1, h2⟩ | ⟨v, h1, h2, h3, h4, h5⟩
  · simp only [COLS, h1, h2, true_or, if_true, decide_True, Bool.true_or]
  · simp only [COLS, h1, h4, h2, h3, or_self, if_false, h5, decide_False, Bool.false_or]

theorem foldl_tally_text (l : List Tally) : l.foldl Tally.add Tally.text = Tally.text := by
  induction l with
  | nil => rfl
  | cons w t ih =>
      rw [List.foldl_cons]
      cases w <;> exact ih

theorem foldl_tally_shift (l : List Tally) (x n d : Nat)
    (h : l.foldl Tally.add (Tally.count x) = Tally.count n) :
    l.foldl Tally.add (Tally.count (x + d)) = Tally.count (n + d) := by
  induction l generalizing x with
  | nil =>
      simp only [List.foldl_nil, Tally.count.injEq] at h ⊢
      omega
  | cons w t ih =>
      cases w with
      | count b =>
          simp only [List.foldl_cons, Tally.add] at h ⊢
          have := ih (x + b) h
          have e : x + d + b = x + b + d := by omega
          rw [e]
          exact this
      | text =>
          simp only [List.foldl_cons, Tally.add] at h
          rw [foldl_tally_text] at h
          exact Tally.noConfusion h

theorem foldl_tally_propSet (o : Props) (key : String) (a n : Nat)
    (h : (o.map (fun p => p.2)).foldl Tally.add (Tally.count a) = Tally.count n) :
    (propGet o key = none →
      ((propSet o key (Tally.count 1)).map (fun p => p.2)).foldl Tally.add (Tally.count a)
        = Tally.count (n + 1)) ∧
    (∀ c, propGet o key = some (Tally.count c) →
      ((propSet o key (Tally.count (c + 1))).map (fun p => p.2)).foldl Tally.add (Tally.count a)
        = Tally.count (n + 1)) ∧
    propGet o key ≠ some Tally.text := by
  induction o generalizing a with
  | nil =>
      simp only [List.map_nil, List.foldl_nil, Tally.count.injEq] at h
      subst h
      refine ⟨fun _ => rfl, fun c hc => ?_, ?_⟩
      · simp [propGet] at hc
      · simp [propGet]
  | cons p t ih =>
      obtain ⟨k, w⟩ := p
      cases w with
      | text =>
          simp only [List.map_cons, List.foldl_cons, Tally.add] at h
          rw [foldl_tally_text] at h
          exact Tally.noConfusion h
      | count b =>
          simp only [List.map_cons, List.foldl_cons, Tally.add] at h
          by_cases hk : k = key
          · refine ⟨fun hn => ?_, fun c hc => ?_, ?_⟩
            · simp [propGet, hk] at hn
            · simp only [propGet, if_pos hk, Option.some.injEq, Tally.count.injEq] at hc
              subst hc
              simp only [propSet, if_pos hk, List.map_cons, List.foldl_cons, Tally.add]
              have := foldl_tally_shift _ _ _ 1 h
              have e : a + (b + 1) = a + b + 1 := by omega
              rw [e]
              exact this
            · simp [propGet, hk]
          · obtain ⟨h1, h2, h3⟩ := ih (a + b) h
            refine ⟨fun hn => ?_, fun c hc => ?_, ?_⟩
            · simp only [propGet, if_neg hk] at hn
              simp only [propSet, if_neg hk, List.map_cons, List.foldl_cons, Tally.add]
              exact h1 hn
            · simp only [propGet, if_neg hk] at hc
              simp only [propSet, if_neg hk, List.map_cons, List.foldl_cons, Tally.add]
              exact h2 c hc
            · simp only [propGet, if_neg hk]
              exact h3

theorem foldl_tally_bumpRegion (o : Props) (key : String) (n : Nat)
    (h : (o.map (fun p => p.2)).foldl Tally.add (Tally.count 0) = Tally.count n)
    (h1 : key ≠ "__proto__") (h2 : key ∉ objectPrototypeMethods) :
    ((bumpRegion o key).map (fun p => p.2)).foldl Tally.add (Tally.count 0)
      = Tally.count (n + 1) := by
  obtain ⟨g1, g2, g3⟩ := foldl_tally_propSet o key 0 n h
  unfold bumpRegion
  cases hg : propGet o key with
  | none =>
      simp only [if_neg h1, if_neg h2]
      exact g1 hg
  | some w =>
      cases w with
      | count c => exact g2 c hg
      | text => exact absurd hg g3

theorem kpi_total_count (numberText : JSNum → String) (now : JSNum)
    (parseExcelDate : Cell → Option JSNum) (rows : List Row) (acc : KpiCounters) (n : Nat)
    (h : (acc.regionBreak.map (fun p => p.2)).foldl Tally.add (Tally.count 0) = Tally.count n)
    (hkeys : ∀ row ∈ rows, regionKey numberText row ≠ "__proto__" ∧
      regionKey numberText row ∉ objectPrototypeMethods) :
    ((rows.foldl (kpiStep numberText now parseExcelDate) acc).regionBreak.map
        (fun p => p.2)).foldl Tally.add (Tally.count 0) = Tally.count (n + rows.length) := by
  induction rows generalizing acc n with
  | nil => simpa using h
  | cons r t ih =>
      rw [List.foldl_cons]
      obtain ⟨k1, k2⟩ := hkeys r (List.mem_cons_self r t)
      have hstep : ((kpiStep numberText now parseExcelDate acc r).regionBreak.map
          (fun p => p.2)).foldl Tally.add (Tally.count 0) = Tally.count (n + 1) := by
        rw [kpiStep_regionBreak]
        exact foldl_tally_bumpRegion _ _ _ h k1 k2
      rw [ih _ _ hstep (fun row hrow => hkeys row (List.mem_cons_of_mem r hrow)), List.length_cons]
      congr 1
      omega

/-- The totals of `computeKpiTotals` for rows none of whose region keys is the
name of a member inherited from `Object.prototype`: `totalMeters` is the number
of rows, `unmapped` the number of rows whose region field is blank or contains
`unmapped`, `installed` their difference, and the three communication buckets
add up to the number of rows. -/
theorem computeKpiTotals_of_plain_region_names (numberText : JSNum → String) (now : JSNum)
    (parseExcelDate : Cell → Option JSNum) (rows : List Row)
    (hkeys : ∀ row ∈ rows, regionKey numberText row ≠ "__proto__" ∧
      regionKey numberText row ∉ objectPrototypeMethods) :
    (computeKpiTotals numberText now parseExcelDate rows).totalMeters = Tally.count rows.length ∧
    (computeKpiTotals numberText now parseExcelDate rows).unmapped
      = Tally.count (rows.filter (regionFieldUnmapped numberText)).length ∧
    (computeKpiTotals numberText now parseExcelDate rows).installed
      = fin ((rows.length : ℚ) - ((rows.filter (regionFieldUnmapped numberText)).length : ℚ)) ∧
    (computeKpiTotals numberText now parseExcelDate rows).comm
      + (computeKpiTotals numberText now parseExcelDate rows).non
      + (computeKpiTotals numberText now parseExcelDate rows).never = rows.length := by
  have hfun : isUnmapped numberText = regionFieldUnmapped numberText :=
    funext (isUnmapped_eq_regionFieldUnmapped numberText)
  have ht : (computeKpiTotals numberText now parseExcelDate rows).totalMeters
      = Tally.count rows.length := by
    have := kpi_total_count numberText now parseExcelDate rows
      { regionBreak := [], comm := 0, non := 0, never := 0 } 0 rfl hkeys
    rw [Nat.zero_add] at this
    exact this
  have hu : (computeKpiTotals numberText now parseExcelDate rows).unmapped
      = Tally.count (rows.filter (regionFieldUnmapped numberText)).length := by
    have := kpi_unmapped_count numberText now parseExcelDate rows
      { regionBreak := [], comm := 0, non := 0, never := 0 } 0 rfl
    rw [Nat.zero_add, hfun] at this
    exact this
  refine ⟨ht, hu, ?_, ?_⟩
  · have hi : (computeKpiTotals numberText now parseExcelDate rows).installed
        = JSNum.max0 (JSNum.sub
            (computeKpiTotals numberText now parseExcelDate rows).totalMeters.toNum
            (computeKpiTotals numberText now parseExcelDate rows).unmapped.toNum) := rfl
    rw [hi, ht, hu]
    simp only [Tally.toNum, JSNum.sub, JSNum.max0]
    congr 1
    apply max_eq_right
    have hle : (rows.filter (regionFieldUnmapped numberText)).length ≤ rows.length :=
      List.length_filter_le _ _
    have : ((rows.filter (regionFieldUnmapped numberText)).length : ℚ) ≤ (rows.length : ℚ) := by
      exact_mod_cast hle
    linarith
  · have := kpi_comm_buckets numberText now parseExcelDate rows
      { regionBreak := [], comm := 0, non := 0, never := 0 }
    simpa using this

/-- C26, the code at the failing input: for the single row whose `Region` cell
is the text `__proto__`, `computeKpiTotals` returns `totalMeters = 0` (and
`installed = 0`) although there is one row; for the single row whose `Region`
is `constructor`, `totalMeters` is a string and `installed` is `NaN`.  For
every list of rows the three communication buckets add up to the number of
rows and `unmapped` is the number of rows whose region field is blank or
contains `unmapped`. -/
theorem kpi_total_misses_inherited_region_name (numberText : JSNum → String) (now : JSNum)
    (parseExcelDate : Cell → Option JSNum) (rows : List Row) :
    [[("Region", Cell.str "__proto__")]].length = 1 ∧
    (computeKpiTotals numberText now parseExcelDate
      [[("Region", Cell.str "__proto__")]]).totalMeters = Tally.count 0 ∧
    (computeKpiTotals numberText now parseExcelDate
      [[("Region", Cell.str "__proto__")]]).installed = fin 0 ∧
    (computeKpiTotals numberText now parseExcelDate
      [[("Region", Cell.str "constructor")]]).totalMeters = Tally.text ∧
    (computeKpiTotals numberText now parseExcelDate
      [[("Region", Cell.str "constructor")]]).installed = nan ∧
    (computeKpiTotals numberText now parseExcelDate rows).comm
      + (computeKpiTotals numberText now parseExcelDate rows).non
      + (computeKpiTotals numberText now parseExcelDate rows).never = rows.length ∧
    (computeKpiTotals numberText now parseExcelDate rows).unmapped
      = Tally.count (rows.filter (regionFieldUnmapped numberText)).length := by
  have hfun : isUnmapped numberText = regionFieldUnmapped numberText :=
    funext (isUnmapped_eq_regionFieldUnmapped numberText)
  have hp : (computeKpiTotals numberText now parseExcelDate
      [[("Region", Cell.str "__proto__")]]).totalMeters = Tally.count 0 := rfl
  have hc : (computeKpiTotals numberText now parseExcelDate
      [[("Region", Cell.str "constructor")]]).totalMeters = Tally.text := rfl
  have hpu : (computeKpiTotals numberText now parseExcelDate
      [[("Region", Cell.str "__proto__")]]).unmapped = Tally.count 0 := rfl
  have hcu : (computeKpiTotals numberText now parseExcelDate
      [[("Region", Cell.str "constructor")]]).unmapped = Tally.count 0 := rfl
  refine ⟨rfl, hp, ?_, hc, ?_, ?_, ?_⟩
  · have hi : (computeKpiTotals numberText now parseExcelDate
        [[("Region", Cell.str "__proto__")]]).installed
        = JSNum.max0 (JSNum.sub
            (computeKpiTotals numberText now parseExcelDate
              [[("Region", Cell.str "__proto__")]]).totalMeters.toNum
            (computeKpiTotals numberText now parseExcelDate
              [[("Region", Cell.str "__proto__")]]).unmapped.toNum) := rfl
    rw [hi, hp, hpu]
    simp [Tally.toNum, JSNum.sub, JSNum.max0]
  · have hi : (computeKpiTotals numberText now parseExcelDate
        [[("Region", Cell.str "constructor")]]).installed
        = JSNum.max0 (JSNum.sub
            (computeKpiTotals numberText now parseExcelDate
              [[("Region", Cell.str "constructor")]]).totalMeters.toNum
            (computeKpiTotals numberText now parseExcelDate
              [[("Region", Cell.str "constructor")]]).unmapped.toNum) := rfl
    rw [hi, hc, hcu]
    rfl
  · have := kpi_comm_buckets numberText now parseExcelDate rows
      { regionBreak := [], comm := 0, non := 0, never := 0 }
    simpa using this
  · have := kpi_unmapped_count numberText now parseExcelDate rows
      { regionBreak := [], comm := 0, non := 0, never := 0 } 0 rfl
    rw [Nat.zero_add, hfun] at this
    exact this

/-- An instance of the totals on two rows with plain region texts, one of them
unmapped: two meters in total, one unmapped, one installed. -/
theorem computeKpiTotals_two_rows (numberText : JSNum → String) (now : JSNum)
    (parseExcelDate : Cell → Option JSNum) :
    (computeKpiTotals numberText now parseExcelDate
      [[("Region", Cell.str "North")], [("Region Name", Cell.str " UnMapped-7 ")]]).totalMeters
      = Tally.count 2 ∧
    (computeKpiTotals numberText now parseExcelDate
      [[("Region", Cell.str "North")], [("Region Name", Cell.str " UnMapped-7 ")]]).unmapped
      = Tally.count 1 ∧
    (computeKpiTotals numberText now parseExcelDate
      [[("Region", Cell.str "North")], [("Region Name", Cell.str " UnMapped-7 ")]]).installed
      = fin 1 := by
  have k1 : regionKey numberText [("Region", Cell.str "North")] = "North" := rfl
  have k2 : regionKey numberText [("Region Name", Cell.str " UnMapped-7 ")] = "Unmapped" := rfl
  have u1 : regionFieldUnmapped numberText [("Region", Cell.str "North")] = false := rfl
  have u2 : regionFieldUnmapped numberText [("Region Name", Cell.str " UnMapped-7 ")] = true := rfl
  obtain ⟨h1, h2, h3, -⟩ := computeKpiTotals_of_plain_region_names numberText now parseExcelDate
    [[("Region", Cell.str "North")], [("Region Name", Cell.str " UnMapped-7 ")]] (by
      intro row hrow
      simp only [List.mem_cons, List.mem_singleton, List.not_mem_nil, or_false] at hrow
      rcases hrow with rfl | rfl
      · rw [k1]; decide
      · rw [k2]; decide)
  have hlen : ([[("Region", Cell.str "North")], [("Region Name", Cell.str " UnMapped-7 ")]].filter
      (regionFieldUnmapped numberText)).length = 1 := by
    simp [List.filter, u1, u2]
  rw [hlen] at h2 h3
  refine ⟨h1, h2, ?_⟩
  rw [h3]
  norm_num

/-! ## Rounding to binary64 -/

theorem roundHalfEven_mem (x : ℚ) : roundHalfEven x = ⌊x⌋ ∨ roundHalfEven x = ⌊x⌋ + 1 := by
  unfold roundHalfEven
  split_ifs <;> simp

theorem roundHalfEven_close (x : ℚ) : |(roundHalfEven x : ℚ) - x| ≤ 1 / 2 := by
  have h1 := Int.floor_le x
  have h2 := Int.lt_floor_add_one x
  unfold roundHalfEven
  rw [abs_le]
  split_ifs with a b c
  · constructor <;> linarith
  · push_cast
    constructor <;> linarith
  · constructor <;> linarith
  · push_cast
    constructor <;> linarith

theorem roundHalfEven_eq_of_close (x : ℚ) (n : ℤ) (hlo : (n : ℚ) - 1 / 2 < x)
    (hhi : x < (n : ℚ) + 1 / 2) : roundHalfEven x = n := by
  by_cases hx : (n : ℚ) ≤ x
  · have hf : ⌊x⌋ = n := by
      rw [Int.floor_eq_iff]
      constructor <;> linarith
    unfold roundHalfEven
    rw [hf, if_pos (by linarith)]
  · have hf : ⌊x⌋ = n - 1 := by
      rw [Int.floor_eq_iff]
      push_cast
      constructor <;> linarith
    unfold roundHalfEven
    rw [hf, if_neg (by push_cast; linarith), if_pos (by push_cast; linarith)]
    ring

theorem roundHalfEven_nonpos {x : ℚ} (h : x ≤ 0) : roundHalfEven x ≤ 0 := by
  have hc := roundHalfEven_close x
  rw [abs_le] at hc
  have : (roundHalfEven x : ℚ) < 1 := by linarith [hc.2]
  have : roundHalfEven x < 1 := by exact_mod_cast this
  omega

theorem roundHalfEven_nonneg {x : ℚ} (h : 0 ≤ x) : 0 ≤ roundHalfEven x := by
  have hc := roundHalfEven_close x
  rw [abs_le] at hc
  have : (-1 : ℚ) < (roundHalfEven x : ℚ) := by linarith [hc.1]
  have : -1 < roundHalfEven x := by exact_mod_cast this
  omega

theorem roundHalfEven_ge_of_int_le {x : ℚ} {k : ℤ} (h : (k : ℚ) ≤ x) : k ≤ roundHalfEven x := by
  have hk : k ≤ ⌊x⌋ := Int.le_floor.mpr h
  rcases roundHalfEven_mem x with e | e <;> omega

theorem two_zpow_pos (e : ℤ) : (0 : ℚ) < (2 : ℚ) ^ e := zpow_pos (by norm_num) e

theorem binade_eq (q : ℚ) (e : ℤ) (he : -1022 ≤ e) (hlo : (2 : ℚ) ^ e ≤ |q|)
    (hhi : |q| < (2 : ℚ) ^ (e + 1)) : binade q = e := by
  have hpos : (0 : ℚ) < |q| := lt_of_lt_of_le (two_zpow_pos e) hlo
  have h1 : e ≤ Int.log 2 |q| := by
    rw [← Int.zpow_le_iff_le_log (by norm_num) hpos]
    simpa using hlo
  have h2 : Int.log 2 |q| < e + 1 := by
    rw [← Int.lt_zpow_iff_log_lt (by norm_num) hpos]
    simpa using hhi
  unfold binade
  have : Int.log 2 |q| = e := by omega
  rw [this]
  exact max_eq_left he

theorem binade_le_zero (q : ℚ) (h : |q| < 1) : binade q ≤ 0 := by
  unfold binade
  apply max_le _ (by norm_num)
  by_cases hq : q = 0
  · subst hq
    simp
  · have hpos : (0 : ℚ) < |q| := abs_pos.mpr hq
    have h2 : Int.log 2 |q| < 1 := by
      rw [← Int.lt_zpow_iff_log_lt (by norm_num) hpos]
      simp only [Nat.cast_ofNat, zpow_one]
      linarith
    omega

theorem round64_of_binade (q r : ℚ) (e n : ℤ) (he : binade q = e)
    (hn : roundHalfEven (q / (2 : ℚ) ^ (e - 52)) = n) (hr : r = (n : ℚ) * (2 : ℚ) ^ (e - 52))
    (hfin : |r| < (2 : ℚ) ^ (1024 : ℤ)) : round64 q = fin r := by
  unfold round64
  rw [he, hn, ← hr, if_neg (not_le.mpr hfin)]

theorem round64_pos_val (q r : ℚ) (e n : ℤ) (he : -1022 ≤ e) (hlo : (2 : ℚ) ^ e ≤ q)
    (hhi : q < (2 : ℚ) ^ (e + 1)) (hn1 : (n : ℚ) - 1 / 2 < q / (2 : ℚ) ^ (e - 52))
    (hn2 : q / (2 : ℚ) ^ (e - 52) < (n : ℚ) + 1 / 2) (hr : r = (n : ℚ) * (2 : ℚ) ^ (e - 52))
    (hr0 : 0 ≤ r) (hfin : r < (2 : ℚ) ^ (1024 : ℤ)) : round64 q = fin r := by
  have hq : 0 < q := lt_of_lt_of_le (two_zpow_pos e) hlo
  apply round64_of_binade q r e n
  · exact binade_eq q e he (by rwa [abs_of_pos hq]) (by rwa [abs_of_pos hq])
  · exact roundHalfEven_eq_of_close _ _ hn1 hn2
  · exact hr
  · rwa [abs_of_nonneg hr0]

theorem round64_neg_val (q r : ℚ) (e n : ℤ) (he : -1022 ≤ e) (hlo : (2 : ℚ) ^ e ≤ -q)
    (hhi : -q < (2 : ℚ) ^ (e + 1)) (hn1 : (n : ℚ) - 1 / 2 < q / (2 : ℚ) ^ (e - 52))
    (hn2 : q / (2 : ℚ) ^ (e - 52) < (n : ℚ) + 1 / 2) (hr : r = (n : ℚ) * (2 : ℚ) ^ (e - 52))
    (hr0 : r ≤ 0) (hfin : -r < (2 : ℚ) ^ (1024 : ℤ)) : round64 q = fin r := by
  have hq : q < 0 := by
    have := lt_of_lt_of_le (two_zpow_pos e) hlo
    linarith
  apply round64_of_binade q r e n
  · exact binade_eq q e he (by rwa [abs_of_neg hq]) (by rwa [abs_of_neg hq])
  · exact roundHalfEven_eq_of_close _ _ hn1 hn2
  · exact hr
  · rwa [abs_of_nonpos hr0]

theorem round64_zero : round64 0 = fin 0 := by
  have h : roundHalfEven ((0 : ℚ) / (2 : ℚ) ^ (binade 0 - 52)) = 0 := by
    rw [zero_div]
    exact roundHalfEven_eq_of_close 0 0 (by norm_num) (by norm_num)
  unfold round64
  rw [h]
  have hlt : ¬ ((2 : ℚ) ^ (1024 : ℤ) ≤ |((0 : ℤ) : ℚ) * (2 : ℚ) ^ (binade 0 - 52)|) := by
    rw [Int.cast_zero, zero_mul, abs_zero]
    exact not_le.mpr (two_zpow_pos 1024)
  rw [if_neg hlt, Int.cast_zero, zero_mul]

theorem round64_nonpos {q : ℚ} (h : q ≤ 0) :
    round64 q = negInf ∨ ∃ r, round64 q = fin r ∧ r ≤ 0 := by
  unfold round64
  split_ifs with h1 h2
  · exact absurd h2 (not_lt.mpr h)
  · exact Or.inl rfl
  · right
    refine ⟨_, rfl, ?_⟩
    have hx : q / (2 : ℚ) ^ (binade q - 52) ≤ 0 :=
      div_nonpos_of_nonpos_of_nonneg h (two_zpow_pos _).le
    have hn : ((roundHalfEven (q / (2 : ℚ) ^ (binade q - 52)) : ℤ) : ℚ) ≤ 0 := by
      exact_mod_cast roundHalfEven_nonpos hx
    exact mul_nonpos_of_nonpos_of_nonneg hn (two_zpow_pos _).le

theorem round64_nonneg {q : ℚ} (h : 0 ≤ q) :
    round64 q = posInf ∨ ∃ r, round64 q = fin r ∧ 0 ≤ r := by
  unfold round64
  split_ifs with h1 h2
  · exact Or.inl rfl
  · exfalso
    have hq : q = 0 := le_antisymm (not_lt.mp h2) h
    subst hq
    have hn : roundHalfEven ((0 : ℚ) / (2 : ℚ) ^ (binade 0 - 52)) = 0 := by
      rw [zero_div]
      exact roundHalfEven_eq_of_close 0 0 (by norm_num) (by norm_num)
    rw [hn, Int.cast_zero, zero_mul, abs_zero] at h1
    exact absurd h1 (not_le.mpr (two_zpow_pos 1024))
  · right
    refine ⟨_, rfl, ?_⟩
    have hx : 0 ≤ q / (2 : ℚ) ^ (binade q - 52) := div_nonneg h (two_zpow_pos _).le
    have hn : (0 : ℚ) ≤ ((roundHalfEven (q / (2 : ℚ) ^ (binade q - 52)) : ℤ) : ℚ) := by
      exact_mod_cast roundHalfEven_nonneg hx
    exact mul_nonneg hn (two_zpow_pos _).le

theorem round64_small {q : ℚ} (h : |q| ≤ 4 / 1000) : ∃ r, round64 q = fin r ∧ |r| < 1 / 200 := by
  have he : binade q ≤ 0 := binade_le_zero q (by linarith)
  have hu : (2 : ℚ) ^ (binade q - 52) ≤ (2 : ℚ) ^ (-52 : ℤ) :=
    zpow_le_zpow_right₀ (by norm_num) (by omega)
  have hupos := two_zpow_pos (binade q - 52)
  have hc := roundHalfEven_close (q / (2 : ℚ) ^ (binade q - 52))
  have herr : |(roundHalfEven (q / (2 : ℚ) ^ (binade q - 52)) : ℚ) * (2 : ℚ) ^ (binade q - 52) - q|
      ≤ (2 : ℚ) ^ (binade q - 52) / 2 := by
    have e : (roundHalfEven (q / (2 : ℚ) ^ (binade q - 52)) : ℚ) * (2 : ℚ) ^ (binade q - 52) - q
        = ((roundHalfEven (q / (2 : ℚ) ^ (binade q - 52)) : ℚ) - q / (2 : ℚ) ^ (binade q - 52))
          * (2 : ℚ) ^ (binade q - 52) := by
      field_simp
    rw [e, abs_mul, abs_of_pos hupos]
    have := mul_le_mul_of_nonneg_right hc hupos.le
    linarith
  have h52 : (2 : ℚ) ^ (-52 : ℤ) < 1 / 1000 := by norm_num
  have hu2 : (2 : ℚ) ^ (binade q - 52) < 1 / 1000 := lt_of_le_of_lt hu h52
  have hr : |(roundHalfEven (q / (2 : ℚ) ^ (binade q - 52)) : ℚ) * (2 : ℚ) ^ (binade q - 52)|
      < 1 / 200 := by
    rw [abs_lt]
    rw [abs_le] at herr h
    obtain ⟨e1, e2⟩ := herr
    obtain ⟨q1, q2⟩ := h
    constructor
    · linarith
    · linarith
  refine ⟨_, ?_, hr⟩
  unfold round64
  rw [if_neg]
  have h1024 : (1 : ℚ) ≤ (2 : ℚ) ^ (1024 : ℤ) := one_le_zpow₀ (by norm_num) (by norm_num)
  intro hcon
  linarith

theorem pow52_mul (e : ℤ) :
    (((2 : ℤ) ^ (52 : ℕ) : ℤ) : ℚ) * (2 : ℚ) ^ (e - 52) = (2 : ℚ) ^ e := by
  have h : (2 : ℚ) ^ e = (2 : ℚ) ^ (e - 52) * (2 : ℚ) ^ (52 : ℤ) := by
    rw [← zpow_add₀ (by norm_num : (2 : ℚ) ≠ 0)]
    congr 1
    ring
  rw [h]
  push_cast
  norm_num
  ring

theorem round64_overflow {q : ℚ} (h : (2 : ℚ) ^ (1024 : ℤ) ≤ q) : round64 q = posInf := by
  have hq : 0 < q := lt_of_lt_of_le (two_zpow_pos 1024) h
  have habs : |q| = q := abs_of_pos hq
  have hlog : (1024 : ℤ) ≤ Int.log 2 |q| := by
    rw [← Int.zpow_le_iff_le_log (by norm_num) (by rw [habs]; exact hq), habs]
    simpa using h
  have hb : binade q = Int.log 2 |q| := max_eq_left (by omega)
  have hself : (2 : ℚ) ^ (binade q) ≤ q := by
    rw [hb]
    have h3 : ((2 : ℕ) : ℚ) ^ Int.log 2 |q| ≤ |q| :=
      Int.zpow_log_le_self (by norm_num) (by rw [habs]; exact hq)
    have h4 : (2 : ℚ) ^ Int.log 2 |q| ≤ |q| := by
      rw [Nat.cast_ofNat] at h3
      exact h3
    exact le_of_le_of_eq h4 habs
  have hupos := two_zpow_pos (binade q - 52)
  have hx : (((2 : ℤ) ^ (52 : ℕ) : ℤ) : ℚ) ≤ q / (2 : ℚ) ^ (binade q - 52) := by
    rw [le_div_iff₀ hupos]
    rw [pow52_mul]
    exact hself
  have hn := roundHalfEven_ge_of_int_le hx
  have hn' : (((2 : ℤ) ^ (52 : ℕ) : ℤ) : ℚ)
      ≤ (roundHalfEven (q / (2 : ℚ) ^ (binade q - 52)) : ℚ) := by exact_mod_cast hn
  have hr : (2 : ℚ) ^ (1024 : ℤ)
      ≤ (roundHalfEven (q / (2 : ℚ) ^ (binade q - 52)) : ℚ) * (2 : ℚ) ^ (binade q - 52) := by
    have h1 := mul_le_mul_of_nonneg_right hn' hupos.le
    rw [pow52_mul] at h1
    have h2 : (2 : ℚ) ^ (1024 : ℤ) ≤ (2 : ℚ) ^ (binade q) :=
      zpow_le_zpow_right₀ (by norm_num) (by rw [hb]; exact hlog)
    linarith
  unfold round64
  rw [if_pos (le_trans hr (le_abs_self _)), if_pos hq]

theorem round2_small {x : ℚ} (h : |x| < 1 / 200) : round2 x = 0 := by
  rw [abs_lt] at h
  unfold round2
  split_ifs with hneg
  · have : ⌊-x * 100 + 1 / 2⌋ = 0 := by
      rw [Int.floor_eq_iff]
      constructor <;> push_cast <;> linarith [h.1, h.2]
    rw [this]
    simp
  · have : ⌊x * 100 + 1 / 2⌋ = 0 := by
      rw [Int.floor_eq_iff]
      constructor <;> push_cast <;> linarith [h.1, h.2]
    rw [this]
    simp

theorem toFixed64_form (x : JSNum) :
    (toFixed64 x).isFinite = false ∨ ∃ n : ℤ, toFixed64 x = round64 ((n : ℚ) / 100) := by
  cases x with
  | fin a =>
      right
      obtain ⟨n, hn, -⟩ := round2_cases a
      exact ⟨n, by simp only [toFixed64, toFixed2, JSNum.rounded, hn]⟩
  | nan => left; rfl
  | posInf => left; rfl
  | negInf => left; rfl

theorem fin_ne_zero {U : ℚ} (hU : U ≠ 0) : (fin U : JSNum) ≠ fin 0 := by
  intro h
  injection h with h
  exact hU h

theorem lossOrNull64_eval (U D d1 d2 d3 x4 d5 : ℚ) (hU : U ≠ 0)
    (h1 : round64 (U - D) = fin d1) (h2 : round64 (d1 / U) = fin d2)
    (h3 : round64 (d2 * 100) = fin d3) (h4 : round2 d3 = x4) (h5 : round64 x4 = fin d5) :
    Binary64.lossOrNull (some (fin U)) (some (fin D)) = some (fin d5) := by
  simp only [Binary64.lossOrNull, if_neg (fin_ne_zero hU), Option.getD_some, JSNum.sub,
    JSNum.rounded, h1, JSNum.div, if_neg hU, h2, JSNum.mul, h3, toFixed64, toFixed2, h4, h5]

theorem pctLoss_eval (U D d1 d2 d3 x4 d5 : ℚ) (hU : U ≠ 0)
    (h1 : round64 (U - D) = fin d1) (h2 : round64 (d1 / U) = fin d2)
    (h3 : round64 (d2 * 100) = fin d3) (h4 : round2 d3 = x4) (h5 : round64 x4 = fin d5) :
    pctLoss (fin U) (fin D) = fin d5 := by
  have hT : (fin U : JSNum).truthy = true := by simp [JSNum.truthy, hU]
  simp only [pctLoss, hT, Bool.not_true, Bool.false_eq_true, if_false, JSNum.sub,
    JSNum.rounded, h1, JSNum.div, if_neg hU, h2, JSNum.mul, h3, toFixed64, toFixed2, h4, h5]

theorem pct_eval (P W d1 d2 x3 d4 : ℚ) (hW : W ≠ 0)
    (h1 : round64 (P / W) = fin d1) (h2 : round64 (d1 * 100) = fin d2)
    (h3 : round2 d2 = x3) (h4 : round64 x3 = fin d4) : pct (fin P) (fin W) = fin d4 := by
  have hT : (fin W : JSNum).truthy = true := by simp [JSNum.truthy, hW]
  simp only [pct, hT, Bool.not_true, Bool.false_eq_true, if_false, JSNum.rounded, JSNum.div,
    if_neg hW, h1, JSNum.mul, h2, toFixed64, toFixed2, h3, h4]

theorem diffEnergy64_eval (a b m d1 x2 d3 base d5 x6 d7 : ℚ)
    (h1 : round64 (b - a) = fin d1) (h2 : round2 d1 = x2) (h3 : round64 x2 = fin d3)
    (h4 : max 0 d3 = base) (h5 : round64 (base * m) = fin d5) (h6 : round2 d5 = x6)
    (h7 : round64 x6 = fin d7) :
    Binary64.diffEnergy (some (fin a)) (some (fin b)) (fin m) = some (fin d7) := by
  simp only [Binary64.diffEnergy, Binary64.computeEnergy, JSNum.sub, JSNum.rounded, h1,
    JSNum.isFinite, if_true, toFixed64, toFixed2, h2, h3, JSNum.max0, h4, JSNum.mul, h5, h6, h7]

theorem diffEnergy64_eval_overflow (a b m d1 x2 d3 base : ℚ)
    (h1 : round64 (b - a) = fin d1) (h2 : round2 d1 = x2) (h3 : round64 x2 = fin d3)
    (h4 : max 0 d3 = base) (h5 : round64 (base * m) = posInf) :
    Binary64.diffEnergy (some (fin a)) (some (fin b)) (fin m) = some posInf := by
  simp only [Binary64.diffEnergy, Binary64.computeEnergy, JSNum.sub, JSNum.rounded, h1,
    JSNum.isFinite, if_true, toFixed64, toFixed2, h2, h3, JSNum.max0, h4, JSNum.mul, h5]

theorem diffEnergy64_eval_null (a b : ℚ) (mf : JSNum) (h1 : round64 (b - a) = posInf) :
    Binary64.diffEnergy (some (fin a)) (some (fin b)) mf = none := by
  simp only [Binary64.diffEnergy, Binary64.computeEnergy, JSNum.sub, JSNum.rounded, h1,
    JSNum.isFinite, Bool.false_eq_true, if_false]

/-! ## Values in binary64 arithmetic -/

theorem lossOrNull64_4000_3997 :
    Binary64.lossOrNull (some (fin 4000)) (some (fin 3997))
        = some (fin (1261007895663739 / 18014398509481984)) := by
  have hU0 : (4000 : ℚ) ≠ 0 := by norm_num
  have h1 : round64 (4000 - 3997) = fin 3 :=
    round64_pos_val _ _ 1 6755399441055744
      (by norm_num) (by norm_num) (by norm_num) (by norm_num)
      (by norm_num) (by norm_num) (by norm_num) (by norm_num)
  have h2 : round64 (3 / 4000) = fin (3458764513820541 / 4611686018427387904) :=
    round64_pos_val _ _ (-11) 6917529027641082
      (by norm_num) (by norm_num) (by norm_num) (by norm_num)
      (by norm_num) (by norm_num) (by norm_num) (by norm_num)
  have h3 : round64 ((3458764513820541 / 4611686018427387904) * 100)
      = fin (5404319552844595 / 72057594037927936) :=
    round64_pos_val _ _ (-4) 5404319552844595
      (by norm_num) (by norm_num) (by norm_num) (by norm_num)
      (by norm_num) (by norm_num) (by norm_num) (by norm_num)
  have h4 : round2 (5404319552844595 / 72057594037927936) = (7 / 100) := by norm_num [round2]
  have h5 : round64 ((7 / 100)) = fin (1261007895663739 / 18014398509481984) :=
    round64_pos_val _ _ (-4) 5044031582654956
      (by norm_num) (by norm_num) (by norm_num) (by norm_num)
      (by norm_num) (by norm_num) (by norm_num) (by norm_num)
  exact lossOrNull64_eval _ _ _ _ _ _ _ hU0 h1 h2 h3 h4 h5

theorem lossOrNull64_1000_950 :
    Binary64.lossOrNull (some (fin 1000)) (some (fin 950)) = some (fin 5) := by
  have hU0 : (1000 : ℚ) ≠ 0 := by norm_num
  have h1 : round64 (1000 - 950) = fin 50 :=
    round64_pos_val _ _ 5 7036874417766400
      (by norm_num) (by norm_num) (by norm_num) (by norm_num)
      (by norm_num) (by norm_num) (by norm_num) (by norm_num)
  have h2 : round64 (50 / 1000) = fin (3602879701896397 / 72057594037927936) :=
    round64_pos_val _ _ (-5) 7205759403792794
      (by norm_num) (by norm_num) (by norm_num) (by norm_num)
      (by norm_num) (by norm_num) (by norm_num) (by norm_num)
  have h3 : round64 ((3602879701896397 / 72057594037927936) * 100) = fin 5 :=
    round64_pos_val _ _ 2 5629499534213120
      (by norm_num) (by norm_num) (by norm_num) (by norm_num)
      (by norm_num) (by norm_num) (by norm_num) (by norm_num)
  have h4 : round2 5 = 5 := by norm_num [round2]
  have h5 : round64 (5) = fin 5 :=
    round64_pos_val _ _ 2 5629499534213120
      (by norm_num) (by norm_num) (by norm_num) (by norm_num)
      (by norm_num) (by norm_num) (by norm_num) (by norm_num)
  exact lossOrNull64_eval _ _ _ _ _ _ _ hU0 h1 h2 h3 h4 h5

theorem lossOrNull64_1000_1200 :
    Binary64.lossOrNull (some (fin 1000)) (some (fin 1200)) = some (fin (-20)) := by
  have hU0 : (1000 : ℚ) ≠ 0 := by norm_num
  have h1 : round64 (1000 - 1200) = fin (-200) :=
    round64_neg_val _ _ 7 (-7036874417766400)
      (by norm_num) (by norm_num) (by norm_num) (by norm_num)
      (by norm_num) (by norm_num) (by norm_num) (by norm_num)
  have h2 : round64 ((-200) / 1000) = fin (-3602879701896397 / 18014398509481984) :=
    round64_neg_val _ _ (-3) (-7205759403792794)
      (by norm_num) (by norm_num) (by norm_num) (by norm_num)
      (by norm_num) (by norm_num) (by norm_num) (by norm_num)
  have h3 : round64 ((-3602879701896397 / 18014398509481984) * 100) = fin (-20) :=
    round64_neg_val _ _ 4 (-5629499534213120)
      (by norm_num) (by norm_num) (by norm_num) (by norm_num)
      (by norm_num) (by norm_num) (by norm_num) (by norm_num)
  have h4 : round2 (-20) = (-20) := by norm_num [round2]
  have h5 : round64 ((-20)) = fin (-20) :=
    round64_neg_val _ _ 4 (-5629499534213120)
      (by norm_num) (by norm_num) (by norm_num) (by norm_num)
      (by norm_num) (by norm_num) (by norm_num) (by norm_num)
  exact lossOrNull64_eval _ _ _ _ _ _ _ hU0 h1 h2 h3 h4 h5

theorem lossOrNull64_100000_100001 :
    Binary64.lossOrNull (some (fin 100000)) (some (fin 100001)) = some (fin 0) := by
  have hU0 : (100000 : ℚ) ≠ 0 := by norm_num
  have h1 : round64 (100000 - 100001) = fin (-1) :=
    round64_neg_val _ _ 0 (-4503599627370496)
      (by norm_num) (by norm_num) (by norm_num) (by norm_num)
      (by norm_num) (by norm_num) (by norm_num) (by norm_num)
  have h2 : round64 ((-1) / 100000) = fin (-5902958103587057 / 590295810358705651712) :=
    round64_neg_val _ _ (-17) (-5902958103587057)
      (by norm_num) (by norm_num) (by norm_num) (by norm_num)
      (by norm_num) (by norm_num) (by norm_num) (by norm_num)
  have h3 : round64 ((-5902958103587057 / 590295810358705651712) * 100)
      = fin (-1152921504606847 / 1152921504606846976) :=
    round64_neg_val _ _ (-10) (-4611686018427388)
      (by norm_num) (by norm_num) (by norm_num) (by norm_num)
      (by norm_num) (by norm_num) (by norm_num) (by norm_num)
  have h4 : round2 (-1152921504606847 / 1152921504606846976) = 0 := by norm_num [round2]
  have h5 : round64 (0) = fin 0 := by
    rw [show (0 : ℚ) = 0 by norm_num]
    exact round64_zero
  exact lossOrNull64_eval _ _ _ _ _ _ _ hU0 h1 h2 h3 h4 h5

theorem lossOrNull64_3_2 :
    Binary64.lossOrNull (some (fin 3)) (some (fin 2))
        = some (fin (2345390243441541 / 70368744177664)) := by
  have hU0 : (3 : ℚ) ≠ 0 := by norm_num
  have h1 : round64 (3 - 2) = fin 1 :=
    round64_pos_val _ _ 0 4503599627370496
      (by norm_num) (by norm_num) (by norm_num) (by norm_num)
      (by norm_num) (by norm_num) (by norm_num) (by norm_num)
  have h2 : round64 (1 / 3) = fin (6004799503160661 / 18014398509481984) :=
    round64_pos_val _ _ (-2) 6004799503160661
      (by norm_num) (by norm_num) (by norm_num) (by norm_num)
      (by norm_num) (by norm_num) (by norm_num) (by norm_num)
  have h3 : round64 ((6004799503160661 / 18014398509481984) * 100)
      = fin (2345624805922133 / 70368744177664) :=
    round64_pos_val _ _ 5 4691249611844266
      (by norm_num) (by norm_num) (by norm_num) (by norm_num)
      (by norm_num) (by norm_num) (by norm_num) (by norm_num)
  have h4 : round2 (2345624805922133 / 70368744177664) = (3333 / 100) := by norm_num [round2]
  have h5 : round64 ((3333 / 100)) = fin (2345390243441541 / 70368744177664) :=
    round64_pos_val _ _ 5 4690780486883082
      (by norm_num) (by norm_num) (by norm_num) (by norm_num)
      (by norm_num) (by norm_num) (by norm_num) (by norm_num)
  exact lossOrNull64_eval _ _ _ _ _ _ _ hU0 h1 h2 h3 h4 h5

theorem lossOrNull64_100_50 :
    Binary64.lossOrNull (some (fin 100)) (some (fin 50)) = some (fin 50) := by
  have hU0 : (100 : ℚ) ≠ 0 := by norm_num
  have h1 : round64 (100 - 50) = fin 50 :=
    round64_pos_val _ _ 5 7036874417766400
      (by norm_num) (by norm_num) (by norm_num) (by norm_num)
      (by norm_num) (by norm_num) (by norm_num) (by norm_num)
  have h2 : round64 (50 / 100) = fin (1 / 2) :=
    round64_pos_val _ _ (-1) 4503599627370496
      (by norm_num) (by norm_num) (by norm_num) (by norm_num)
      (by norm_num) (by norm_num) (by norm_num) (by norm_num)
  have h3 : round64 ((1 / 2) * 100) = fin 50 :=
    round64_pos_val _ _ 5 7036874417766400
      (by norm_num) (by norm_num) (by norm_num) (by norm_num)
      (by norm_num) (by norm_num) (by norm_num) (by norm_num)
  have h4 : round2 50 = 50 := by norm_num [round2]
  have h5 : round64 (50) = fin 50 :=
    round64_pos_val _ _ 5 7036874417766400
      (by norm_num) (by norm_num) (by norm_num) (by norm_num)
      (by norm_num) (by norm_num) (by norm_num) (by norm_num)
  exact lossOrNull64_eval _ _ _ _ _ _ _ hU0 h1 h2 h3 h4 h5

theorem lossOrNull64_100_30 :
    Binary64.lossOrNull (some (fin 100)) (some (fin 30)) = some (fin 70) := by
  have hU0 : (100 : ℚ) ≠ 0 := by norm_num
  have h1 : round64 (100 - 30) = fin 70 :=
    round64_pos_val _ _ 6 4925812092436480
      (by norm_num) (by norm_num) (by norm_num) (by norm_num)
      (by norm_num) (by norm_num) (by norm_num) (by norm_num)
  have h2 : round64 (70 / 100) = fin (3152519739159347 / 4503599627370496) :=
    round64_pos_val _ _ (-1) 6305039478318694
      (by norm_num) (by norm_num) (by norm_num) (by norm_num)
      (by norm_num) (by norm_num) (by norm_num) (by norm_num)
  have h3 : round64 ((3152519739159347 / 4503599627370496) * 100) = fin 70 :=
    round64_pos_val _ _ 6 4925812092436480
      (by norm_num) (by norm_num) (by norm_num) (by norm_num)
      (by norm_num) (by norm_num) (by norm_num) (by norm_num)
  have h4 : round2 70 = 70 := by norm_num [round2]
  have h5 : round64 (70) = fin 70 :=
    round64_pos_val _ _ 6 4925812092436480
      (by norm_num) (by norm_num) (by norm_num) (by norm_num)
      (by norm_num) (by norm_num) (by norm_num) (by norm_num)
  exact lossOrNull64_eval _ _ _ _ _ _ _ hU0 h1 h2 h3 h4 h5

theorem pct_3_10 : pct (fin 3) (fin 10) = fin 30 := by
  have hU0 : (10 : ℚ) ≠ 0 := by norm_num
  have h1 : round64 (3 / 10) = fin (5404319552844595 / 18014398509481984) :=
    round64_pos_val _ _ (-2) 5404319552844595
      (by norm_num) (by norm_num) (by norm_num) (by norm_num)
      (by norm_num) (by norm_num) (by norm_num) (by norm_num)
  have h2 : round64 ((5404319552844595 / 18014398509481984) * 100) = fin 30 :=
    round64_pos_val _ _ 4 8444249301319680
      (by norm_num) (by norm_num) (by norm_num) (by norm_num)
      (by norm_num) (by norm_num) (by norm_num) (by norm_num)
  have h3 : round2 30 = 30 := by norm_num [round2]
  have h4 : round64 (30) = fin 30 :=
    round64_pos_val _ _ 4 8444249301319680
      (by norm_num) (by norm_num) (by norm_num) (by norm_num)
      (by norm_num) (by norm_num) (by norm_num) (by norm_num)
  exact pct_eval _ _ _ _ _ _ hU0 h1 h2 h3 h4

theorem pct_3_4000 : pct (fin 3) (fin 4000) = fin (1261007895663739 / 18014398509481984) := by
  have hU0 : (4000 : ℚ) ≠ 0 := by norm_num
  have h1 : round64 (3 / 4000) = fin (3458764513820541 / 4611686018427387904) :=
    round64_pos_val _ _ (-11) 6917529027641082
      (by norm_num) (by norm_num) (by norm_num) (by norm_num)
      (by norm_num) (by norm_num) (by norm_num) (by norm_num)
  have h2 : round64 ((3458764513820541 / 4611686018427387904) * 100)
      = fin (5404319552844595 / 72057594037927936) :=
    round64_pos_val _ _ (-4) 5404319552844595
      (by norm_num) (by norm_num) (by norm_num) (by norm_num)
      (by norm_num) (by norm_num) (by norm_num) (by norm_num)
  have h3 : round2 (5404319552844595 / 72057594037927936) = (7 / 100) := by norm_num [round2]
  have h4 : round64 ((7 / 100)) = fin (1261007895663739 / 18014398509481984) :=
    round64_pos_val _ _ (-4) 5044031582654956
      (by norm_num) (by norm_num) (by norm_num) (by norm_num)
      (by norm_num) (by norm_num) (by norm_num) (by norm_num)
  exact pct_eval _ _ _ _ _ _ hU0 h1 h2 h3 h4

theorem pctLoss_160_63 : pctLoss (fin 160) (fin 63) = fin (8531506544099983 / 140737488355328) := by
  have hU0 : (160 : ℚ) ≠ 0 := by norm_num
  have h1 : round64 (160 - 63) = fin 97 :=
    round64_pos_val _ _ 6 6825768185233408
      (by norm_num) (by norm_num) (by norm_num) (by norm_num)
      (by norm_num) (by norm_num) (by norm_num) (by norm_num)
  have h2 : round64 (97 / 160) = fin (2730307274093363 / 4503599627370496) :=
    round64_pos_val _ _ (-1) 5460614548186726
      (by norm_num) (by norm_num) (by norm_num) (by norm_num)
      (by norm_num) (by norm_num) (by norm_num) (by norm_num)
  have h3 : round64 ((2730307274093363 / 4503599627370496) * 100)
      = fin (8532210231541759 / 140737488355328) :=
    round64_pos_val _ _ 5 8532210231541759
      (by norm_num) (by norm_num) (by norm_num) (by norm_num)
      (by norm_num) (by norm_num) (by norm_num) (by norm_num)
  have h4 : round2 (8532210231541759 / 140737488355328) = (3031 / 50) := by norm_num [round2]
  have h5 : round64 ((3031 / 50)) = fin (8531506544099983 / 140737488355328) :=
    round64_pos_val _ _ 5 8531506544099983
      (by norm_num) (by norm_num) (by norm_num) (by norm_num)
      (by norm_num) (by norm_num) (by norm_num) (by norm_num)
  exact pctLoss_eval _ _ _ _ _ _ _ hU0 h1 h2 h3 h4 h5

theorem diffEnergy64_003_half :
    Binary64.diffEnergy (some (fin 0)) (some (fin (3 / 100))) (fin (1 / 2))
      = some (fin (5764607523034235 / 576460752303423488)) := by
  have h1 : round64 ((3 / 100) - 0) = fin (1080863910568919 / 36028797018963968) :=
    round64_pos_val _ _ (-6) 8646911284551352
      (by norm_num) (by norm_num) (by norm_num) (by norm_num)
      (by norm_num) (by norm_num) (by norm_num) (by norm_num)
  have h2 : round2 (1080863910568919 / 36028797018963968) = (3 / 100) := by norm_num [round2]
  have h3 : round64 ((3 / 100)) = fin (1080863910568919 / 36028797018963968) :=
    round64_pos_val _ _ (-6) 8646911284551352
      (by norm_num) (by norm_num) (by norm_num) (by norm_num)
      (by norm_num) (by norm_num) (by norm_num) (by norm_num)
  have h4 : max (0 : ℚ) (1080863910568919 / 36028797018963968)
      = (1080863910568919 / 36028797018963968) := by norm_num
  have h5 : round64 ((1080863910568919 / 36028797018963968) * (1 / 2))
      = fin (1080863910568919 / 72057594037927936) :=
    round64_pos_val _ _ (-7) 8646911284551352
      (by norm_num) (by norm_num) (by norm_num) (by norm_num)
      (by norm_num) (by norm_num) (by norm_num) (by norm_num)
  have h6 : round2 (1080863910568919 / 72057594037927936) = (1 / 100) := by norm_num [round2]
  have h7 : round64 ((1 / 100)) = fin (5764607523034235 / 576460752303423488) :=
    round64_pos_val _ _ (-7) 5764607523034235
      (by norm_num) (by norm_num) (by norm_num) (by norm_num)
      (by norm_num) (by norm_num) (by norm_num) (by norm_num)
  exact diffEnergy64_eval _ _ _ _ _ _ _ _ _ _ h1 h2 h3 h4 h5 h6 h7

theorem diffEnergy64_125_35_2 :
    Binary64.diffEnergy (some (fin (5 / 4))) (some (fin (7 / 2))) (fin 2)
      = some (fin (9 / 2)) := by
  have h1 : round64 ((7 / 2) - (5 / 4)) = fin (9 / 4) :=
    round64_pos_val _ _ 1 5066549580791808
      (by norm_num) (by norm_num) (by norm_num) (by norm_num)
      (by norm_num) (by norm_num) (by norm_num) (by norm_num)
  have h2 : round2 (9 / 4) = (9 / 4) := by norm_num [round2]
  have h3 : round64 ((9 / 4)) = fin (9 / 4) :=
    round64_pos_val _ _ 1 5066549580791808
      (by norm_num) (by norm_num) (by norm_num) (by norm_num)
      (by norm_num) (by norm_num) (by norm_num) (by norm_num)
  have h4 : max (0 : ℚ) (9 / 4) = (9 / 4) := by norm_num
  have h5 : round64 ((9 / 4) * 2) = fin (9 / 2) :=
    round64_pos_val _ _ 2 5066549580791808
      (by norm_num) (by norm_num) (by norm_num) (by norm_num)
      (by norm_num) (by norm_num) (by norm_num) (by norm_num)
  have h6 : round2 (9 / 2) = (9 / 2) := by norm_num [round2]
  have h7 : round64 ((9 / 2)) = fin (9 / 2) :=
    round64_pos_val _ _ 2 5066549580791808
      (by norm_num) (by norm_num) (by norm_num) (by norm_num)
      (by norm_num) (by norm_num) (by norm_num) (by norm_num)
  exact diffEnergy64_eval _ _ _ _ _ _ _ _ _ _ h1 h2 h3 h4 h5 h6 h7

theorem diffEnergy64_0_100_1 :
    Binary64.diffEnergy (some (fin 0)) (some (fin 100)) (fin 1)
      = some (fin 100) := by
  have h1 : round64 (100 - 0) = fin 100 :=
    round64_pos_val _ _ 6 7036874417766400
      (by norm_num) (by norm_num) (by norm_num) (by norm_num)
      (by norm_num) (by norm_num) (by norm_num) (by norm_num)
  have h2 : round2 100 = 100 := by norm_num [round2]
  have h3 : round64 (100) = fin 100 :=
    round64_pos_val _ _ 6 7036874417766400
      (by norm_num) (by norm_num) (by norm_num) (by norm_num)
      (by norm_num) (by norm_num) (by norm_num) (by norm_num)
  have h4 : max (0 : ℚ) 100 = 100 := by norm_num
  have h5 : round64 (100 * 1) = fin 100 :=
    round64_pos_val _ _ 6 7036874417766400
      (by norm_num) (by norm_num) (by norm_num) (by norm_num)
      (by norm_num) (by norm_num) (by norm_num) (by norm_num)
  have h6 : round2 100 = 100 := by norm_num [round2]
  have h7 : round64 (100) = fin 100 :=
    round64_pos_val _ _ 6 7036874417766400
      (by norm_num) (by norm_num) (by norm_num) (by norm_num)
      (by norm_num) (by norm_num) (by norm_num) (by norm_num)
  exact diffEnergy64_eval _ _ _ _ _ _ _ _ _ _ h1 h2 h3 h4 h5 h6 h7

theorem diffEnergy64_0_30_1 :
    Binary64.diffEnergy (some (fin 0)) (some (fin 30)) (fin 1)
      = some (fin 30) := by
  have h1 : round64 (30 - 0) = fin 30 :=
    round64_pos_val _ _ 4 8444249301319680
      (by norm_num) (by norm_num) (by norm_num) (by norm_num)
      (by norm_num) (by norm_num) (by norm_num) (by norm_num)
  have h2 : round2 30 = 30 := by norm_num [round2]
  have h3 : round64 (30) = fin 30 :=
    round64_pos_val _ _ 4 8444249301319680
      (by norm_num) (by norm_num) (by norm_num) (by norm_num)
      (by norm_num) (by norm_num) (by norm_num) (by norm_num)
  have h4 : max (0 : ℚ) 30 = 30 := by norm_num
  have h5 : round64 (30 * 1) = fin 30 :=
    round64_pos_val _ _ 4 8444249301319680
      (by norm_num) (by norm_num) (by norm_num) (by norm_num)
      (by norm_num) (by norm_num) (by norm_num) (by norm_num)
  have h6 : round2 30 = 30 := by norm_num [round2]
  have h7 : round64 (30) = fin 30 :=
    round64_pos_val _ _ 4 8444249301319680
      (by norm_num) (by norm_num) (by norm_num) (by norm_num)
      (by norm_num) (by norm_num) (by norm_num) (by norm_num)
  exact diffEnergy64_eval _ _ _ _ _ _ _ _ _ _ h1 h2 h3 h4 h5 h6 h7

theorem diffEnergy64_0_20_1 :
    Binary64.diffEnergy (some (fin 0)) (some (fin 20)) (fin 1)
      = some (fin 20) := by
  have h1 : round64 (20 - 0) = fin 20 :=
    round64_pos_val _ _ 4 5629499534213120
      (by norm_num) (by norm_num) (by norm_num) (by norm_num)
      (by norm_num) (by norm_num) (by norm_num) (by norm_num)
  have h2 : round2 20 = 20 := by norm_num [round2]
  have h3 : round64 (20) = fin 20 :=
    round64_pos_val _ _ 4 5629499534213120
      (by norm_num) (by norm_num) (by norm_num) (by norm_num)
      (by norm_num) (by norm_num) (by norm_num) (by norm_num)
  have h4 : max (0 : ℚ) 20 = 20 := by norm_num
  have h5 : round64 (20 * 1) = fin 20 :=
    round64_pos_val _ _ 4 5629499534213120
      (by norm_num) (by norm_num) (by norm_num) (by norm_num)
      (by norm_num) (by norm_num) (by norm_num) (by norm_num)
  have h6 : round2 20 = 20 := by norm_num [round2]
  have h7 : round64 (20) = fin 20 :=
    round64_pos_val _ _ 4 5629499534213120
      (by norm_num) (by norm_num) (by norm_num) (by norm_num)
      (by norm_num) (by norm_num) (by norm_num) (by norm_num)
  exact diffEnergy64_eval _ _ _ _ _ _ _ _ _ _ h1 h2 h3 h4 h5 h6 h7

theorem round64_7_100 : round64 (7 / 100) = fin (1261007895663739 / 18014398509481984) :=
  round64_pos_val _ _ (-4) 5044031582654956
      (by norm_num) (by norm_num) (by norm_num) (by norm_num)
      (by norm_num) (by norm_num) (by norm_num) (by norm_num)

theorem round64_8_100 : round64 (8 / 100) = fin (5764607523034235 / 72057594037927936) :=
  round64_pos_val _ _ (-4) 5764607523034235
      (by norm_num) (by norm_num) (by norm_num) (by norm_num)
      (by norm_num) (by norm_num) (by norm_num) (by norm_num)

theorem round64_1_100 : round64 (1 / 100) = fin (5764607523034235 / 576460752303423488) :=
  round64_pos_val _ _ (-7) 5764607523034235
      (by norm_num) (by norm_num) (by norm_num) (by norm_num)
      (by norm_num) (by norm_num) (by norm_num) (by norm_num)

theorem round64_3333_100 : round64 (3333 / 100) = fin (2345390243441541 / 70368744177664) :=
  round64_pos_val _ _ 5 4690780486883082
      (by norm_num) (by norm_num) (by norm_num) (by norm_num)
      (by norm_num) (by norm_num) (by norm_num) (by norm_num)

theorem round64_6062_100 : round64 (6062 / 100) = fin (8531506544099983 / 140737488355328) :=
  round64_pos_val _ _ 5 8531506544099983
      (by norm_num) (by norm_num) (by norm_num) (by norm_num)
      (by norm_num) (by norm_num) (by norm_num) (by norm_num)

theorem round64_6063_100 : round64 (6063 / 100) = fin (8532913918983537 / 140737488355328) :=
  round64_pos_val _ _ 5 8532913918983537
      (by norm_num) (by norm_num) (by norm_num) (by norm_num)
      (by norm_num) (by norm_num) (by norm_num) (by norm_num)

theorem round64_30 : round64 30 = fin 30 :=
  round64_pos_val _ _ 4 8444249301319680
      (by norm_num) (by norm_num) (by norm_num) (by norm_num)
      (by norm_num) (by norm_num) (by norm_num) (by norm_num)

theorem round64_50 : round64 50 = fin 50 :=
  round64_pos_val _ _ 5 7036874417766400
      (by norm_num) (by norm_num) (by norm_num) (by norm_num)
      (by norm_num) (by norm_num) (by norm_num) (by norm_num)

theorem round64_100 : round64 100 = fin 100 :=
  round64_pos_val _ _ 6 7036874417766400
      (by norm_num) (by norm_num) (by norm_num) (by norm_num)
      (by norm_num) (by norm_num) (by norm_num) (by norm_num)

theorem diffEnergy64_overflow :
    Binary64.diffEnergy (some (fin 0)) (some (fin (10 ^ 308))) (fin 10) = some posInf := by
  have h1 : round64 (10 ^ 308 - 0) = fin 100000000000000001097906362944045541740492309677311846336810682903157585404911491537163328978494688899061249669721172515611590283743140088328307009198146046031271664502933027185697489699588559043338384466165001178426897626212945177628091195786707458122783970171784415105291802893207873272974885715430223118336 :=
    round64_pos_val _ _ 1023 5010420900022432 (by norm_num) (by norm_num) (by norm_num) (by norm_num) (by norm_num) (by norm_num) (by norm_num) (by norm_num)
  have h2 : round2 100000000000000001097906362944045541740492309677311846336810682903157585404911491537163328978494688899061249669721172515611590283743140088328307009198146046031271664502933027185697489699588559043338384466165001178426897626212945177628091195786707458122783970171784415105291802893207873272974885715430223118336 = 100000000000000001097906362944045541740492309677311846336810682903157585404911491537163328978494688899061249669721172515611590283743140088328307009198146046031271664502933027185697489699588559043338384466165001178426897626212945177628091195786707458122783970171784415105291802893207873272974885715430223118336 := by norm_num [round2]
  have h3 : round64 (100000000000000001097906362944045541740492309677311846336810682903157585404911491537163328978494688899061249669721172515611590283743140088328307009198146046031271664502933027185697489699588559043338384466165001178426897626212945177628091195786707458122783970171784415105291802893207873272974885715430223118336) = fin 100000000000000001097906362944045541740492309677311846336810682903157585404911491537163328978494688899061249669721172515611590283743140088328307009198146046031271664502933027185697489699588559043338384466165001178426897626212945177628091195786707458122783970171784415105291802893207873272974885715430223118336 :=
    round64_pos_val _ _ 1023 5010420900022432 (by norm_num) (by norm_num) (by norm_num) (by norm_num) (by norm_num) (by norm_num) (by norm_num) (by norm_num)
  have h4 : max (0 : ℚ) 100000000000000001097906362944045541740492309677311846336810682903157585404911491537163328978494688899061249669721172515611590283743140088328307009198146046031271664502933027185697489699588559043338384466165001178426897626212945177628091195786707458122783970171784415105291802893207873272974885715430223118336 = 100000000000000001097906362944045541740492309677311846336810682903157585404911491537163328978494688899061249669721172515611590283743140088328307009198146046031271664502933027185697489699588559043338384466165001178426897626212945177628091195786707458122783970171784415105291802893207873272974885715430223118336 := by norm_num
  have h5 : round64 (100000000000000001097906362944045541740492309677311846336810682903157585404911491537163328978494688899061249669721172515611590283743140088328307009198146046031271664502933027185697489699588559043338384466165001178426897626212945177628091195786707458122783970171784415105291802893207873272974885715430223118336 * 10) = posInf := round64_overflow (by norm_num)
  exact diffEnergy64_eval_overflow _ _ _ _ _ _ _ h1 h2 h3 h4 h5

theorem diffEnergy64_delta_overflow :
    Binary64.diffEnergy (some (fin (-(10 ^ 308)))) (some (fin (10 ^ 308))) (fin 1) = none := by
  have h1 : round64 (10 ^ 308 - -(10 ^ 308)) = posInf := round64_overflow (by norm_num)
  exact diffEnergy64_eval_null _ _ _ h1

/-! ## The loss and energy helpers in binary64 arithmetic -/

theorem rounded_nonpos {z : JSNum} (hz : z = negInf ∨ ∃ r, z = fin r ∧ r ≤ 0) :
    z.rounded = negInf ∨ ∃ r, z.rounded = fin r ∧ r ≤ 0 := by
  rcases hz with rfl | ⟨r, rfl, hr⟩
  · exact Or.inl rfl
  · exact round64_nonpos hr

theorem div_nonpos_by_pos {z : JSNum} {U : ℚ} (hU : 0 < U)
    (hz : z = negInf ∨ ∃ r, z = fin r ∧ r ≤ 0) :
    JSNum.div z (fin U) = negInf ∨ ∃ r, JSNum.div z (fin U) = fin r ∧ r ≤ 0 := by
  rcases hz with rfl | ⟨r, rfl, hr⟩
  · left
    simp [JSNum.div, JSNum.ofSign, not_lt.mpr hU.le]
  · right
    refine ⟨r / U, by simp [JSNum.div, hU.ne'], div_nonpos_of_nonpos_of_nonneg hr hU.le⟩

theorem mul_nonpos_by_hundred {z : JSNum} (hz : z = negInf ∨ ∃ r, z = fin r ∧ r ≤ 0) :
    JSNum.mul z (fin 100) = negInf ∨ ∃ r, JSNum.mul z (fin 100) = fin r ∧ r ≤ 0 := by
  rcases hz with rfl | ⟨r, rfl, hr⟩
  · left
    simp [JSNum.mul, JSNum.ofSign]
  · right
    exact ⟨r * 100, rfl, by linarith⟩

theorem toFixed64_nonpos {z : JSNum} (hz : z = negInf ∨ ∃ r, z = fin r ∧ r ≤ 0) :
    JSNum.lt (fin 0) (toFixed64 z) = false ∧
    (toFixed64 z = negInf ∨ ∃ n : ℤ, toFixed64 z = round64 ((n : ℚ) / 100)) := by
  rcases hz with rfl | ⟨r, rfl, hr⟩
  · exact ⟨rfl, Or.inl rfl⟩
  · obtain ⟨n, hn, -⟩ := round2_cases r
    have hx : toFixed64 (fin r) = round64 (round2 r) := rfl
    refine ⟨?_, Or.inr ⟨n, by rw [hx, hn]⟩⟩
    rw [hx]
    rcases round64_nonpos (round2_nonpos hr) with h | ⟨t, h, ht⟩
    · rw [h]
      rfl
    · rw [h]
      simp [JSNum.lt, not_lt.mpr ht]

theorem lossOrNull64_null_iff (input c : Option JSNum) :
    Binary64.lossOrNull input c = none ↔ input = none ∨ input = some (fin 0) := by
  cases input with
  | none => simp [Binary64.lossOrNull]
  | some i =>
      by_cases h : i = fin 0
      · simp [Binary64.lossOrNull, h]
      · simp [Binary64.lossOrNull, h]

theorem lossOrNull64_nonpos (U D : ℚ) (hU : 0 < U) (hD : U < D) :
    ∃ x, Binary64.lossOrNull (some (fin U)) (some (fin D)) = some x ∧
      JSNum.lt (fin 0) x = false ∧ (x = negInf ∨ ∃ n : ℤ, x = round64 ((n : ℚ) / 100)) := by
  have h0 : (JSNum.sub (fin U) (fin D)) = negInf ∨ ∃ r, (JSNum.sub (fin U) (fin D)) = fin r ∧ r ≤ 0 :=
    Or.inr ⟨U - D, rfl, by linarith⟩
  have h := toFixed64_nonpos (rounded_nonpos (mul_nonpos_by_hundred
    (rounded_nonpos (div_nonpos_by_pos hU (rounded_nonpos h0)))))
  refine ⟨_, ?_, h⟩
  simp only [Binary64.lossOrNull, if_neg (fin_ne_zero hU.ne'), Option.getD_some]

/-- C1, amended: in binary64 arithmetic `lossOrNull(U, D)` is `null` exactly
when `U` is `null` or `0`; it is not clamped: whenever `D > U > 0` the result
is a number that is never positive, namely `-Infinity` (overflow) or the
binary64 number nearest to a two-decimal value, negative or zero.  A small
excess rounds to zero (`lossOrNull(100000, 100001)`), `lossOrNull(1000, 1200)`
is `-20`, `lossOrNull(1000, 950)` is `5`, `lossOrNull(0, 100)` is `null`, and
at a decimal tie the rounding follows the binary64 product:
`lossOrNull(4000, 3997)` is `0.07` although the exact loss `0.075` rounds to
`0.08`. -/
theorem lossOrNull_unclamped_never_positive (U D : ℚ) (hU : 0 < U) (hD : U < D)
    (input c : Option JSNum) :
    (Binary64.lossOrNull input c = none ↔ input = none ∨ input = some (fin 0)) ∧
    (∃ x, Binary64.lossOrNull (some (fin U)) (some (fin D)) = some x ∧
      JSNum.lt (fin 0) x = false ∧ (x = negInf ∨ ∃ n : ℤ, x = round64 ((n : ℚ) / 100))) ∧
    Binary64.lossOrNull (some (fin 100000)) (some (fin 100001)) = some (fin 0) ∧
    Binary64.lossOrNull (some (fin 1000)) (some (fin 1200)) = some (fin (-20)) ∧
    Binary64.lossOrNull (some (fin 1000)) (some (fin 950)) = some (fin 5) ∧
    Binary64.lossOrNull (some (fin 0)) (some (fin 100)) = none ∧
    Binary64.lossOrNull (some (fin 4000)) (some (fin 3997)) = some (round64 (7 / 100)) ∧
    round2 (((4000 : ℚ) - 3997) / 4000 * 100) = 8 / 100 ∧
    round64 (7 / 100) ≠ round64 (8 / 100) := by
  refine ⟨lossOrNull64_null_iff input c, lossOrNull64_nonpos U D hU hD,
    lossOrNull64_100000_100001, lossOrNull64_1000_1200, lossOrNull64_1000_950, ?_, ?_, ?_, ?_⟩
  · simp [Binary64.lossOrNull]
  · rw [round64_7_100]
    exact lossOrNull64_4000_3997
  · norm_num [round2]
  · rw [round64_7_100, round64_8_100]
    intro h
    injection h with h
    norm_num at h

/-- C1, witness of the amended statement at `U = 1000`, `D = 1200`: the loss is
`-20`, which is not positive. -/
theorem lossOrNull_unclamped_never_positive_witness :
    (0 : ℚ) < 1000 ∧ (1000 : ℚ) < 1200 ∧
    ∃ x, Binary64.lossOrNull (some (fin 1000)) (some (fin 1200)) = some x ∧
      JSNum.lt (fin 0) x = false :=
  have h := (lossOrNull_unclamped_never_positive 1000 1200 (by norm_num) (by norm_num)
    none none).2.1
  ⟨by norm_num, by norm_num, h.choose, h.choose_spec.1, h.choose_spec.2.1⟩

theorem diffEnergy64_small_delta (day1 day2 : ℚ) (mf : JSNum) (h : |day2 - day1| ≤ 4 / 1000) :
    Binary64.diffEnergy (some (fin day1)) (some (fin day2)) mf = some (fin 0) := by
  obtain ⟨r, hr, hsmall⟩ := round64_small h
  have h2 : round2 r = 0 := round2_small hsmall
  have h0 : round2 0 = 0 := by norm_num [round2]
  have hmax : max (0 : ℚ) 0 = 0 := max_self 0
  have hz : ∀ m : ℚ, round64 (0 * m) = fin 0 := by
    intro m
    rw [zero_mul]
    exact round64_zero
  cases mf <;>
    simp only [Binary64.diffEnergy, Binary64.computeEnergy, JSNum.sub, JSNum.rounded, hr,
      JSNum.isFinite, if_true, Bool.false_eq_true, if_false, toFixed64, toFixed2, h2,
      round64_zero, JSNum.max0, hmax, JSNum.mul, hz, h0]

/-- C2, amended: in binary64 arithmetic `diffEnergy` rounds twice: the delta is
rounded to two decimals before it is clamped and multiplied, and the product is
rounded to two decimals again.  A delta of magnitude at most `0.004` therefore
gives `0` whatever the multiplier (`diffEnergy(0, 0.004, 1000)` is `0`), the
second rounding acts on the binary64 product (`diffEnergy(0, 0.03, 0.5)` is
`0.01`), and `diffEnergy(1.25, 3.5, 2)` is `4.5`. -/
theorem diffEnergy_rounds_delta_then_product (day1 day2 : ℚ) (mf : JSNum)
    (h : |day2 - day1| ≤ 4 / 1000) :
    Binary64.diffEnergy (some (fin day1)) (some (fin day2)) mf = some (fin 0) ∧
    Binary64.diffEnergy (some (fin 0)) (some (fin (4 / 1000))) (fin 1000) = some (fin 0) ∧
    Binary64.diffEnergy (some (fin 0)) (some (fin (3 / 100))) (fin (1 / 2))
      = some (round64 (1 / 100)) ∧
    Binary64.diffEnergy (some (fin (5 / 4))) (some (fin (7 / 2))) (fin 2) = some (fin (9 / 2)) := by
  refine ⟨diffEnergy64_small_delta day1 day2 mf h, ?_, ?_, diffEnergy64_125_35_2⟩
  · exact diffEnergy64_small_delta 0 (4 / 1000) (fin 1000) (by norm_num [abs_of_nonneg])
  · rw [round64_1_100]
    exact diffEnergy64_003_half

/-- C2, witness of the amended statement at readings `10` and `10.004` with
multiplier `1000`. -/
theorem diffEnergy_rounds_delta_then_product_witness :
    |(2501 / 250 : ℚ) - 10| ≤ 4 / 1000 ∧
    Binary64.diffEnergy (some (fin 10)) (some (fin (2501 / 250))) (fin 1000) = some (fin 0) :=
  have h : |(2501 / 250 : ℚ) - 10| ≤ 4 / 1000 := by
    rw [abs_of_nonneg (by norm_num)]
    norm_num
  ⟨h, (diffEnergy_rounds_delta_then_product 10 (2501 / 250) (fin 1000) h).1⟩

/-! ## Percentages, totals and results in binary64 arithmetic -/

theorem pct_zero_whole (x : JSNum) : pct x (fin 0) = fin 0 := by
  simp [pct, JSNum.truthy]

theorem pct_form (a b : JSNum) :
    (pct a b).isFinite = false ∨ ∃ n : ℤ, pct a b = round64 ((n : ℚ) / 100) := by
  unfold pct
  split_ifs
  · right
    refine ⟨0, ?_⟩
    rw [Int.cast_zero, zero_div, round64_zero]
  · exact toFixed64_form _

theorem pctLoss_zero_input (x : JSNum) : pctLoss (fin 0) x = fin 0 := by
  simp [pctLoss, JSNum.truthy]

theorem countYes_replicate (col : String) (n : Nat) (r : Row) :
    countYes col (List.replicate n r) = if parseYesNo (field r col) then n else 0 := by
  unfold countYes
  rw [List.filter_replicate]
  split_ifs <;> simp

theorem countYes_append (col : String) (a b : List Row) :
    countYes col (a ++ b) = countYes col a + countYes col b := by
  unfold countYes
  rw [List.filter_append, List.length_append]

/-- C13, counterexample: 4000 meter rows of which 3 have `Comm` = Yes.  The
counter is 3 and `totalRows` is 4000, so the claimed value is `3 / 4000 * 100`
rounded to two decimals, `0.08`; `computeGlobalTotals` returns `0.07`, the
binary64 product being just below `0.075`. -/
theorem sla_percentage_tie_counterexample :
    (computeGlobalTotals (buildModelFromThreeSheets State.init [] []
      (List.replicate 3 [("Comm", Cell.str "Yes")] ++ List.replicate 3997 []))).communicating
      = some 3 ∧
    (buildModelFromThreeSheets State.init [] []
      (List.replicate 3 [("Comm", Cell.str "Yes")] ++ List.replicate 3997 [])).slaGlobal.totalRows
      = 4000 ∧
    (computeGlobalTotals (buildModelFromThreeSheets State.init [] []
      (List.replicate 3 [("Comm", Cell.str "Yes")] ++ List.replicate 3997 []))).communicatingPct
      = round64 (7 / 100) ∧
    round2 ((3 : ℚ) / 4000 * 100) = 8 / 100 ∧
    round64 (7 / 100) ≠ round64 (8 / 100) := by
  have y : parseYesNo (field [("Comm", Cell.str "Yes")] "Comm") = true := by decide
  have u : parseYesNo (field [] "Comm") = false := by decide
  have hc : countYes "Comm" ([] : List Row) + countYes "Comm" ([] : List Row)
      + countYes "Comm" (List.replicate 3 [("Comm", Cell.str "Yes")] ++ List.replicate 3997 [])
      = 3 := by
    rw [countYes_append, countYes_replicate, countYes_replicate, y, u]
    rfl
  have hl : ([] : List Row).length + ([] : List Row).length
      + (List.replicate 3 [("Comm", Cell.str "Yes")] ++ List.replicate 3997 ([] : Row)).length
      = 4000 := by
    rw [List.length_append, List.length_replicate, List.length_replicate]
    rfl
  refine ⟨?_, ?_, ?_, by norm_num [round2], ?_⟩
  · simp only [computeGlobalTotals, build_slaGlobal, hc]
  · simp only [build_slaGlobal, hl]
  · simp only [computeGlobalTotals, build_slaGlobal, hc, hl, counterNum, Nat.cast_ofNat]
    rw [round64_7_100]
    exact pct_3_4000
  · rw [round64_7_100, round64_8_100]
    intro h
    injection h with h
    norm_num at h

/-- C13, amended: for every built model each SLA percentage of
`computeGlobalTotals` is `pct(counter, totalRows)`, the value
`Number(((counter / totalRows) * 100).toFixed(2))` in binary64 arithmetic, of
its global counter (the number of rows whose flag parses to true) and of the
total number of rows; `pct` is `0` when `totalRows` is `0`, and otherwise not
finite or the binary64 number nearest to a two-decimal value; with 10 rows of
which 3 have `Comm` = Yes the communicating percentage is `30`. -/
theorem sla_percentages_from_counters (s : State) (fs ds ms : List Row) :
    (computeGlobalTotals (buildModelFromThreeSheets s fs ds ms)).communicating
      = some (countYes "Comm" fs + countYes "Comm" ds + countYes "Comm" ms) ∧
    (computeGlobalTotals (buildModelFromThreeSheets s fs ds ms)).communicatingPct
      = pct (fin ((countYes "Comm" fs + countYes "Comm" ds + countYes "Comm" ms : Nat) : ℚ))
          (fin ((fs.length + ds.length + ms.length : Nat) : ℚ)) ∧
    (computeGlobalTotals (buildModelFromThreeSheets s fs ds ms)).nonCommunicatingPct
      = pct (fin ((countYes "NonComm" fs + countYes "NonComm" ds + countYes "NonComm" ms : Nat) : ℚ))
          (fin ((fs.length + ds.length + ms.length : Nat) : ℚ)) ∧
    (computeGlobalTotals (buildModelFromThreeSheets s fs ds ms)).unmappedPct
      = pct (fin ((countYes "Unmapped" ds + countYes "Unmapped" ms : Nat) : ℚ))
          (fin ((fs.length + ds.length + ms.length : Nat) : ℚ)) ∧
    (computeGlobalTotals (buildModelFromThreeSheets s fs ds ms)).neverCommPct
      = pct (fin ((countYes "NeverComm" ds + countYes "NeverComm" ms : Nat) : ℚ))
          (fin ((fs.length + ds.length + ms.length : Nat) : ℚ)) ∧
    (∀ x : JSNum, pct x (fin 0) = fin 0) ∧
    (∀ a b : JSNum, (pct a b).isFinite = false ∨ ∃ n : ℤ, pct a b = round64 ((n : ℚ) / 100)) ∧
    pct (fin 3) (fin 10) = fin 30 ∧
    (fs.length + ds.length + ms.length = 10 →
      countYes "Comm" fs + countYes "Comm" ds + countYes "Comm" ms = 3 →
      (computeGlobalTotals (buildModelFromThreeSheets s fs ds ms)).communicatingPct = fin 30) := by
  have hc : (computeGlobalTotals (buildModelFromThreeSheets s fs ds ms)).communicatingPct
      = pct (fin ((countYes "Comm" fs + countYes "Comm" ds + countYes "Comm" ms : Nat) : ℚ))
          (fin ((fs.length + ds.length + ms.length : Nat) : ℚ)) := by
    simp only [computeGlobalTotals, build_slaGlobal, counterNum]
  refine ⟨?_, hc, ?_, ?_, ?_, pct_zero_whole, pct_form, pct_3_10, ?_⟩
  · simp only [computeGlobalTotals, build_slaGlobal]
  · simp only [computeGlobalTotals, build_slaGlobal, counterNum]
  · simp only [computeGlobalTotals, build_slaGlobal, counterNum]
  · simp only [computeGlobalTotals, build_slaGlobal, counterNum]
  · intro hN h3
    rw [hc, hN, h3]
    simp only [Nat.cast_ofNat]
    exact pct_3_10

/-- C13, witness: two feeder rows, three DT rows and five meter rows, one row
of each sheet with `Comm` = Yes: 10 rows, 3 communicating, 30 percent. -/
theorem sla_percentages_from_counters_witness :
    (computeGlobalTotals (buildModelFromThreeSheets State.init
        [[("Comm", Cell.str "Yes")], []]
        [[("Comm", Cell.str "Yes")], [], []]
        [[("Comm", Cell.str "Yes")], [], [], [], []])).communicatingPct = fin 30 :=
  (sla_percentages_from_counters State.init
    [[("Comm", Cell.str "Yes")], []]
    [[("Comm", Cell.str "Yes")], [], []]
    [[("Comm", Cell.str "Yes")], [], [], [], []]).2.2.2.2.2.2.2.2 (by decide) (by decide)

theorem Built.meter_index_entries {fs ds ms : List Row} {s : State} (B : Built fs ds ms s)
    (hM : s.meterById = indexFrom [] 0 (ms.map (fun m => field m "Meter No."))) :
    ∀ p ∈ s.meterById, ∃ o, s.meterObjs[p.2]? = some o ∧ o.id = p.1 := by
  intro p hp
  rw [hM] at hp
  rcases mem_indexFrom _ _ _ p hp with h | ⟨-, h⟩
  · exact absurd h (List.not_mem_nil p)
  · rw [Nat.sub_zero, List.getElem?_map] at h
    cases hrow : ms[p.2]? with
    | none => rw [hrow] at h; exact Option.noConfusion h
    | some row =>
        rw [hrow] at h
        refine ⟨mkMeterObj row, by rw [B.meterObjs, List.getElem?_map, hrow]; rfl, ?_⟩
        exact Option.some.inj h

/-- C14, amended: for every built model the three aggregate losses of
`computeGlobalTotals` are `pctLoss` of two dataset-wide totals: `lossFdt` of
the feeder total and the DT total, `lossDtc` of the DT total and the meter
total, `lossFc` of the feeder total and the meter total.  A total is the sum,
in index order and in binary64 arithmetic, of the energies (`null` counted as
`0`) of the entities the index holds, one per key of the index.  `pctLoss` is
the number `0`, not `null`, when its upstream total is `0`, and follows the
binary64 product at a decimal tie: `pctLoss(160, 63)` is `60.62`. -/
theorem global_losses_from_index_sums (s : State) (fs ds ms : List Row) :
    (computeGlobalTotals (buildModelFromThreeSheets s fs ds ms)).lossFdt
      = pctLoss
          (sum ((feedersAt (buildModelFromThreeSheets s fs ds ms)
            (mapValues (buildModelFromThreeSheets s fs ds ms).feederById)).map
              (fun f => energyOrZero f.feederEnergy)))
          (sum ((dtsAt (buildModelFromThreeSheets s fs ds ms)
            (mapValues (buildModelFromThreeSheets s fs ds ms).dtById)).map
              (fun d => energyOrZero d.dtEnergy))) ∧
    (computeGlobalTotals (buildModelFromThreeSheets s fs ds ms)).lossDtc
      = pctLoss
          (sum ((dtsAt (buildModelFromThreeSheets s fs ds ms)
            (mapValues (buildModelFromThreeSheets s fs ds ms).dtById)).map
              (fun d => energyOrZero d.dtEnergy)))
          (sum ((metersAt (buildModelFromThreeSheets s fs ds ms)
            (mapValues (buildModelFromThreeSheets s fs ds ms).meterById)).map
              (fun m => energyOrZero m.energy))) ∧
    (computeGlobalTotals (buildModelFromThreeSheets s fs ds ms)).lossFc
      = pctLoss
          (sum ((feedersAt (buildModelFromThreeSheets s fs ds ms)
            (mapValues (buildModelFromThreeSheets s fs ds ms).feederById)).map
              (fun f => energyOrZero f.feederEnergy)))
          (sum ((metersAt (buildModelFromThreeSheets s fs ds ms)
            (mapValues (buildModelFromThreeSheets s fs ds ms).meterById)).map
              (fun m => energyOrZero m.energy))) ∧
    (feedersAt (buildModelFromThreeSheets s fs ds ms)
        (mapValues (buildModelFromThreeSheets s fs ds ms).feederById)).map (fun f => f.id)
      = mapKeys (buildModelFromThreeSheets s fs ds ms).feederById ∧
    (dtsAt (buildModelFromThreeSheets s fs ds ms)
        (mapValues (buildModelFromThreeSheets s fs ds ms).dtById)).map (fun d => d.id)
      = mapKeys (buildModelFromThreeSheets s fs ds ms).dtById ∧
    (metersAt (buildModelFromThreeSheets s fs ds ms)
        (mapValues (buildModelFromThreeSheets s fs ds ms).meterById)).map (fun m => m.id)
      = mapKeys (buildModelFromThreeSheets s fs ds ms).meterById ∧
    (mapKeys (buildModelFromThreeSheets s fs ds ms).feederById).Nodup ∧
    (mapKeys (buildModelFromThreeSheets s fs ds ms).dtById).Nodup ∧
    (mapKeys (buildModelFromThreeSheets s fs ds ms).meterById).Nodup ∧
    (∀ x : JSNum, pctLoss (fin 0) x = fin 0) ∧
    pctLoss (fin 160) (fin 63) = round64 (6062 / 100) ∧
    round2 (((160 : ℚ) - 63) / 160 * 100) = 6063 / 100 ∧
    round64 (6062 / 100) ≠ round64 (6063 / 100) := by
  have B := build_built s fs ds ms
  obtain ⟨hF, hD, hM⟩ := build_indexes s fs ds ms
  obtain ⟨hvF, hvD⟩ := B.index_entries hF hD
  have hvM := B.meter_index_entries hM
  refine ⟨rfl, rfl, rfl, ?_, ?_, ?_, ?_, ?_, ?_, pctLoss_zero_input, ?_, by norm_num [round2], ?_⟩
  · exact map_fst_filterMap_of_valid _ (fun (o : FeederObj) => o.id) _ hvF
  · exact map_fst_filterMap_of_valid _ (fun (o : DtObj) => o.id) _ hvD
  · exact map_fst_filterMap_of_valid _ (fun (o : MeterObj) => o.id) _ hvM
  · rw [hF]
    exact (indexFrom_keys [] 0 _ (by simp [mapKeys])).1
  · rw [hD]
    exact (indexFrom_keys [] 0 _ (by simp [mapKeys])).1
  · rw [hM]
    exact (indexFrom_keys [] 0 _ (by simp [mapKeys])).1
  · rw [round64_6062_100]
    exact pctLoss_160_63
  · rw [round64_6062_100, round64_6063_100]
    intro h
    injection h with h
    norm_num at h

theorem diffEnergy64_null_iff (d1 d2 : Option JSNum) (mf : JSNum) :
    Binary64.diffEnergy d1 d2 mf = none ↔
      d1 = none ∨ d2 = none ∨
        ∃ a b, d1 = some a ∧ d2 = some b ∧ (JSNum.sub b a).rounded.isFinite = false := by
  cases d1 with
  | none => simp [Binary64.diffEnergy, Binary64.computeEnergy]
  | some a =>
      cases d2 with
      | none => simp [Binary64.diffEnergy, Binary64.computeEnergy]
      | some b =>
          by_cases h : (JSNum.sub b a).rounded.isFinite = true
          · simp [Binary64.diffEnergy, Binary64.computeEnergy, h]
          · simp [Binary64.diffEnergy, Binary64.computeEnergy, h]

/-- C22, the code at the failing input: `diffEnergy(0, 1e308, 10)` has a finite
delta and a finite multiplier, and the product overflows: the result is
`Infinity`, which is neither `null` nor finite.  The rest of the claim holds in
binary64 arithmetic: the result is `null` exactly when a reading is `null` or
the delta `day2 - day1` is not finite (as for `diffEnergy(-1e308, 1e308, 1)`),
and `diffEnergy(null, 5, 1)` and `diffEnergy(5, null, 1)` are `null`. -/
theorem diffEnergy_product_overflows (d1 d2 : Option JSNum) (mf : JSNum) :
    Binary64.diffEnergy (some (fin 0)) (some (fin (10 ^ 308))) (fin 10) = some posInf ∧
    posInf.isFinite = false ∧
    (Binary64.diffEnergy d1 d2 mf = none ↔
      d1 = none ∨ d2 = none ∨
        ∃ a b, d1 = some a ∧ d2 = some b ∧ (JSNum.sub b a).rounded.isFinite = false) ∧
    Binary64.diffEnergy (some (fin (-(10 ^ 308)))) (some (fin (10 ^ 308))) (fin 1) = none ∧
    Binary64.diffEnergy none (some (fin 5)) (fin 1) = none ∧
    Binary64.diffEnergy (some (fin 5)) none (fin 1) = none :=
  ⟨diffEnergy64_overflow, rfl, diffEnergy64_null_iff d1 d2 mf, diffEnergy64_delta_overflow,
    rfl, rfl⟩

/-- C23, counterexample: `lossOrNull(4000, 3997)` returns the binary64 number
written `0.07`; its exact value is `1261007895663739 / 2 ^ 54`, and a hundred
times that is not an integer. -/
theorem two_decimal_result_not_hundredth_counterexample :
    Binary64.lossOrNull (some (fin 4000)) (some (fin 3997))
      = some (fin (1261007895663739 / 18014398509481984)) ∧
    round64 (7 / 100) = fin (1261007895663739 / 18014398509481984) ∧
    ¬ ∃ n : ℤ, (1261007895663739 / 18014398509481984 : ℚ) * 100 = (n : ℚ) := by
  refine ⟨lossOrNull64_4000_3997, round64_7_100, ?_⟩
  rintro ⟨n, hn⟩
  have h1 : (126100789566373900 : ℚ) = (n : ℚ) * 18014398509481984 := by
    rw [← hn]
    norm_num
  have h2 : (126100789566373900 : ℤ) = n * 18014398509481984 := by exact_mod_cast h1
  omega

/-- C23, amended: in binary64 arithmetic every non-null value returned by
`diffEnergy` and by `lossOrNull` for finite inputs is either not finite (an
overflow) or the binary64 number nearest to a value with at most two decimals,
`Number` of a `toFixed(2)` text; a raw `33.333...` is returned as the binary64
number written `33.33`. -/
theorem results_are_two_decimal_doubles (day1 day2 U D : ℚ) (mf : JSNum) :
    (Binary64.diffEnergy (some (fin day1)) (some (fin day2)) mf = none ∨
      ∃ x, Binary64.diffEnergy (some (fin day1)) (some (fin day2)) mf = some x ∧
        (x.isFinite = false ∨ ∃ n : ℤ, x = round64 ((n : ℚ) / 100))) ∧
    (Binary64.lossOrNull (some (fin U)) (some (fin D)) = none ∨
      ∃ x, Binary64.lossOrNull (some (fin U)) (some (fin D)) = some x ∧
        (x.isFinite = false ∨ ∃ n : ℤ, x = round64 ((n : ℚ) / 100))) ∧
    (Binary64.lossOrNull (some (fin U)) none = none ∨
      ∃ x, Binary64.lossOrNull (some (fin U)) none = some x ∧
        (x.isFinite = false ∨ ∃ n : ℤ, x = round64 ((n : ℚ) / 100))) ∧
    Binary64.lossOrNull (some (fin 3)) (some (fin 2)) = some (round64 (3333 / 100)) := by
  refine ⟨?_, ?_, ?_, ?_⟩
  · cases hc : Binary64.computeEnergy (some (fin day1)) (some (fin day2)) with
    | none => left; simp [Binary64.diffEnergy, hc]
    | some base =>
        right
        refine ⟨_, ?_, toFixed64_form (JSNum.mul base (if mf.isFinite then mf else fin 1)).rounded⟩
        simp only [Binary64.diffEnergy, hc]
  · by_cases hU : U = 0
    · left; simp [Binary64.lossOrNull, hU]
    · right
      refine ⟨_, ?_, toFixed64_form (JSNum.mul (JSNum.div
        (JSNum.sub (fin U) ((some (fin D)).getD (fin 0))).rounded (fin U)).rounded (fin 100)).rounded⟩
      simp only [Binary64.lossOrNull, if_neg (fin_ne_zero hU)]
  · by_cases hU : U = 0
    · left; simp [Binary64.lossOrNull, hU]
    · right
      refine ⟨_, ?_, toFixed64_form (JSNum.mul (JSNum.div
        (JSNum.sub (fin U) ((none : Option JSNum).getD (fin 0))).rounded (fin U)).rounded (fin 100)).rounded⟩
      simp only [Binary64.lossOrNull, if_neg (fin_ne_zero hU)]
  · rw [round64_3333_100]
    exact lossOrNull64_3_2

/-- C19, the code at the failing input: DT `D1` has energy `100`; meter `M1`
(energy `30`) is linked to it and meter `M2` (energy `20`) carries its
`DT Code` but is unmapped.  The DT's `meters` list holds `M1` only, yet the DT
row of the results table has `Sum_Cons_E_for_DT = 50` and
`DT_to_Cons_Loss = 50`, not `30` and `70`; all the numbers involved are the
same in binary64 arithmetic. -/
theorem results_sum_counts_unmapped_meters :
    (buildModelFromThreeSheets State.init
        [[("Region Name", Cell.str "R"), ("Feeder Code", Cell.str "F1")]]
        [[("Feeder Code", Cell.str "F1"), ("DT Code", Cell.str "D1"),
          ("DT Day1 Reading", Cell.num (fin 0)), ("DT Day2 Reading", Cell.num (fin 100))]]
        [[("Meter No.", Cell.str "M1"), ("Feeder Code", Cell.str "F1"),
          ("DT Code", Cell.str "D1"), ("Meter Day1 Reading", Cell.num (fin 0)),
          ("Meter Day2 Reading", Cell.num (fin 30))],
         [("Meter No.", Cell.str "M2"), ("Feeder Code", Cell.str "F1"),
          ("DT Code", Cell.str "D1"), ("Meter Day1 Reading", Cell.num (fin 0)),
          ("Meter Day2 Reading", Cell.num (fin 20)), ("Unmapped", Cell.str "Yes")]]).dtObjs.map
      (fun d => (d.id, d.meters)) = [(Cell.str "D1", [0])] ∧
    (buildResultsTable (buildModelFromThreeSheets State.init
        [[("Region Name", Cell.str "R"), ("Feeder Code", Cell.str "F1")]]
        [[("Feeder Code", Cell.str "F1"), ("DT Code", Cell.str "D1"),
          ("DT Day1 Reading", Cell.num (fin 0)), ("DT Day2 Reading", Cell.num (fin 100))]]
        [[("Meter No.", Cell.str "M1"), ("Feeder Code", Cell.str "F1"),
          ("DT Code", Cell.str "D1"), ("Meter Day1 Reading", Cell.num (fin 0)),
          ("Meter Day2 Reading", Cell.num (fin 30))],
         [("Meter No.", Cell.str "M2"), ("Feeder Code", Cell.str "F1"),
          ("DT Code", Cell.str "D1"), ("Meter Day1 Reading", Cell.num (fin 0)),
          ("Meter Day2 Reading", Cell.num (fin 20)),
          ("Unmapped", Cell.str "Yes")]])).resultsRows.map
      (fun row => (row.DT_Code, row.DT_E, row.Sum_Cons_E_for_DT, row.DT_to_Cons_Loss))
      = [(Cell.str "", none, none, none),
         (Cell.str "D1", some (fin 100), some (fin 50), some (fin 50))] ∧
    Binary64.diffEnergy (some (fin 0)) (some (fin 100)) (fin 1) = some (fin 100) ∧
    Binary64.diffEnergy (some (fin 0)) (some (fin 30)) (fin 1) = some (fin 30) ∧
    Binary64.diffEnergy (some (fin 0)) (some (fin 20)) (fin 1) = some (fin 20) ∧
    sum [fin 30, fin 20] = fin 50 ∧
    Binary64.lossOrNull (some (fin 100)) (some (fin 50)) = some (fin 50) ∧
    sum [fin 30] = fin 30 ∧
    Binary64.lossOrNull (some (fin 100)) (some (fin 30)) = some (fin 70) := by
  have e1 : diffEnergy (some (fin 0)) (some (fin 100)) (fin 1) = some (fin 100) := by
    rw [diffEnergy_fin]
    norm_num [round2]
  have e2 : diffEnergy (some (fin 0)) (some (fin 30)) (fin 1) = some (fin 30) := by
    rw [diffEnergy_fin]
    norm_num [round2]
  have e3 : diffEnergy (some (fin 0)) (some (fin 20)) (fin 1) = some (fin 20) := by
    rw [diffEnergy_fin]
    norm_num [round2]
  have o : orOne nan = fin 1 := by simp [orOne, JSNum.truthy]
  have l1 : lossOrNull (some (fin 100)) (some (fin 50)) = some (fin 50) := by
    rw [lossOrNull_fin _ _ (by norm_num)]
    norm_num [round2]
  have y : parseYesNo (Cell.str "Yes") = true := by decide
  have u : parseYesNo Cell.undef = false := rfl
  have en : diffEnergy (some nan) (some nan) (fin 1) = none := rfl
  have r30 : round64 (0 + 30) = fin 30 := by rw [zero_add]; exact round64_30
  have r50 : round64 (30 + 20) = fin 50 := by norm_num [round64_50]
  have r100 : round64 (0 + 100) = fin 100 := by rw [zero_add]; exact round64_100
  refine ⟨?_, ?_, diffEnergy64_0_100_1, diffEnergy64_0_30_1, diffEnergy64_0_20_1, ?_,
    lossOrNull64_100_50, ?_, lossOrNull64_100_30⟩
  · simp [buildModelFromThreeSheets, aggregateRegions, feederStep, dtStep, meterStep, resetState,
      State.init, mkFeederObj, mkDtObj, mkMeterObj, field, List.lookup, toNumber, mapGet, mapSet,
      pushFeeder, pushDt, pushDtMeter, pushFeederMeter, y, u, e1, e2, e3, o]
  · simp [buildResultsTable, buildModelFromThreeSheets, aggregateRegions, feederStep, dtStep,
      meterStep, resetState, State.init, mkFeederObj, mkDtObj, mkMeterObj, field, List.lookup,
      toNumber, mapGet, mapSet, pushFeeder, pushDt, pushDtMeter, pushFeederMeter, y, u, en, e1,
      e2, e3, o, feedersAt, dtsAt, metersAt, mapValues, energyById, sumByParent, JSNum.ltZero,
      JSNum.add, JSNum.rounded, round64_30, round64_50, round64_100, r30, r50, r100, l1]
  · simp [sum, orZero, JSNum.truthy, JSNum.add, JSNum.rounded, round64_30, r30, r50]
  · simp [sum, orZero, JSNum.truthy, JSNum.add, JSNum.rounded, round64_30, r30]

/-- C1, counterexample: with `U = 100000` and `D = 100001` the downstream sum
exceeds a positive upstream value, yet the rounded loss is zero (the code
returns `Number("-0.00")`), which is not negative; this holds with exact and
with binary64 arithmetic. -/
theorem lossOrNull_not_negative_counterexample :
    (0 : ℚ) < 100000 ∧ (100000 : ℚ) < 100001 ∧
    lossOrNull (some (fin 100000)) (some (fin 100001)) = some (fin 0) ∧ ¬ ((0 : ℚ) < 0) ∧
    Binary64.lossOrNull (some (fin 100000)) (some (fin 100001)) = some (fin 0) ∧
    JSNum.lt (fin 0) (fin 0) = false := by
  refine ⟨by norm_num, by norm_num, ?_, by norm_num, lossOrNull64_100000_100001, ?_⟩
  · rw [lossOrNull_fin _ _ (by norm_num)]
    norm_num [round2]
  · simp [JSNum.lt]

/-- C2, counterexample: with readings `0` and `0.004` and multiplier `1000`
the code returns `0`, with exact and with binary64 arithmetic, while the
unrounded delta times the multiplier, rounded once, is `4`. -/
theorem diffEnergy_single_rounding_counterexample :
    diffEnergy (some (fin 0)) (some (fin (1 / 250))) (fin 1000) = some (fin 0) ∧
    round2 (max 0 ((1 / 250 : ℚ) - 0) * 1000) = 4 ∧
    Binary64.diffEnergy (some (fin 0)) (some (fin (1 / 250))) (fin 1000) = some (fin 0) := by
  refine ⟨?_, ?_, ?_⟩
  · rw [diffEnergy_fin]
    norm_num [round2]
  · norm_num [round2]
  · exact diffEnergy64_small_delta 0 (1 / 250) (fin 1000) (by norm_num [abs_of_pos])

end NOMC
